import Mathlib

/-!
# HomeyCONZ: gateway connection and state synchronisation

A shallow embedding of `app.js` (the deCONZ application class) and of the device
classes under `drivers/`, followed by theorems about them.

* JavaScript values are the values `JSON.parse` can produce, plus `undefined` and `NaN`.
  Numbers are exact rationals: no rounding and no overflow.
* What the ECMAScript runtime and the absent module `util` compute is a parameter
  (`Env`) of every function that uses it.
* A device handle is a record of what the Homey framework keeps for it (capabilities,
  capability values, settings, availability) together with the trace of the calls
  made on it.
-/

namespace HomeyCONZ

/-! ## JavaScript values -/

/-- JavaScript values. -/
inductive JsVal where
  | undefined
  | null
  | bool (b : Bool)
  | num (q : ℚ)
  | nan
  | str (s : String)
  | arr (items : List JsVal)
  | obj (fields : List (String × JsVal))

/-- Errors a JavaScript evaluation can throw. -/
inductive JsError where
  | typeError
  | syntaxError
  deriving DecidableEq, Repr

/-- The parts of the runtime that the embedding does not define: ECMAScript builtins and
the function `xyToHs` of the module `util`, which is not among the sources. -/
structure Env where
  /-- The builtin `JSON.parse`; `none` is a thrown `SyntaxError`. -/
  parse : String → Option JsVal
  /-- The builtin `JSON.stringify`. -/
  stringify : JsVal → JsVal
  /-- The abstract operation `ToString`. -/
  toStr : JsVal → String
  /-- The abstract operation `StringToNumber`; `none` is `NaN`. -/
  strToNum : String → Option ℚ
  /-- The function `util.xyToHs(x, y, 255)`: the fields `hue` and `sat` of its result. -/
  xyToHs : JsVal → JsVal → JsVal × JsVal

namespace JsVal

/-- The conversion `ToBoolean`. -/
def truthy : JsVal → Bool
  | undefined => false
  | null => false
  | bool b => b
  | num q => q != 0
  | nan => false
  | str s => s != ""
  | arr _ => true
  | obj _ => true

/-- Whether the value is `null` or `undefined` (`v == null`). -/
def isNullish : JsVal → Bool
  | undefined => true
  | null => true
  | _ => false

/-- The names of the index properties of a sequence of length `n`. -/
def indexKeys (n : Nat) : List String :=
  (List.range n).map toString

/-- The method `hasOwnProperty` of `Object.prototype` on a value that is neither `null`
nor `undefined`: whether `k` names an own property. The expression `v.hasOwnProperty(k)`
reaches this method unless `v` has an own property of that name, which shadows it;
`callHasOwnProperty` is the expression on any value. -/
def hasOwnProperty : JsVal → String → Bool
  | obj fields, k => (fields.lookup k).isSome
  | arr items, k => k == "length" || (indexKeys items.length).contains k
  | str s, k => k == "length" || (indexKeys s.length).contains k
  | _, _ => false

/-- The position of an index property name among the first `n` indices. -/
def indexOfKey (n : Nat) (k : String) : Option Nat :=
  (List.range n).find? fun i => toString i == k

/-- The read `v.k` of a data property on a value that is neither `null` nor `undefined`. -/
def get : JsVal → String → JsVal
  | obj fields, k => (fields.lookup k).getD undefined
  | arr items, k =>
    if k == "length" then num items.length
    else match indexOfKey items.length k with
      | some i => items.getD i undefined
      | none => undefined
  | str s, k =>
    if k == "length" then num s.length
    else match indexOfKey s.length k with
      | some i => str (String.singleton (s.toList.getD i ' '))
      | none => undefined
  | _, _ => undefined

/-- The read `v[i]` for an index `i`; it throws on `null` and `undefined`. -/
def index (v : JsVal) (i : Nat) : Except JsError JsVal :=
  if v.isNullish then .error .typeError else .ok (v.get (toString i))

/-- The strict comparison `v === s` with a string literal. -/
def strictEqStr : JsVal → String → Bool
  | str t, s => t == s
  | _, _ => false

/-- The strict comparison `v === true`. -/
def isTrue : JsVal → Bool
  | bool true => true
  | _ => false

/-- The strict comparison `v === false`. -/
def isFalse : JsVal → Bool
  | bool false => true
  | _ => false

/-- The result of `typeof v !== 'string'`. -/
def notString : JsVal → Bool
  | str _ => false
  | _ => true

/-- Whether the value is an array or an object. -/
def isObject : JsVal → Bool
  | arr _ => true
  | obj _ => true
  | _ => false

/-- The conversion `ToPrimitive` for the values at hand: arrays and objects convert
through `toString`. -/
def toPrimitive (E : Env) (v : JsVal) : JsVal :=
  if v.isObject then str (E.toStr v) else v

/-- The conversion `ToNumber`; `none` is `NaN`. -/
def toNumber (E : Env) : JsVal → Option ℚ
  | undefined => none
  | null => some 0
  | bool b => some (if b then 1 else 0)
  | num q => some q
  | nan => none
  | str s => E.strToNum s
  | v => E.strToNum (E.toStr v)

/-- A number, or `NaN`, as a value. -/
def ofNumber : Option ℚ → JsVal
  | some q => num q
  | none => nan

/-- The quotient `v / c` by a non-zero numeric literal. -/
def div (E : Env) (v : JsVal) (c : ℚ) : JsVal :=
  ofNumber ((toNumber E v).map fun q => q / c)

/-- The difference `v - c` with a numeric literal. -/
def sub (E : Env) (v : JsVal) (c : ℚ) : JsVal :=
  ofNumber ((toNumber E v).map fun q => q - c)

/-- The difference `c - v` from a numeric literal. -/
def rsub (E : Env) (c : ℚ) (v : JsVal) : JsVal :=
  ofNumber ((toNumber E v).map fun q => c - q)

/-- The operator `a + b`: concatenation when either operand converts to a string,
numeric addition otherwise. -/
def add (E : Env) (a b : JsVal) : JsVal :=
  match toPrimitive E a, toPrimitive E b with
  | str s, pb => str (s ++ E.toStr pb)
  | pa, str t => str (E.toStr pa ++ t)
  | pa, pb =>
    match toNumber E pa, toNumber E pb with
    | some x, some y => num (x + y)
    | _, _ => nan

/-- The comparison `v > c` with a numeric literal. -/
def gt (E : Env) (v : JsVal) (c : ℚ) : Bool :=
  match toNumber E (toPrimitive E v) with
  | some q => decide (c < q)
  | none => false

/-- The comparison `v <= c` with a numeric literal. -/
def le (E : Env) (v : JsVal) (c : ℚ) : Bool :=
  match toNumber E (toPrimitive E v) with
  | some q => decide (q ≤ c)
  | none => false

/-- The product `v * c` with a numeric literal. -/
def mul (E : Env) (v : JsVal) (c : ℚ) : JsVal :=
  ofNumber ((toNumber E v).map fun q => q * c)

/-- The negation `!v`. -/
def not (v : JsVal) : JsVal :=
  bool (!v.truthy)

/-- Loose equality of two primitive values. -/
def looseEqPrim (E : Env) : JsVal → JsVal → Bool
  | undefined, b => b.isNullish
  | null, b => b.isNullish
  | _, undefined => false
  | _, null => false
  | str s, str t => s == t
  | a, b =>
    match toNumber E a, toNumber E b with
    | some x, some y => x == y
    | _, _ => false

/-- The operator `a == b`. Two arrays or objects are compared by identity; the values
compared here never are the same array or object. -/
def looseEq (E : Env) (a b : JsVal) : Bool :=
  if a.isObject && b.isObject then false
  else if a.isNullish || b.isNullish then a.isNullish && b.isNullish
  else looseEqPrim E (toPrimitive E a) (toPrimitive E b)

/-- The operator `a != b`. -/
def looseNe (E : Env) (a b : JsVal) : Bool :=
  !looseEq E a b

/-- Rounding to two decimals, halves away from zero. -/
def round2 (q : ℚ) : ℚ :=
  if 0 ≤ q then (⌊q * 100 + 1 / 2⌋ : ℚ) / 100 else -((⌊-q * 100 + 1 / 2⌋ : ℚ) / 100)

/-- The expression `parseFloat(v.toFixed(2))`; a value without the method `toFixed`
makes it throw. -/
def toFixed2 : JsVal → Except JsError JsVal
  | num q => .ok (num (round2 q))
  | nan => .ok nan
  | _ => .error .typeError

/-- The property key a value denotes in `o[v]`. -/
def toKey (E : Env) : JsVal → String
  | str s => s
  | v => E.toStr v

end JsVal

/-! ## Device handles -/

/-- The device classes whose `setCapabilityValue` is among the sources: the framework
class and the two that override it. -/
inductive Driver where
  | homeyDevice
  | genericBlinds
  | genericPlug
  deriving DecidableEq, Repr

/-- A call observed on a device handle, or a flow card fired for it. -/
inductive Effect where
  | setCapabilityValue (name : String) (value : JsVal)
  | fireEvent (args : List JsVal)
  | handleAlertState (state : JsVal)
  | setSettings (key : String) (value : JsVal)
  | setAvailable
  | setUnavailable (reason : String)
  | trigger (card : String)

/-- A device handle. The trace lists the effects, most recent first. -/
structure Device where
  driver : Driver
  name : JsVal
  capabilities : List String
  capabilityValues : String → JsVal
  settings : String → JsVal
  available : Bool
  trace : List Effect

/-- The result of running code that may throw: the device as it is when the code ends,
and the error if it ended by throwing. -/
structure Outcome where
  device : Device
  error : Option JsError

namespace Device

/-- Appends an effect to the trace. -/
def record (d : Device) (e : Effect) : Device :=
  { d with trace := e :: d.trace }

/-- The framework method `getCapabilities()`. -/
def getCapabilities (d : Device) : List String :=
  d.capabilities

/-- The framework method `getSetting(key)`. -/
def getSetting (d : Device) (key : String) : JsVal :=
  d.settings key

/-- The framework method `getCapabilityValue(name)`. -/
def getCapabilityValue (d : Device) (name : String) : JsVal :=
  d.capabilityValues name

/-- The framework method `getAvailable()`. -/
def getAvailable (d : Device) : Bool :=
  d.available

/-- The framework method `getName()`. -/
def getName (d : Device) : JsVal :=
  d.name

/-- The framework method `Homey.Device.setCapabilityValue(name, value)`, which the
overriding classes reach through `super`. -/
def superSetCapabilityValue (d : Device) (name : String) (value : JsVal) : Device :=
  { d with capabilityValues := Function.update d.capabilityValues name value }

/-- The method `setCapabilityValue(name, value)` of the device's class:
`drivers/generic-blinds/device.js` and `drivers/generic-plug/device.js` override the
framework method. -/
def setCapabilityValue (E : Env) (d : Device) (name : String) (value : JsVal) : Device :=
  let d := d.record (.setCapabilityValue name value)
  match d.driver with
  | .homeyDevice => d.superSetCapabilityValue name value
  | .genericBlinds =>
    if name == "onoff" then d.superSetCapabilityValue name value.not
    else if name == "dim" then d.superSetCapabilityValue name (JsVal.rsub E 1 value)
    else d
  | .genericPlug =>
    let d :=
      if name == "onoff" && JsVal.looseNe E value (d.getCapabilityValue name) then
        d.record (.trigger "switched")
      else d
    d.superSetCapabilityValue name value

/-- The method `fireEvent(...)` of the device's class; what it does is flow-card
triggering, recorded as a call. -/
def fireEvent (d : Device) (args : List JsVal) : Device :=
  d.record (.fireEvent args)

/-- The method `handleAlertState(state)`, defined outside the sources; recorded as a
call. -/
def handleAlertState (d : Device) (state : JsVal) : Device :=
  d.record (.handleAlertState state)

/-- The framework method `setSettings`, called with an object of one key. -/
def setSettings (d : Device) (key : String) (value : JsVal) : Device :=
  { d.record (.setSettings key value) with settings := Function.update d.settings key value }

/-- The framework method `setAvailable()`. -/
def setAvailable (d : Device) : Device :=
  { d.record .setAvailable with available := true }

/-- The framework method `setUnavailable(reason)`. -/
def setUnavailable (d : Device) (reason : String) : Device :=
  { d.record (.setUnavailable reason) with available := false }

/-- The call `card.trigger(...)`, with the name of the device as token, on one of the
application's flow cards. -/
def trigger (d : Device) (card : String) : Device :=
  d.record (.trigger card)

/-- A conditional statement without `else` acting on the device. -/
def onlyIf (d : Device) (c : Bool) (f : Device → Device) : Device :=
  if c then f d else d

/-- A statement acting on the device. -/
def run (d : Device) (f : Device → Device) : Device :=
  f d

end Device

/-- The end of a function body by `return` (no error) or by a thrown error. -/
def Outcome.ofExit : Except Outcome Device → Outcome
  | .ok d => ⟨d, none⟩
  | .error o => o

/-! ## The state translation engine (`app.js`, lines 666-970) -/

/-- The closure `deviceSupports` of `updateState` (lines 668-673), on the array form of
its argument. -/
def deviceSupports (deviceCapabilities : List String) (capabilities : List String) : Bool :=
  !((capabilities.map fun capability => deviceCapabilities.contains capability).contains false)

/-- Lines 677-683 of `updateState`: the button events. -/
def updateState.events (state : JsVal) (initial : Bool) (device : Device) : Device :=
  device
  |>.onlyIf (state.hasOwnProperty "buttonevent" && !initial) (fun d =>
      d.fireEvent [state.get "buttonevent", state])
  |>.onlyIf (state.hasOwnProperty "buttonevent" && state.hasOwnProperty "gesture") (fun d =>
      d.fireEvent [state.get "buttonevent", .bool initial, state.get "gesture", state])

/-- Lines 685-844 of `updateState`: the attributes applied one after the other. -/
def updateState.attributes (E : Env) (deviceCapabilities : List String) (state : JsVal)
    (device : Device) : Device :=
  let deviceSupports := deviceSupports deviceCapabilities
  device
  |>.onlyIf (state.hasOwnProperty "open" && deviceSupports ["alarm_contact"]) (fun d =>
      let invert :=
        if (d.getSetting "invert_alarm").isNullish then .bool false
        else d.getSetting "invert_alarm"
      if invert.isTrue then d.setCapabilityValue E "alarm_contact" (state.get "open").not
      else d.setCapabilityValue E "alarm_contact" (state.get "open"))
  |>.onlyIf (state.hasOwnProperty "presence" && deviceSupports ["alarm_motion"]) (fun d =>
      d.setCapabilityValue E "alarm_motion" (state.get "presence"))
  |>.onlyIf (state.hasOwnProperty "vibration" && deviceSupports ["vibration_alarm"]) (fun d =>
      d.setCapabilityValue E "vibration_alarm" (state.get "vibration"))
  |>.onlyIf (state.hasOwnProperty "vibrationstrength" && deviceSupports ["vibration_strength"])
      (fun d => d.setCapabilityValue E "vibration_strength" (state.get "vibrationstrength"))
  |>.onlyIf (state.hasOwnProperty "tiltangle" && deviceSupports ["tilt_angle"]) (fun d =>
      d.setCapabilityValue E "tilt_angle" (state.get "tiltangle"))
  |>.onlyIf (state.hasOwnProperty "on" && deviceSupports ["onoff"]) (fun d =>
      d.setCapabilityValue E "onoff" (state.get "on"))
  |>.onlyIf (state.hasOwnProperty "alert" && deviceSupports ["onoff"]) (fun d =>
      d.handleAlertState state)
  |>.onlyIf (state.hasOwnProperty "any_on" && deviceSupports ["onoff"]) (fun d =>
      d.setCapabilityValue E "onoff" (state.get "any_on"))
  |>.onlyIf (state.hasOwnProperty "dark" && deviceSupports ["dark"]) (fun d =>
      d.setCapabilityValue E "dark" (state.get "dark"))
  |>.onlyIf (state.hasOwnProperty "lux" && deviceSupports ["measure_luminance"]) (fun d =>
      d.setCapabilityValue E "measure_luminance" (state.get "lux"))
  |>.onlyIf (state.hasOwnProperty "bri" && deviceSupports ["dim"]) (fun d =>
      d.setCapabilityValue E "dim" (JsVal.div E (state.get "bri") 255))
  |>.onlyIf (state.hasOwnProperty "reachable") (fun d =>
      let ignoreReachable := (d.getSetting "ignore-reachable").isTrue
      let d := d.onlyIf (!ignoreReachable) (fun d =>
        if (state.get "reachable").isTrue && !d.getAvailable then
          d.trigger "device_on_reachable"
        else if (state.get "reachable").isFalse && d.getAvailable then
          d.trigger "device_on_unreachable"
        else d)
      if (state.get "reachable").truthy || ignoreReachable then d.setAvailable
      else d.setUnavailable "Unreachable")
  |>.onlyIf (state.hasOwnProperty "water" && deviceSupports ["alarm_water"]) (fun d =>
      let invert :=
        if (d.getSetting "invert_alarm").isNullish then .bool false
        else d.getSetting "invert_alarm"
      if invert.isTrue then d.setCapabilityValue E "alarm_water" (state.get "water").not
      else d.setCapabilityValue E "alarm_water" (state.get "water"))
  |>.onlyIf (state.hasOwnProperty "colormode" && deviceSupports ["light_mode"]) (fun d =>
      d.setCapabilityValue E "light_mode"
        (if JsVal.looseEq E (state.get "colormode") (.str "xy")
            || JsVal.looseEq E (state.get "colormode") (.str "hs")
          then .str "color" else .str "temperature"))
  |>.onlyIf (state.hasOwnProperty "fire" && deviceSupports ["alarm_smoke"]) (fun d =>
      d.setCapabilityValue E "alarm_smoke" (state.get "fire"))
  |>.onlyIf (state.hasOwnProperty "carbonmonoxide" && deviceSupports ["alarm_co"]) (fun d =>
      d.setCapabilityValue E "alarm_co" (state.get "carbonmonoxide"))
  |>.onlyIf (state.hasOwnProperty "temperature" && deviceSupports ["measure_temperature"])
      (fun d =>
        let offset :=
          if (d.getSetting "temperature_offset").isNullish then .num 0
          else d.getSetting "temperature_offset"
        d.setCapabilityValue E "measure_temperature"
          (JsVal.add E (JsVal.div E (state.get "temperature") 100) offset))
  |>.onlyIf (state.hasOwnProperty "humidity" && deviceSupports ["measure_humidity"]) (fun d =>
      let offset :=
        if (d.getSetting "humidity_offset").isNullish then .num 0
        else d.getSetting "humidity_offset"
      d.setCapabilityValue E "measure_humidity"
        (JsVal.add E (JsVal.div E (state.get "humidity") 100) offset))
  |>.onlyIf (state.hasOwnProperty "pressure" && deviceSupports ["measure_pressure"]) (fun d =>
      let offset :=
        if (d.getSetting "pressure_offset").isNullish then .num 0
        else d.getSetting "pressure_offset"
      d.setCapabilityValue E "measure_pressure" (JsVal.add E (state.get "pressure") offset))
  |>.onlyIf (state.hasOwnProperty "power" && deviceSupports ["measure_power"]) (fun d =>
      d.setCapabilityValue E "measure_power" (state.get "power"))
  |>.onlyIf (state.hasOwnProperty "voltage" && deviceSupports ["measure_voltage"]) (fun d =>
      d.setCapabilityValue E "measure_voltage" (state.get "voltage"))
  |>.onlyIf (state.hasOwnProperty "current" && deviceSupports ["measure_current"]) (fun d =>
      d.setCapabilityValue E "measure_current" (JsVal.div E (state.get "current") 100))
  |>.onlyIf (state.hasOwnProperty "consumption" && deviceSupports ["meter_power"]) (fun d =>
      d.setCapabilityValue E "meter_power" (JsVal.div E (state.get "consumption") 1000))

/-- Lines 846-867 of `updateState`: the colour attributes. Each statement either goes on
with the device (`ok`) or ends the function (`error`), by `return` or by throwing. -/
def updateState.colour (E : Env) (deviceCapabilities : List String) (state : JsVal)
    (device : Device) : Except Outcome Device :=
  let deviceSupports := deviceSupports deviceCapabilities
  (if state.hasOwnProperty "ct" && state.hasOwnProperty "colormode"
      && (state.get "colormode").strictEqStr "ct" then
    if !deviceSupports ["light_mode", "light_temperature"] || JsVal.gt E (state.get "ct") 500 then
      .error ⟨device, none⟩
    else
      .ok ((device.setCapabilityValue E "light_mode" (.str "temperature")).setCapabilityValue E
        "light_temperature" (JsVal.div E (JsVal.sub E (state.get "ct") 153) 347))
  else .ok device)
  >>= (fun d =>
    if state.hasOwnProperty "hue" && state.hasOwnProperty "colormode"
        && (state.get "colormode").strictEqStr "hs" then
      if !deviceSupports ["light_hue"] then .error ⟨d, none⟩
      else
        match (JsVal.div E (state.get "hue") 65535).toFixed2 with
        | .error e => .error ⟨d, some e⟩
        | .ok v => .ok (d.setCapabilityValue E "light_hue" v)
    else .ok d)
  >>= (fun d =>
    if state.hasOwnProperty "sat" && state.hasOwnProperty "colormode"
        && (state.get "colormode").strictEqStr "hs" then
      if !deviceSupports ["light_saturation"] then .error ⟨d, none⟩
      else
        match (JsVal.div E (state.get "sat") 255).toFixed2 with
        | .error e => .error ⟨d, some e⟩
        | .ok v => .ok (d.setCapabilityValue E "light_saturation" v)
    else .ok d)
  >>= (fun d =>
    if state.hasOwnProperty "xy" && state.hasOwnProperty "colormode"
        && (state.get "colormode").strictEqStr "xy" then
      if !deviceSupports ["light_hue"] || !deviceSupports ["light_saturation"] then
        .error ⟨d, none⟩
      else
        match (state.get "xy").index 0 with
        | .error e => .error ⟨d, some e⟩
        | .ok x =>
          match (state.get "xy").index 1 with
          | .error e => .error ⟨d, some e⟩
          | .ok y =>
            let hs := E.xyToHs x y
            match hs.1.toFixed2 with
            | .error e => .error ⟨d, some e⟩
            | .ok hue =>
              let d := d.setCapabilityValue E "light_hue" hue
              match hs.2.toFixed2 with
              | .error e => .error ⟨d, some e⟩
              | .ok sat => .ok (d.setCapabilityValue E "light_saturation" sat)
    else .ok d)

/-- Lines 869-883 of `updateState`: the attributes after the colour attributes. -/
def updateState.rest (E : Env) (deviceCapabilities : List String) (state : JsVal)
    (device : Device) : Device :=
  let deviceSupports := deviceSupports deviceCapabilities
  device
  |>.onlyIf (state.hasOwnProperty "tampered" && deviceSupports ["alarm_tamper"]) (fun d =>
      d.setCapabilityValue E "alarm_tamper" (state.get "tampered"))
  |>.onlyIf (state.hasOwnProperty "airqualityppb" && deviceSupports ["measure_voc"]) (fun d =>
      d.setCapabilityValue E "measure_voc" .undefined)
  |>.onlyIf (state.hasOwnProperty "lastupdated") (fun d =>
      d.onlyIf (!(d.getSetting "lastUpdated").isNullish) (fun d =>
        d.setSettings "lastUpdated" (state.get "lastupdated")))

/-- The method `updateState(device, state, initial = false)` (lines 666-884) on a state
without an own property `hasOwnProperty`; `updateState.onAnyState` is the method on any
state. A state that is `null` or `undefined` makes the first `state.hasOwnProperty`
throw. -/
def updateState (E : Env) (device : Device) (state : JsVal) (initial : Bool := false) :
    Outcome :=
  if state.isNullish then ⟨device, some .typeError⟩
  else
    let deviceCapabilities := device.getCapabilities
    Outcome.ofExit
      (updateState.colour E deviceCapabilities state
          (updateState.attributes E deviceCapabilities state
            (updateState.events state initial device))
        >>= fun d => .ok (updateState.rest E deviceCapabilities state d))

/-- Lines 892-914 of `updateConfig`: the attributes other than `reachable`. -/
def updateConfig.attributes (E : Env) (deviceCapabilities : List String) (config : JsVal)
    (device : Device) : Device :=
  device
  |>.onlyIf (config.hasOwnProperty "temperature"
      && deviceCapabilities.contains "measure_temperature") (fun d =>
      d.setCapabilityValue E "measure_temperature" (JsVal.div E (config.get "temperature") 100))
  |>.onlyIf (config.hasOwnProperty "battery"
      && deviceCapabilities.contains "measure_battery") (fun d =>
      d.setCapabilityValue E "measure_battery" (config.get "battery"))
  |>.onlyIf (config.hasOwnProperty "sensitivity") (fun d =>
      d.onlyIf (!(d.getSetting "sensitivity").isNullish) (fun d =>
        d.setSettings "sensitivity" (config.get "sensitivity")))
  |>.onlyIf (config.hasOwnProperty "ledindication") (fun d =>
      d.onlyIf (!(d.getSetting "ledindication").isNullish) (fun d =>
        d.setSettings "ledindication" (config.get "ledindication")))
  |>.onlyIf (config.hasOwnProperty "pending") (fun d =>
      d.onlyIf (!(d.getSetting "pending").isNullish) (fun d =>
        d.setSettings "pending" (E.stringify (config.get "pending"))))
  |>.onlyIf (config.hasOwnProperty "heatsetpoint"
      && deviceCapabilities.contains "target_temperature") (fun d =>
      d.setCapabilityValue E "target_temperature" (JsVal.div E (config.get "heatsetpoint") 100))

/-- Lines 916-918 of `updateConfig`: the attribute `reachable`. -/
def updateConfig.reachable (config : JsVal) (device : Device) : Device :=
  device.onlyIf (config.hasOwnProperty "reachable") (fun d =>
    if (config.get "reachable").truthy || (d.getSetting "ignore-reachable").isTrue then
      d.setAvailable
    else d.setUnavailable "Unreachable")

/-- The method `updateConfig(device, config, initial = false)` (lines 886-919) on a config
without an own property `hasOwnProperty`; `updateConfig.onAnyConfig` is the method on any
config. A config that is `null` or `undefined` makes the first `config.hasOwnProperty`
throw. -/
def updateConfig (E : Env) (device : Device) (config : JsVal) (_initial : Bool := false) :
    Outcome :=
  if config.isNullish then ⟨device, some .typeError⟩
  else
    let deviceCapabilities := device.getCapabilities
    ⟨updateConfig.reachable config (updateConfig.attributes E deviceCapabilities config device),
      none⟩

/-- The expression `s.split('-')[0]` on a string. -/
def firstSegment (s : String) : String :=
  String.mk (s.toList.takeWhile fun c => c != '-')

/-- Lines 925-956 of `updateDeviceInfo`: the settings written before `mac`. -/
def updateDeviceInfo.settings (E : Env) (data : JsVal) (device : Device) : Device :=
  device
  |>.onlyIf (data.hasOwnProperty "modelid") (fun d =>
      let modelId := d.getSetting "modelid"
      d.onlyIf (!modelId.isNullish && JsVal.looseNe E modelId (data.get "modelid")) (fun d =>
        d.setSettings "modelid" (data.get "modelid")))
  |>.onlyIf (data.hasOwnProperty "manufacturername") (fun d =>
      let manufacturername := d.getSetting "manufacturername"
      d.onlyIf (!manufacturername.isNullish
          && JsVal.looseNe E manufacturername (data.get "manufacturername")) (fun d =>
        d.setSettings "manufacturername" (data.get "manufacturername")))
  |>.onlyIf (data.hasOwnProperty "swversion") (fun d =>
      let swversion := d.getSetting "swversion"
      d.onlyIf (!swversion.isNullish && JsVal.looseNe E swversion (data.get "swversion"))
        (fun d =>
          if (data.get "swversion").notString then
            d.setSettings "swversion" (E.stringify (data.get "swversion"))
          else d.setSettings "swversion" (data.get "swversion")))
  |>.run (fun d =>
      d.onlyIf (!(d.getSetting "ids").isNullish && !(d.getSetting "id").isNullish) (fun d =>
        let d := d.onlyIf (d.getSetting "ids").notString (fun d => d.setSettings "ids" .null)
        d.setSettings "ids" (E.stringify (d.getSetting "id"))))
  |>.run (fun d =>
      d.onlyIf (!(d.getSetting "sensorids").isNullish && !(d.getSetting "sensors").isNullish)
        (fun d =>
          let d := d.onlyIf (d.getSetting "sensorids").notString (fun d =>
            d.setSettings "sensorids" .null)
          d.setSettings "sensorids" (E.stringify (d.getSetting "sensors"))))

/-- Lines 962-969 of `updateDeviceInfo`: the setting `lastseen`. -/
def updateDeviceInfo.lastseen (E : Env) (data : JsVal) (device : Device) : Device :=
  device.onlyIf (data.hasOwnProperty "lastseen") (fun d =>
    let lastseen := d.getSetting "lastseen"
    d.onlyIf (!lastseen.isNullish && JsVal.looseNe E lastseen (data.get "lastseen")) (fun d =>
      if (data.get "lastseen").notString then
        d.setSettings "lastseen" (E.stringify (data.get "lastseen"))
      else d.setSettings "lastseen" (data.get "lastseen")))

/-- The method `updateDeviceInfo(device, data)` (lines 921-970) on data without an own
property `hasOwnProperty`; `updateDeviceInfo.onAnyData` is the method on any data. Data
that is `null` or `undefined` makes `data.hasOwnProperty` throw, and a `uniqueid` that is
not a string has no method `split`. -/
def updateDeviceInfo (E : Env) (device : Device) (data : JsVal) : Outcome :=
  if data.isNullish then ⟨device, some .typeError⟩
  else
    let d := updateDeviceInfo.settings E data device
    if data.hasOwnProperty "uniqueid" && !(d.getSetting "mac").isNullish then
      match data.get "uniqueid" with
      | .str s =>
        ⟨updateDeviceInfo.lastseen E data (d.setSettings "mac" (.str (firstSegment s))), none⟩
      | _ => ⟨d, some .typeError⟩
    else ⟨updateDeviceInfo.lastseen E data d, none⟩

/-! ## The application object -/

/-- A stream connection created by `new WebSocketClient(...)`. -/
structure Socket where
  /-- Whether `terminate()` was called on it. -/
  terminated : Bool
  /-- Whether it has emitted `open`. -/
  opened : Bool
  /-- Whether it has emitted `close`. -/
  closed : Bool
  /-- The number of `ping` listeners registered on it. -/
  pingListeners : Nat
  deriving DecidableEq, Repr

/-- A connection is live until it is terminated or closed. -/
def Socket.live (s : Socket) : Bool :=
  !s.terminated && !s.closed

/-- The functions handed to `setTimeout` and `setInterval`. -/
inductive Callback where
  /-- The reconnect of the close handler: `this.webSocketConnectTo`. -/
  | webSocketConnectTo
  /-- The keepalive expiry of `setWSKeepAlive`: it calls `startWebSocketConnection`. -/
  | connectionLost
  /-- The outbound ping of `setWSKeepAlive`. -/
  | sendPing
  /-- The poll of `startIntervalStateUpdate`. -/
  | poll
  deriving DecidableEq, Repr

/-- A timer created by `setTimeout` or `setInterval`. The delay is the number handed to
the builtin, in milliseconds; `none` is `NaN`. -/
structure Timer where
  callback : Callback
  delay : Option ℚ
  /-- Whether it was created by `setInterval`. -/
  recurring : Bool
  /-- Whether it is still to fire: not cleared and, for a timeout, not fired. -/
  active : Bool
  deriving DecidableEq, Repr

/-- The object `this.devices` of `onInit` (lines 14-18): per kind, the registered devices
by resource id, in the order `Object.values` lists them. -/
structure Registry where
  lights : List (String × Device)
  sensors : List (String × Device)
  groups : List (String × Device)

/-- The fields of the application object. Sockets and timers are named by their position
in the lists of all that were created. -/
structure App where
  devices : Registry
  host : JsVal
  port : JsVal
  apikey : JsVal
  wsPort : JsVal
  autoRepairConnection : Bool
  /-- The field `wsConnected`; `false` also stands for its first value `undefined`. -/
  wsConnected : Bool
  websocket : Option Nat
  sockets : List Socket
  timers : List Timer
  keepAliveTimeout : Option Nat
  pollIntervall : Option Nat
  /-- The number of calls of `attemptAutoRepair`. -/
  autoRepairAttempts : Nat
  sendUsageData : Bool

/-- The result of an application method that may throw. -/
structure AppOutcome where
  app : App
  error : Option JsError

/-- The devices of one kind: `this.devices[type]` for a name `type` that is an own
property of `this.devices`, and `none` for any other name. What `this.devices[type]` is
for a name that `this.devices` inherits from `Object.prototype` is told by `Builtins`. -/
def Registry.ofType (r : Registry) (type : String) : Option (List (String × Device)) :=
  if type == "lights" then some r.lights
  else if type == "sensors" then some r.sensors
  else if type == "groups" then some r.groups
  else none

/-- Replaces the device registered under an id: the one `List.lookup` finds. -/
def replaceDevice : List (String × Device) → String → Device → List (String × Device)
  | [], _, _ => []
  | e :: l, id, d => if id == e.1 then (e.1, d) :: l else e :: replaceDevice l id d

/-- The registry after the device registered under `type` and `id` has become `d`: what
a mutation through the handle returned by `getDevice` amounts to. -/
def Registry.setDevice (r : Registry) (type id : String) (d : Device) : Registry :=
  if type == "lights" then { r with lights := replaceDevice r.lights id d }
  else if type == "sensors" then { r with sensors := replaceDevice r.sensors id d }
  else if type == "groups" then { r with groups := replaceDevice r.groups id d }
  else r

/-- The method `getDevice(type, id)` (lines 659-664) for a type that `this.devices` does
not inherit from `Object.prototype` and a registry without a device under the id
`hasOwnProperty`; `none` is `null`. `getDevice.onAnyType` is the method on any type, id and
registry. -/
def getDevice (app : App) (type id : String) : Option Device :=
  match app.devices.ofType type with
  | some devices => devices.lookup id
  | none => none

/-- The application after a translation has run on the device under `type` and `id`. -/
def App.afterTranslation (app : App) (type id : String) (o : Outcome) : AppOutcome :=
  ⟨{ app with devices := app.devices.setDevice type id o.device }, o.error⟩

/-- Lines 168-181 of `handleMessage`: the dispatch of the parsed message, with `getDevice`
and the translations as above; `handleMessage.dispatchAny` is the dispatch of any message.
Reading `data.r` throws when the message is `null`. -/
def handleMessage.dispatch (E : Env) (app : App) (data : JsVal) : AppOutcome :=
  if data.isNullish then ⟨app, some .typeError⟩
  else
    let type := JsVal.toKey E (data.get "r")
    let id := JsVal.toKey E (data.get "id")
    match getDevice app type id with
    | some device =>
      if (data.get "state").truthy then
        app.afterTranslation type id (updateState E device (data.get "state"))
      else if (data.get "action").truthy then
        app.afterTranslation type id (updateState E device (data.get "action"))
      else if (data.get "config").truthy then
        app.afterTranslation type id (updateConfig E device (data.get "config"))
      else ⟨app, none⟩
    | none => ⟨app, none⟩

/-- The method `handleMessage(message)` (lines 166-182). Nothing in it, nor in the
`message` listener that calls it (lines 193-195), catches what `JSON.parse` or the
dispatch throws. -/
def handleMessage (E : Env) (app : App) (message : String) : AppOutcome :=
  match E.parse message with
  | none => ⟨app, some .syntaxError⟩
  | some data => handleMessage.dispatch E app data

/-! ## The connection manager (`app.js`, lines 64-69, 142-164, 184-212, 647-657) -/

namespace App

/-- The call `setTimeout(callback, delay)` or `setInterval(callback, delay)`. -/
def addTimer (app : App) (callback : Callback) (delay : Option ℚ) (recurring : Bool) : App :=
  { app with timers := app.timers ++ [⟨callback, delay, recurring, true⟩] }

/-- The call `clearTimeout(t)` or `clearInterval(t)`. -/
def clearTimer (app : App) (t : Nat) : App :=
  { app with timers := app.timers.modify (fun x => { x with active := false }) t }

/-- The call `terminate()` on a connection. -/
def terminate (app : App) (i : Nat) : App :=
  { app with sockets := app.sockets.modify (fun x => { x with terminated := true }) i }

/-- The method `attemptAutoRepair()`: the discovery request it sends is counted, the
answer arrives later. -/
def attemptAutoRepair (app : App) : App :=
  { app with autoRepairAttempts := app.autoRepairAttempts + 1 }

/-- The method `setAllUnavailable()` (lines 647-657). -/
def setAllUnavailable (app : App) : App :=
  let down := fun (e : String × Device) => (e.1, e.2.setUnavailable "Websocket is down")
  { app with devices :=
      { lights := app.devices.lights.map down
        sensors := app.devices.sensors.map down
        groups := app.devices.groups.map down } }

/-- The method `webSocketConnectTo()` (lines 184-212): the new connection gets the
listeners for `open`, `message`, `error` and `close`. -/
def webSocketConnectTo (app : App) : App :=
  { app with
    wsConnected := false
    websocket := some app.sockets.length
    sockets := app.sockets ++ [⟨false, false, false, 0⟩] }

/-- The method `startWebSocketConnection()` (lines 64-69). -/
def startWebSocketConnection (app : App) : App :=
  let app :=
    match app.websocket with
    | some i => app.terminate i
    | none => app
  app.webSocketConnectTo

/-- The method `setWSKeepAlive()` (lines 142-164). -/
def setWSKeepAlive (app : App) : App :=
  let app :=
    match app.keepAliveTimeout with
    | some t => app.clearTimer t
    | none => app
  let app :=
    match app.websocket with
    | some i =>
      { app with
        sockets := app.sockets.modify (fun x => { x with pingListeners := x.pingListeners + 1 }) i }
    | none => app
  app.addTimer .sendPing (some (60 * 1000)) true

/-- The `open` listener (lines 188-192). -/
def onOpen (app : App) : App :=
  setWSKeepAlive { app with wsConnected := true }

/-- The `close` listener (lines 199-211). -/
def onClose (app : App) : App :=
  let app :=
    if app.wsConnected == true && app.autoRepairConnection == true then app.attemptAutoRepair
    else app
  let app := app.setAllUnavailable
  let app := { app with wsConnected := false }
  app.addTimer .webSocketConnectTo (some (5 * 1000)) false

/-- One `ping` listener of `setWSKeepAlive` (lines 146-154). -/
def onPing (app : App) : App :=
  let app :=
    match app.keepAliveTimeout with
    | some t => app.clearTimer t
    | none => app
  let app := { app with keepAliveTimeout := some app.timers.length }
  app.addTimer .connectionLost (some (3.1 * 60 * 1000)) false

/-- The method `startIntervalStateUpdate()` (lines 71-96); `settings` is what
`Homey.ManagerSettings.get` returns. A timer handle is an object, hence truthy; the
builtin `setInterval` converts the delay it is given to a number. -/
def startIntervalStateUpdate (E : Env) (app : App) (settings : String → JsVal) : App :=
  let app :=
    match app.pollIntervall with
    | some t => app.clearTimer t
    | none => app
  let interval := settings "pollingIntervall"
  let interval := if !interval.truthy then .num 15 else interval
  if JsVal.le E interval 0 then app
  else
    let app := { app with pollIntervall := some app.timers.length }
    app.addTimer .poll (JsVal.toNumber E (JsVal.mul E (JsVal.mul E interval 60) 1000)) true

/-- The method `onSettingsChanged(modifiedKey)` (lines 108-140), the listener of the
event `set` of `Homey.ManagerSettings`; `settings` is what `Homey.ManagerSettings.get`
returns. The upload of line 126 leaves the application object as it is. -/
def onSettingsChanged (E : Env) (app : App) (settings : String → JsVal)
    (modifiedKey : String) : App :=
  let sendUsageData := settings "sendUsageData"
  let autoRepairConnection := settings "autoRepairConnection"
  let app :=
    { app with
      host := settings "host"
      port := settings "port"
      apikey := settings "apikey"
      wsPort := settings "wsport"
      sendUsageData :=
        if !sendUsageData.isFalse && !sendUsageData.isTrue then true
        else sendUsageData.isTrue
      autoRepairConnection :=
        if !autoRepairConnection.isFalse && !autoRepairConnection.isTrue then true
        else autoRepairConnection.isTrue }
  let app :=
    if modifiedKey == "pollingIntervall" then startIntervalStateUpdate E app settings
    else app
  if modifiedKey == "host" || modifiedKey == "port" || modifiedKey == "apikey"
      || modifiedKey == "wsPort" then
    if app.host.truthy && app.port.truthy && app.apikey.truthy && app.wsPort.truthy then
      app.startWebSocketConnection
    else app
  else app

/-- What a timer does when it expires. The outbound ping and the poll only send
requests; what the answers to a poll do is `setInitialStates`. -/
def runCallback (app : App) : Callback → App
  | .webSocketConnectTo => app.webSocketConnectTo
  | .connectionLost => app.startWebSocketConnection
  | .sendPing => app
  | .poll => app

end App

/-- What can happen to the connection manager. -/
inductive Event where
  /-- A call of `startWebSocketConnection()`: from `onInit`, from `onSettingsChanged` or
  from `attemptAutoRepair` once discovery has answered. -/
  | startWebSocketConnection
  /-- A timer expires. -/
  | timer (t : Nat)
  /-- A connection emits `open`. -/
  | opened (i : Nat)
  /-- A connection emits `close`. -/
  | closed (i : Nat)
  /-- A connection receives a ping of the peer. -/
  | ping (i : Nat)
  deriving DecidableEq, Repr

/-- The step relation of the connection manager, as a function: `none` when the event
cannot happen in the state. A connection opens at most once, while it is live; it closes
at most once; a timer expires while it is active, a timeout once. -/
def step (app : App) : Event → Option App
  | .startWebSocketConnection => some app.startWebSocketConnection
  | .timer t =>
    match app.timers.get? t with
    | some x =>
      if x.active then
        some (App.runCallback
          (if x.recurring then app
            else { app with timers := app.timers.modify (fun x => { x with active := false }) t })
          x.callback)
      else none
    | none => none
  | .opened i =>
    match app.sockets.get? i with
    | some x =>
      if x.live && !x.opened then
        some (App.onOpen
          { app with sockets := app.sockets.modify (fun x => { x with opened := true }) i })
      else none
    | none => none
  | .closed i =>
    match app.sockets.get? i with
    | some x =>
      if !x.closed then
        some (App.onClose
          { app with sockets := app.sockets.modify (fun x => { x with closed := true }) i })
      else none
    | none => none
  | .ping i =>
    match app.sockets.get? i with
    | some x =>
      if x.live && x.opened then some (Nat.iterate App.onPing x.pingListeners app)
      else none
    | none => none

/-- Runs a sequence of events; `none` when one of them cannot happen. -/
def run (app : App) : List Event → Option App
  | [] => some app
  | e :: es => (step app e).bind fun next => run next es

/-- The application object when `onInit` has set its fields and created no connection
and no timer yet. -/
def App.start (devices : Registry) (host port apikey wsPort : JsVal)
    (autoRepairConnection : Bool) : App :=
  { devices := devices
    host := host
    port := port
    apikey := apikey
    wsPort := wsPort
    autoRepairConnection := autoRepairConnection
    wsConnected := false
    websocket := none
    sockets := []
    timers := []
    keepAliveTimeout := none
    pollIntervall := none
    autoRepairAttempts := 0
    sendUsageData := true }

/-- The number of live connections. -/
def App.liveSockets (app : App) : Nat :=
  app.sockets.countP Socket.live

/-- The active timers that run the callback `c`, oldest first. -/
def App.activeTimers (app : App) (c : Callback) : List Timer :=
  app.timers.filter fun x => x.active && x.callback == c

/-- Every active timer that runs the callback `c` is the one under the handle. -/
def TimerStored (c : Callback) (timers : List Timer) (handle : Option Nat) : Prop :=
  ∀ (i : Nat) (x : Timer), timers[i]? = some x → x.active = true → x.callback = c →
    handle = some i

/-- The timers after `clearTimeout` or `clearInterval` on a handle, when it is set. -/
def clearStored (timers : List Timer) : Option Nat → List Timer
  | some t => timers.modify (fun x => { x with active := false }) t
  | none => timers

/-- Every outbound ping timer is an interval, and the handle `keepAliveTimeout`, when it
is set, is that of a keepalive watchdog. -/
def App.KeepAliveShape (app : App) : Prop :=
  (∀ (i : Nat) (x : Timer), app.timers[i]? = some x → x.callback = .sendPing →
    x.recurring = true) ∧
  ∀ t, app.keepAliveTimeout = some t →
    ∃ x, app.timers[t]? = some x ∧ x.callback = .connectionLost

/-- Whether an event is the opening of a connection. -/
def Event.isOpened : Event → Bool
  | .opened _ => true
  | _ => false

/-- Every active poll timer is the one whose handle `pollIntervall` holds. -/
def App.PollTimerStored (app : App) : Prop :=
  TimerStored .poll app.timers app.pollIntervall

/-- Every active keepalive watchdog is the one whose handle `keepAliveTimeout` holds. -/
def App.WatchdogStored (app : App) : Prop :=
  TimerStored .connectionLost app.timers app.keepAliveTimeout

/-! ## The poll (`app.js`, lines 226-254 and 579-643) -/

/-- What `http.get` hands to its callback. -/
structure HttpReply where
  error : JsVal
  response : String

/-- The builtin `Object.entries`, in enumeration order; it throws on `null` and
`undefined`. -/
def JsVal.entries : JsVal → Except JsError (List (String × JsVal))
  | .undefined => .error .typeError
  | .null => .error .typeError
  | .obj fields => .ok fields
  | .arr items => .ok ((JsVal.indexKeys items.length).zip items)
  | .str s => .ok ((JsVal.indexKeys s.length).zip (s.toList.map fun c => .str (String.singleton c)))
  | _ => .ok []

/-- The method `forEach` on the entries, with a callback that may throw: the first throw
ends the loop. -/
def forEachEntry (f : App → String × JsVal → AppOutcome) :
    App → List (String × JsVal) → AppOutcome
  | app, [] => ⟨app, none⟩
  | app, entry :: entries =>
    match f app entry with
    | ⟨next, none⟩ => forEachEntry f next entries
    | ⟨next, some e⟩ => ⟨next, some e⟩

/-- The methods `getLightsList`, `getSensorsList` and `getGroupsList` (lines 226-254), which
differ in the address only. The callback runs inside the `try`: when `JSON.parse` or the
callback itself throws, the callback runs again with the error `'invalid response'`. -/
def getResourceList (E : Env) (reply : HttpReply)
    (callback : App → JsVal → JsVal → AppOutcome) (app : App) : App :=
  let first : AppOutcome :=
    if reply.error.truthy then callback app reply.error .null
    else
      match E.parse reply.response with
      | none => ⟨app, some .syntaxError⟩
      | some listing => callback app reply.error listing
  match first.error with
  | none => first.app
  | some _ => (callback first.app (.str "invalid response") .null).app

/-- The body of the `forEach` over the lights (lines 592-602). -/
def setInitialStates.light (E : Env) (app : App) (entry : String × JsVal) : AppOutcome :=
  let key := entry.1
  let light := entry.2
  match getDevice app "lights" key with
  | none => ⟨app, none⟩
  | some device =>
    if light.isNullish then ⟨app, some .typeError⟩
    else
      let o : Outcome :=
        if (light.get "state").truthy then updateState E device (light.get "state")
        else ⟨device, none⟩
      match o.error with
      | some _ => app.afterTranslation "lights" key o
      | none => app.afterTranslation "lights" key (updateDeviceInfo E o.device light)

/-- The body of the `forEach` over the sensors (lines 609-622). -/
def setInitialStates.sensor (E : Env) (app : App) (entry : String × JsVal) : AppOutcome :=
  let key := entry.1
  let sensor := entry.2
  match getDevice app "sensors" key with
  | none => ⟨app, none⟩
  | some device =>
    if sensor.isNullish then ⟨app, some .typeError⟩
    else
      let o : Outcome :=
        if (sensor.get "state").truthy then updateState E device (sensor.get "state") true
        else ⟨device, none⟩
      match o.error with
      | some _ => app.afterTranslation "sensors" key o
      | none =>
        let o : Outcome :=
          if (sensor.get "config").truthy then updateConfig E o.device (sensor.get "config") true
          else o
        match o.error with
        | some _ => app.afterTranslation "sensors" key o
        | none => app.afterTranslation "sensors" key (updateDeviceInfo E o.device sensor)

/-- The body of the `forEach` over the groups (lines 630-640). -/
def setInitialStates.group (E : Env) (app : App) (entry : String × JsVal) : AppOutcome :=
  let key := entry.1
  let group := entry.2
  match getDevice app "groups" key with
  | none => ⟨app, none⟩
  | some device =>
    if group.isNullish then ⟨app, some .typeError⟩
    else if (group.get "action").truthy then
      let o := updateState E device (group.get "action") true
      match o.error with
      | some _ => app.afterTranslation "groups" key o
      | none => app.afterTranslation "groups" key ⟨o.device.setAvailable, none⟩
    else ⟨app, none⟩

/-- The callback handed to `getLightsList` (lines 585-603). -/
def setInitialStates.lights (E : Env) (app : App) (error lights : JsVal) : AppOutcome :=
  if error.truthy then
    ⟨if JsVal.looseEq E (error.get "code") (.str "EHOSTUNREACH") && app.autoRepairConnection then
        app.attemptAutoRepair
      else app, none⟩
  else
    match lights.entries with
    | .error e => ⟨app, some e⟩
    | .ok entries => forEachEntry (setInitialStates.light E) app entries

/-- The callback handed to `getSensorsList` (lines 605-623). -/
def setInitialStates.sensors (E : Env) (app : App) (error sensors : JsVal) : AppOutcome :=
  if error.truthy then ⟨app, none⟩
  else
    match sensors.entries with
    | .error e => ⟨app, some e⟩
    | .ok entries => forEachEntry (setInitialStates.sensor E) app entries

/-- The callback handed to `getGroupsList` (lines 625-641). -/
def setInitialStates.groups (E : Env) (app : App) (error groups : JsVal) : AppOutcome :=
  if error.truthy then ⟨app, none⟩
  else
    match groups.entries with
    | .error e => ⟨app, some e⟩
    | .ok entries => forEachEntry (setInitialStates.group E) app entries

/-- The method `setInitialStates()` (lines 579-643), given the replies to its three
requests; the three callbacks run in the order lights, sensors, groups. -/
def setInitialStates (E : Env) (app : App) (lights sensors groups : HttpReply) : App :=
  if !app.host.truthy || !app.port.truthy || !app.apikey.truthy then app
  else
    app
    |> getResourceList E lights (setInitialStates.lights E)
    |> getResourceList E sensors (setInitialStates.sensors E)
    |> getResourceList E groups (setInitialStates.groups E)

/-! ## The update check (`app.js`, lines 421-490) -/

/-- The code points of `WhiteSpace` and `LineTerminator` of ECMAScript, which `parseInt`
skips at the start of its argument. -/
def strWhiteSpace : List Nat :=
  [9, 10, 11, 12, 13, 32, 160, 5760, 8192, 8193, 8194, 8195, 8196, 8197, 8198, 8199, 8200,
    8201, 8202, 8232, 8233, 8239, 8287, 12288, 65279]

/-- The value of a character as a digit: `0` to `9`, then the letters of either case from
10 on. -/
def digitValue (c : Char) : Option Nat :=
  if c.isDigit then some (c.toNat - 48)
  else if c.isLower then some (c.toNat - 87)
  else if c.isUpper then some (c.toNat - 55)
  else none

/-- The values of the longest run of digits of the radix at the start of the text. -/
def leadingDigits (radix : Nat) : List Char → List Nat
  | [] => []
  | c :: cs =>
    match digitValue c with
    | some d => if d < radix then d :: leadingDigits radix cs else []
    | none => []

/-- Whether the text starts with the pattern. -/
def startsWith : List Char → List Char → Bool
  | [], _ => true
  | _ :: _, [] => false
  | p :: ps, c :: cs => p == c && startsWith ps cs

/-- The builtin `parseInt(s, 0)` on a string; `none` is `NaN`. The radix 0 stands for 10,
or for 16 after the marker `0x`. -/
def parseInt (s : List Char) : Option ℚ :=
  let s := s.dropWhile fun c => strWhiteSpace.contains c.toNat
  let negative := startsWith ['-'] s
  let s := if startsWith ['-'] s || startsWith ['+'] s then s.drop 1 else s
  let hex := startsWith ['0', 'x'] s || startsWith ['0', 'X'] s
  let radix := if hex then 16 else 10
  let s := if hex then s.drop 2 else s
  let digits := leadingDigits radix s
  if digits.isEmpty then none
  else
    let value : ℚ := ((digits.foldl (fun acc d => acc * radix + d) 0 : Nat) : ℚ)
    some (if negative then -value else value)

/-- The call `s.split('.')` on a string. -/
def splitDot : List Char → List (List Char)
  | [] => [[]]
  | c :: cs =>
    if c == '.' then [] :: splitDot cs
    else
      match splitDot cs with
      | [] => [[c]]
      | segment :: segments => (c :: segment) :: segments

/-- The call `s.replace(pattern, replacement)` with a string as pattern, which replaces
the first occurrence; the patterns at hand are not empty and the replacements hold no
`$`. -/
def replaceFirst (pattern replacement : List Char) : List Char → List Char
  | [] => []
  | c :: cs =>
    if startsWith pattern (c :: cs) then replacement ++ (c :: cs).drop pattern.length
    else c :: replaceFirst pattern replacement cs

/-- The expression `parseInt(s.split('.')[i], 0)`: a missing part is `undefined`, which
`parseInt` reads as the text `undefined`. -/
def versionPart (s : String) (i : Nat) : Option ℚ :=
  parseInt (((splitDot s.toList).get? i).getD "undefined".toList)

/-- The expression `major * 100 + minor * 10 + build` of lines 441 and 477; `none` is
`NaN`. -/
def versionWeight (s : String) : Option ℚ :=
  match versionPart s 0, versionPart s 1, versionPart s 2 with
  | some major, some minor, some build => some (major * 100 + minor * 10 + build)
  | _, _, _ => none

/-- The field `updateAvailable` of lines 441 and 477, from `config.swversion` and
`nextRaw`; a comparison with `NaN` is false. -/
def updateAvailable (swversion nextRaw : String) : Bool :=
  match versionWeight swversion, versionWeight nextRaw with
  | some current, some next => decide (current < next)
  | _, _ => false

/-- The expression of line 433 for `nextRaw`, on the tag name of the release. -/
def getDeconzUpdates.nextRaw (tag : String) : String :=
  String.mk
    (replaceFirst ['v'] []
      (replaceFirst ['V'] []
        (replaceFirst ['_'] ['.']
          (replaceFirst ['_'] ['.']
            (replaceFirst "_stable".toList [] tag.toList)))))

/-- The field `updateAvailable` of the result of `getDeconzUpdates` (lines 421-453), from
the config that `getConfig` has parsed and the text of the release. Reading a property of
`null` or `undefined` throws, and so does the method `replace` or `split` of a value
that is not a string. -/
def getDeconzUpdates (E : Env) (config : JsVal) (release : String) : Except JsError Bool :=
  match E.parse release with
  | none => .error .syntaxError
  | some parsedRelease =>
    if parsedRelease.isNullish then .error .typeError
    else
      match parsedRelease.get "tag_name" with
      | .str tag =>
        if config.isNullish then .error .typeError
        else
          match config.get "swversion" with
          | .str swversion => .ok (updateAvailable swversion (getDeconzUpdates.nextRaw tag))
          | _ => .error .typeError
      | _ => .error .typeError

/-- The field `updateAvailable` of the result of `getDeconzDockerUpdates` (lines
455-490), where `nextRaw` is the field `version` of the release. -/
def getDeconzDockerUpdates (E : Env) (config : JsVal) (release : String) :
    Except JsError Bool :=
  match E.parse release with
  | none => .error .syntaxError
  | some parsedRelease =>
    if parsedRelease.isNullish then .error .typeError
    else
      match parsedRelease.get "version" with
      | .str nextRaw =>
        if config.isNullish then .error .typeError
        else
          match config.get "swversion" with
          | .str swversion => .ok (updateAvailable swversion nextRaw)
          | _ => .error .typeError
      | _ => .error .typeError

/-- The value of a decimal numeral. -/
def decimalValue (digits : List Char) : Nat :=
  digits.foldl (fun acc c => acc * 10 + (c.toNat - 48)) 0

/-- The text `a.b.c` of a version with the numerals `a`, `b` and `c`. -/
def versionText (a b c : List Char) : String :=
  String.mk (a ++ '.' :: (b ++ '.' :: c))

/-- A decimal numeral: digits, at least one. -/
def IsNumeral (digits : List Char) : Prop :=
  digits ≠ [] ∧ ∀ c ∈ digits, c.isDigit = true

/-! ## The pairing of groups (`drivers/group/driver.js`, lines 17-75) -/

/-- The array `capabilitiesArray` (lines 18-23). -/
def capabilitiesArray : List (List String) :=
  [["onoff"],
    ["onoff", "dim"],
    ["onoff", "dim", "light_temperature"],
    ["onoff", "dim", "light_temperature", "light_mode", "light_saturation", "light_hue"]]

/-- The own properties of the object `matchTable` (lines 25-34). -/
def matchTable : List (String × Nat) :=
  [("On/Off light", 0), ("Dimmable light", 1), ("Color temperature light", 2),
    ("Extended color light", 3), ("Color light", 3), ("Smart plug", 0),
    ("On/Off plug-in unit", 0), ("Window covering device", 1)]

/-- A device offered for pairing (lines 61-70); `none` is `undefined`. -/
structure PairDevice where
  name : JsVal
  dataId : JsVal
  settingsId : String
  capabilities : Option (List String)

/-- What `onPairListDevices` does: it hands an error or the devices to its callback, or
it throws. -/
inductive PairReply where
  | error (e : JsVal)
  | devices (offered : List PairDevice)
  | thrown (e : JsError)

/-- The method `filter` with a callback that may throw. -/
def filterEntries (p : String × JsVal → Except JsError Bool) :
    List (String × JsVal) → Except JsError (List (String × JsVal))
  | [] => .ok []
  | entry :: entries =>
    match p entry with
    | .error e => .error e
    | .ok keep =>
      match filterEntries p entries with
      | .error e => .error e
      | .ok kept => .ok (if keep then entry :: kept else kept)

/-- The method `map` with a callback that may throw. -/
def mapEntries {β : Type} (f : String × JsVal → Except JsError β) :
    List (String × JsVal) → Except JsError (List β)
  | [] => .ok []
  | entry :: entries =>
    match f entry with
    | .error e => .error e
    | .ok y =>
      match mapEntries f entries with
      | .error e => .error e
      | .ok ys => .ok (y :: ys)

/-- The test `group.lights.length > 0` of line 48: reading `lights` of `null` or
`undefined` throws, and so does reading `length` of them. -/
def onPairListDevices.hasLights (E : Env) (group : JsVal) : Except JsError Bool :=
  if group.isNullish then .error .typeError
  else if (group.get "lights").isNullish then .error .typeError
  else .ok (JsVal.gt E ((group.get "lights").get "length") 0)

/-- The call `group.lights.includes(lightKey)` of line 55: the method of arrays compares
with `===`, the method of strings looks for the key as a part, and another value has no
such method. -/
def onPairListDevices.includes (members : JsVal) (lightKey : String) : Except JsError Bool :=
  match members with
  | .arr items => .ok (items.any fun item => item.strictEqStr lightKey)
  | .str s => .ok (s.toList.tails.any fun rest => startsWith lightKey.toList rest)
  | _ => .error .typeError

/-- The expression `matchTable[light.type]` of line 58, as an index: `none` is a value
that is not a number, `undefined` for a name the table does not have or what
`Object.prototype` holds under the name. Reading `type` of `null` or `undefined`
throws. -/
def onPairListDevices.matchType (E : Env) (light : JsVal) : Except JsError (Option Nat) :=
  if light.isNullish then .error .typeError
  else .ok (matchTable.lookup (JsVal.toKey E (light.get "type")))

/-- The array `groupLights` of lines 52-59. -/
def onPairListDevices.groupLights (E : Env) (lights : JsVal) (members : JsVal) :
    Except JsError (List (Option Nat)) :=
  match JsVal.entries lights with
  | .error e => .error e
  | .ok entries =>
    match filterEntries (fun entry => onPairListDevices.includes members entry.1) entries with
    | .error e => .error e
    | .ok kept => mapEntries (fun entry => onPairListDevices.matchType E entry.2) kept

/-- The call `Math.max.apply(Math, groupLights)` as an index: `none` is `NaN`, which one
operand that is not a number gives, or `-Infinity`, the maximum of no operands. -/
def onPairListDevices.mathMax (groupLights : List (Option Nat)) : Option Nat :=
  if groupLights.isEmpty then none
  else
    groupLights.foldl
      (fun acc x =>
        match acc, x with
        | some a, some b => some (max a b)
        | _, _ => none)
      (some 0)

/-- Lines 49-71: the device offered for one group. -/
def onPairListDevices.device (E : Env) (lights : JsVal) (entry : String × JsVal) :
    Except JsError PairDevice :=
  match onPairListDevices.groupLights E lights (entry.2.get "lights") with
  | .error e => .error e
  | .ok groupLights =>
    .ok
      { name := entry.2.get "name"
        dataId := entry.2.get "etag"
        settingsId := entry.1
        capabilities :=
          (onPairListDevices.mathMax groupLights).bind fun i => capabilitiesArray.get? i }

/-- Lines 46-72: the devices handed to the callback. -/
def onPairListDevices.devicesObjects (E : Env) (groupDevices lights : JsVal) :
    Except JsError (List PairDevice) :=
  match JsVal.entries groupDevices with
  | .error e => .error e
  | .ok entries =>
    match filterEntries (fun entry => onPairListDevices.hasLights E entry.2) entries with
    | .error e => .error e
    | .ok kept => mapEntries (onPairListDevices.device E lights) kept

/-- The method `onPairListDevices` (lines 17-75), from what `getGroupsList` and
`getLightsList` hand to their callbacks. -/
def onPairListDevices (E : Env) (groupError groupDevices lightError lights : JsVal) :
    PairReply :=
  if groupError.truthy then .error groupError
  else if lightError.truthy then .error lightError
  else
    match onPairListDevices.devicesObjects E groupDevices lights with
    | .ok offered => .devices offered
    | .error e => .thrown e

/-- The members of a group: the items of the array `lights`. -/
def groupMembers (group : JsVal) : List JsVal :=
  match group.get "lights" with
  | .arr items => items
  | _ => []

/-! ## Sequences of sink calls -/

/-- The device `after` results from `before` by a sequence of calls of the device's
sinks, each of which satisfies `A`. -/
inductive Sinks (E : Env) (A : Effect → Prop) : Device → Device → Prop where
  | refl (d : Device) : Sinks E A d d
  | setCapabilityValue {d x : Device} (n : String) (v : JsVal) :
      Sinks E A d x → A (.setCapabilityValue n v) → Sinks E A d (x.setCapabilityValue E n v)
  | fireEvent {d x : Device} (args : List JsVal) :
      Sinks E A d x → A (.fireEvent args) → Sinks E A d (x.fireEvent args)
  | handleAlertState {d x : Device} (s : JsVal) :
      Sinks E A d x → A (.handleAlertState s) → Sinks E A d (x.handleAlertState s)
  | setSettings {d x : Device} (k : String) (v : JsVal) :
      Sinks E A d x → A (.setSettings k v) → Sinks E A d (x.setSettings k v)
  | setAvailable {d x : Device} :
      Sinks E A d x → A .setAvailable → Sinks E A d x.setAvailable
  | setUnavailable {d x : Device} (r : String) :
      Sinks E A d x → A (.setUnavailable r) → Sinks E A d (x.setUnavailable r)
  | trigger {d x : Device} (c : String) :
      Sinks E A d x → A (.trigger c) → Sinks E A d (x.trigger c)

/-- The sink calls `updateState` makes on a device with the capabilities `caps`. -/
def updateState.allowed (caps : List String) (state : JsVal) (initial : Bool) : Effect → Prop
  | .setCapabilityValue n _ => n ∈ caps
  | .fireEvent args =>
    state.hasOwnProperty "buttonevent" = true ∧
      ((initial = false ∧ args = [state.get "buttonevent", state]) ∨
        (state.hasOwnProperty "gesture" = true ∧
          args = [state.get "buttonevent", .bool initial, state.get "gesture", state]))
  | .handleAlertState _ => state.hasOwnProperty "alert" = true ∧ "onoff" ∈ caps
  | .setSettings k v =>
    k = "lastUpdated" ∧ v = state.get "lastupdated" ∧ state.hasOwnProperty "lastupdated" = true
  | .setAvailable => state.hasOwnProperty "reachable" = true
  | .setUnavailable _ =>
    state.hasOwnProperty "reachable" = true ∧ (state.get "reachable").truthy = false
  | .trigger c =>
    state.hasOwnProperty "reachable" = true ∧
      (c = "device_on_reachable" ∨ c = "device_on_unreachable")

/-- The sink calls lines 685-844 of `updateState` make. -/
def updateState.attrAllowed (caps : List String) (state : JsVal) : Effect → Prop
  | .setCapabilityValue n _ => n ∈ caps
  | .handleAlertState _ => state.hasOwnProperty "alert" = true ∧ "onoff" ∈ caps
  | .setAvailable => state.hasOwnProperty "reachable" = true
  | .setUnavailable _ =>
    state.hasOwnProperty "reachable" = true ∧ (state.get "reachable").truthy = false
  | .trigger c =>
    state.hasOwnProperty "reachable" = true ∧
      (c = "device_on_reachable" ∨ c = "device_on_unreachable")
  | _ => False

/-- The sink calls `updateConfig` makes on a device with the capabilities `caps`. -/
def updateConfig.allowed (caps : List String) (config : JsVal) : Effect → Prop
  | .setCapabilityValue n _ => n ∈ caps
  | .setSettings k _ => k = "sensitivity" ∨ k = "ledindication" ∨ k = "pending"
  | .setAvailable => config.hasOwnProperty "reachable" = true
  | .setUnavailable _ => config.hasOwnProperty "reachable" = true
  | _ => False

/-- The sink calls lines 892-914 of `updateConfig` make. -/
def updateConfig.attrAllowed (caps : List String) : Effect → Prop
  | .setCapabilityValue n _ => n ∈ caps
  | .setSettings k _ => k = "sensitivity" ∨ k = "ledindication" ∨ k = "pending"
  | _ => False

/-- Whether an effect is a call of `fireEvent`. -/
def Effect.isFireEvent : Effect → Bool
  | .fireEvent _ => true
  | _ => false

/-- Whether an effect is the firing of the flow card `card`. -/
def Effect.isTrigger (card : String) : Effect → Bool
  | .trigger c => c == card
  | _ => false

/-- The sink calls the colour statements of `updateState` make: `setCapabilityValue` with
a declared name. -/
def updateState.gated (caps : List String) : Effect → Prop
  | .setCapabilityValue n _ => n ∈ caps
  | _ => False

/-- The sink calls the statements of `updateState` after the colour statements make. -/
def updateState.restAllowed (caps : List String) (state : JsVal) : Effect → Prop
  | .setCapabilityValue n _ => n ∈ caps
  | .setSettings k v =>
    k = "lastUpdated" ∧ v = state.get "lastupdated" ∧ state.hasOwnProperty "lastupdated" = true
  | _ => False

/-- What the colour statements of `updateState` do to a device: gated calls of
`setCapabilityValue` only, and an error only on a device that declares both `light_hue`
and `light_saturation`. -/
def updateState.ColourOk (E : Env) (caps : List String) (d : Device) :
    Except Outcome Device → Prop
  | .ok x => Sinks E (updateState.gated caps) d x
  | .error o =>
    Sinks E (updateState.gated caps) d o.device ∧
      (o.error ≠ none → "light_hue" ∈ caps ∧ "light_saturation" ∈ caps)

/-- The sink calls the colour statements of `updateState` make, by the capability they
set. -/
def updateState.colourNames : Effect → Prop
  | .setCapabilityValue n _ =>
    n = "light_mode" ∨ n = "light_temperature" ∨ n = "light_hue" ∨ n = "light_saturation"
  | _ => False

/-- What the colour statements of `updateState` do to a device, whether they end the
function or not: calls of `setCapabilityValue` for the four colour capabilities. -/
def updateState.ColourCalls (E : Env) (d : Device) : Except Outcome Device → Prop
  | .ok x => Sinks E updateState.colourNames d x
  | .error o => Sinks E updateState.colourNames d o.device

/-- The sink calls `updateDeviceInfo` makes. -/
def updateDeviceInfo.allowed : Effect → Prop
  | .setSettings _ _ => True
  | _ => False

/-- Every call of `fireEvent` that `after` has seen and `before` has not is the call of
line 682 for a state with `buttonevent` and `gesture`, with the flag `initial = true` as
its second argument; none is the button event of line 678. -/
def Device.FiresInitialOnly (before after : Device) : Prop :=
  ∀ args, Effect.fireEvent args ∈ after.trace →
    Effect.fireEvent args ∈ before.trace ∨
      ∃ s : JsVal, s.hasOwnProperty "buttonevent" = true ∧ s.hasOwnProperty "gesture" = true ∧
        args = [s.get "buttonevent", .bool true, s.get "gesture", s]

/-- Every sensor and every group registered `after` was registered `before`, and has
seen no other new call of `fireEvent` than calls with the flag `initial = true`. -/
def App.PollQuiet (before after : App) : Prop :=
  ∀ kind, kind = "sensors" ∨ kind = "groups" →
    ∀ id d2, getDevice after kind id = some d2 →
      ∃ d, getDevice before kind id = some d ∧ d.FiresInitialOnly d2

/-- Whether an effect is a call of `setUnavailable`. -/
def Effect.isSetUnavailable : Effect → Bool
  | .setUnavailable _ => true
  | _ => false

/-- The value of a call `setCapabilityValue(name, value)`. -/
def Effect.valueSet (name : String) : Effect → Option JsVal
  | .setCapabilityValue n v => if n == name then some v else none
  | _ => none

/-- The value of a call `setSettings` with the key `key`. -/
def Effect.settingWritten (key : String) : Effect → Option JsVal
  | .setSettings k v => if k == key then some v else none
  | _ => none

/-- The calls of `setSettings` with another key than `key`. -/
def Effect.writesOther (key : String) : Effect → Prop
  | .setSettings k _ => k ≠ key
  | _ => False

/-- The number of calls of `setUnavailable` made on the device. -/
def Device.unavailableCalls (d : Device) : Nat :=
  d.trace.countP Effect.isSetUnavailable

/-- The values of the calls `setCapabilityValue(name, value)` made on the device, most
recent first. -/
def Device.calls (name : String) (d : Device) : List JsVal :=
  d.trace.filterMap (Effect.valueSet name)

/-- The values of the calls of `setSettings` with the key `key` made on the device, most
recent first. -/
def Device.written (key : String) (d : Device) : List JsVal :=
  d.trace.filterMap (Effect.settingWritten key)

/-- The number of calls of `fireEvent` made on the device. -/
def Device.fired (d : Device) : Nat :=
  d.trace.countP Effect.isFireEvent

/-- The number of times the flow card `card` was fired for the device. -/
def Device.triggered (card : String) (d : Device) : Nat :=
  d.trace.countP (Effect.isTrigger card)

/-! ## Two runs side by side -/

/-- The device `x2` differs from `x` at most in its trace, its availability and the
settings under the keys in `free`. -/
def Device.Same (free : String → Prop) (x x2 : Device) : Prop :=
  x2.driver = x.driver ∧ x2.capabilities = x.capabilities ∧
    x2.capabilityValues = x.capabilityValues ∧ ∀ k, ¬ free k → x2.settings k = x.settings k

/-- Two runs that started from `d0` and `e0` and have reached `x` and `y`: the devices
are of the same class, declare the same capabilities, agree on the settings outside
`free`, and every capability value either is the same in both or is in both still the
one the run started with. -/
def Twin (free : String → Prop) (d0 e0 x y : Device) : Prop :=
  x.driver = y.driver ∧ x.capabilities = y.capabilities ∧
    (∀ k, ¬ free k → x.settings k = y.settings k) ∧
    ∀ n, x.capabilityValues n = y.capabilityValues n ∨
      (x.capabilityValues n = d0.capabilityValues n ∧
        y.capabilityValues n = e0.capabilityValues n)

/-- Two runs of the colour statements end the same way. -/
def TwinExit (free : String → Prop) (d0 e0 : Device) :
    Except Outcome Device → Except Outcome Device → Prop
  | .ok x, .ok y => Twin free d0 e0 x y
  | .error o, .error p => Twin free d0 e0 o.device p.device ∧ o.error = p.error
  | _, _ => False

/-- The sink calls that leave the class, the capabilities, the capability values and the
settings outside `free` alone. -/
def Effect.quiet (free : String → Prop) : Effect → Prop
  | .setCapabilityValue _ _ => False
  | .setSettings k _ => free k
  | _ => True

/-- The key `lastUpdated`, the one setting `updateState` writes. -/
def updateState.free (k : String) : Prop :=
  k = "lastUpdated"

/-- The keys of the settings `updateConfig` writes. -/
def updateConfig.free (k : String) : Prop :=
  k = "sensitivity" ∨ k = "ledindication" ∨ k = "pending"

/-- The write of one setting when the setting is set: the statement of lines 881-883,
and those of lines 900-910, on the settings alone. -/
def writeIfSet (key : String) (value : JsVal) (present : Bool) (settings : String → JsVal) :
    String → JsVal :=
  if present && !(settings key).isNullish then Function.update settings key value else settings

/-! ## Example data -/

/-- An environment whose builtins give fixed answers. -/
def Env.fixed : Env :=
  { parse := fun _ => none
    stringify := fun v => v
    toStr := fun _ => ""
    strToNum := fun _ => none
    xyToHs := fun _ _ => (.num 0, .num 0) }

/-- A device of the framework class with the given capabilities: no value set, no
setting set, unavailable, nothing called yet. -/
def Device.fresh (capabilities : List String) : Device :=
  { driver := .homeyDevice
    name := .str "device"
    capabilities := capabilities
    capabilityValues := fun _ => .null
    settings := fun _ => .undefined
    available := false
    trace := [] }

/-- An environment whose `JSON.parse` knows the given texts. -/
def Env.parsing (known : List (String × JsVal)) : Env :=
  { Env.fixed with parse := fun text => known.lookup text }

/-- An application with one registered sensor, under the id 7, and nothing else. -/
def App.oneSensor : App :=
  App.start ⟨[], [("7", Device.fresh [])], []⟩ (.str "192.168.1.2") (.num 80) (.str "key")
    (.num 443) true

/-- An application with one registered light, under the id 3, that declares `onoff` and
`dim`. -/
def App.oneLight : App :=
  App.start ⟨[("3", Device.fresh ["onoff", "dim"])], [], []⟩ (.str "192.168.1.2") (.num 80)
    (.str "key") (.num 443) true

/-- A state with a button event and a gesture. -/
def gestureState : JsVal :=
  .obj [("buttonevent", .num 1002), ("gesture", .num 1)]

/-- A state with a button event. -/
def buttonState : JsVal :=
  .obj [("buttonevent", .num 1002)]

/-- The sensors listing in which the sensor 7 has a button event and a gesture. -/
def gestureListing : JsVal :=
  .obj [("7", .obj [("state", gestureState)])]

/-- The text of `gestureListing`. -/
def gestureListingText : String :=
  "\x7b\"7\":\x7b\"state\":\x7b\"buttonevent\":1002,\"gesture\":1\x7d\x7d\x7d"

/-- The sensors listing in which the sensor 7 has a button event. -/
def buttonListing : JsVal :=
  .obj [("7", .obj [("state", buttonState)])]

/-- The text of `buttonListing`. -/
def buttonListingText : String :=
  "\x7b\"7\":\x7b\"state\":\x7b\"buttonevent\":1002\x7d\x7d\x7d"

/-- The lights listing in which the light 3 has a button event. -/
def lightListing : JsVal :=
  .obj [("3", .obj [("state", buttonState)])]

/-- The text of `lightListing`. -/
def lightListingText : String :=
  "\x7b\"3\":\x7b\"state\":\x7b\"buttonevent\":1002\x7d\x7d\x7d"

/-- The stream message with a button event of the sensor 7. -/
def buttonMessage : JsVal :=
  .obj [("r", .str "sensors"), ("id", .str "7"), ("state", buttonState)]

/-- The text of `buttonMessage`. -/
def buttonMessageText : String :=
  "\x7b\"r\":\"sensors\",\"id\":\"7\",\"state\":\x7b\"buttonevent\":1002\x7d\x7d"

/-- An environment whose `JSON.parse` knows the texts above and the text `null`. -/
def Env.sample : Env :=
  Env.parsing [(gestureListingText, gestureListing), (buttonListingText, buttonListing),
    (lightListingText, lightListing), (buttonMessageText, buttonMessage), ("null", .null)]

/-- The application with one sensor once its first connection is open. -/
def App.connected : App :=
  (run App.oneSensor [.startWebSocketConnection, .opened 0]).getD App.oneSensor

/-- A failed request. -/
def HttpReply.failed : HttpReply :=
  ⟨.str "timeout", ""⟩

/-- A device of the framework class with the given capabilities and settings. -/
def Device.withSettings (capabilities : List String) (settings : List (String × JsVal)) :
    Device :=
  { Device.fresh capabilities with settings := fun k => (settings.lookup k).getD .undefined }

/-- The stream message that switches the light 3 on at the brightness 127. -/
def lightMessage : JsVal :=
  .obj [("r", .str "lights"), ("id", .str "3"),
    ("state", .obj [("on", .bool true), ("bri", .num 127)])]

/-- The text of `lightMessage`. -/
def lightMessageText : String :=
  "\x7b\"r\":\"lights\",\"id\":\"3\",\"state\":\x7b\"on\":true,\"bri\":127\x7d\x7d"

/-- The stream message with the battery level 88 of the sensor 7. -/
def batteryMessage : JsVal :=
  .obj [("r", .str "sensors"), ("id", .str "7"), ("config", .obj [("battery", .num 88)])]

/-- The text of `batteryMessage`. -/
def batteryMessageText : String :=
  "\x7b\"r\":\"sensors\",\"id\":\"7\",\"config\":\x7b\"battery\":88\x7d\x7d"

/-- An environment whose `JSON.parse` knows the two messages above. -/
def Env.messages : Env :=
  Env.parsing [(lightMessageText, lightMessage), (batteryMessageText, batteryMessage)]

/-- An application with one registered light, under the id 3, of the class
`GenericBlinds`, that declares `onoff` and `dim`. -/
def App.oneBlind : App :=
  App.start ⟨[("3", { Device.fresh ["onoff", "dim"] with driver := .genericBlinds })], [], []⟩
    (.str "192.168.1.2") (.num 80) (.str "key") (.num 443) true

/-- An application with one registered sensor, under the id 7, that declares
`measure_battery`. -/
def App.batterySensor : App :=
  App.start ⟨[], [("7", Device.fresh ["measure_battery"])], []⟩ (.str "192.168.1.2") (.num 80)
    (.str "key") (.num 443) true

/-- The text of a release of the container image, version 2.6.0. -/
def dockerReleaseText : String :=
  "\x7b\"version\":\"2.6.0\",\"channel\":\"stable\"\x7d"

/-- The release that `dockerReleaseText` denotes. -/
def dockerRelease : JsVal :=
  .obj [("version", .str "2.6.0"), ("channel", .str "stable")]

/-- An environment whose `JSON.parse` knows the release above. -/
def Env.releases : Env :=
  Env.parsing [(dockerReleaseText, dockerRelease)]

/-- A groups listing with two groups, the second without lights, and a lights listing
with a dimmable and an extended colour light. -/
def groupsListing : JsVal :=
  .obj [("1", .obj [("name", .str "Living room"), ("etag", .str "e1"),
      ("lights", .arr [.str "3", .str "4"])]),
    ("2", .obj [("name", .str "Empty"), ("etag", .str "e2"), ("lights", .arr [])])]

/-- The lights listing that goes with `groupsListing`. -/
def lightsListing : JsVal :=
  .obj [("3", .obj [("type", .str "Dimmable light")]),
    ("4", .obj [("type", .str "Extended color light")]),
    ("5", .obj [("type", .str "On/Off light")])]

/-- A device-info record with a unique id. -/
def macData : JsVal :=
  .obj [("uniqueid", .str "00:15:8d:00:02:a1:b2:c3-01-0006")]

/-! ## Shadowed and inherited property names -/

/-- Whether the value has an own property named `hasOwnProperty`. Such a property shadows
the method that objects inherit from `Object.prototype`; in a parsed payload its value is
no function. -/
def JsVal.shadowsHasOwnProperty : JsVal → Bool
  | .obj fields => (fields.lookup "hasOwnProperty").isSome
  | _ => false

/-- The expression `v.hasOwnProperty(k)` as it is evaluated: the property `hasOwnProperty`
is read from `v`, which throws a `TypeError` on `null` and `undefined`, and what was read
is called, which throws a `TypeError` when an own property of `v` shadows the method. -/
def JsVal.callHasOwnProperty (v : JsVal) (k : String) : Except JsError Bool :=
  if v.isNullish then .error .typeError
  else if v.shadowsHasOwnProperty then .error .typeError
  else .ok (v.hasOwnProperty k)

/-- The method `updateState(device, state, initial = false)` (lines 666-884) on any state.
Its first statement (line 677) evaluates `state.hasOwnProperty('buttonevent')` before
anything is done to the device. When that throws, the method ends there; when it does
not, no later `state.hasOwnProperty(...)` throws either, and the statements are those of
`updateState`. -/
def updateState.onAnyState (E : Env) (device : Device) (state : JsVal)
    (initial : Bool := false) : Outcome :=
  match state.callHasOwnProperty "buttonevent" with
  | .error e => ⟨device, some e⟩
  | .ok _ => updateState E device state initial

/-- The method `updateConfig(device, config, initial = false)` (lines 886-919) on any
config. Its first statement after `device.getCapabilities()` (line 892) evaluates
`config.hasOwnProperty('temperature')`; when that throws, the method ends there, and when
it does not, the statements are those of `updateConfig`. -/
def updateConfig.onAnyConfig (E : Env) (device : Device) (config : JsVal)
    (initial : Bool := false) : Outcome :=
  match config.callHasOwnProperty "temperature" with
  | .error e => ⟨device, some e⟩
  | .ok _ => updateConfig E device config initial

/-- The method `updateDeviceInfo(device, data)` (lines 921-970) on any data. Line 926
evaluates `data.hasOwnProperty('modelid')` after the read `device.getSetting('modelid')`;
when that throws, the method ends there, and when it does not, the statements are those
of `updateDeviceInfo`. -/
def updateDeviceInfo.onAnyData (E : Env) (device : Device) (data : JsVal) : Outcome :=
  match data.callHasOwnProperty "modelid" with
  | .error e => ⟨device, some e⟩
  | .ok _ => updateDeviceInfo E device data

/-- The objects that `this.devices` reaches through its prototype. `this.devices` is an
object literal (lines 14-18), so that for a name `type` other than `lights`, `sensors` and
`groups` the read `this.devices[type]` is a read of `Object.prototype`: `__proto__` gives
that object itself, `constructor`, `toString`, `hasOwnProperty` and the like give
functions, any other name gives `undefined`. These objects belong to the engine, not to
the sources. -/
structure Builtins where
  /-- For a name `type` that is none of `lights`, `sensors`, `groups`: `none` when
  `this.devices[type]` is `undefined` or has no own property `id`, and otherwise
  `ToBoolean` of the value `this.devices[type][id]`. -/
  inherited : String → String → Option Bool

/-- What `getDevice` returns. -/
inductive Found where
  /-- The value `null` of line 663. -/
  | null
  /-- A registered device. -/
  | device (d : Device)
  /-- A property of an object of the engine, returned by line 661: a function, a number, a
  string, an object or `null`. It is no device and has no method `getCapabilities`;
  `truthy` is its `ToBoolean`. -/
  | builtin (truthy : Bool)

/-- The method `getDevice(type, id)` (lines 659-664) on any type and id. For one of the
three kinds, `this.devices[type]` is the object of the registered devices, and
`this.devices[type].hasOwnProperty(id)` throws a `TypeError` when a device is registered
under the id `hasOwnProperty`, a device being no function. For another name, the objects
of the engine are looked at. -/
def getDevice.onAnyType (B : Builtins) (app : App) (type id : String) :
    Except JsError Found :=
  match app.devices.ofType type with
  | some devices =>
    if (devices.lookup "hasOwnProperty").isSome then .error .typeError
    else
      match devices.lookup id with
      | some device => .ok (.device device)
      | none => .ok .null
  | none =>
    match B.inherited type id with
    | some truthy => .ok (.builtin truthy)
    | none => .ok .null

/-- Lines 168-181 of `handleMessage` on any message. A truthy value that is no device
passes the test `if (device)`, and the translation it is handed to throws a `TypeError`
at `device.getCapabilities()`. -/
def handleMessage.dispatchAny (B : Builtins) (E : Env) (app : App) (data : JsVal) :
    AppOutcome :=
  if data.isNullish then ⟨app, some .typeError⟩
  else
    let type := JsVal.toKey E (data.get "r")
    let id := JsVal.toKey E (data.get "id")
    match getDevice.onAnyType B app type id with
    | .error e => ⟨app, some e⟩
    | .ok (.device device) =>
      if (data.get "state").truthy then
        app.afterTranslation type id (updateState.onAnyState E device (data.get "state"))
      else if (data.get "action").truthy then
        app.afterTranslation type id (updateState.onAnyState E device (data.get "action"))
      else if (data.get "config").truthy then
        app.afterTranslation type id (updateConfig.onAnyConfig E device (data.get "config"))
      else ⟨app, none⟩
    | .ok (.builtin true) =>
      if (data.get "state").truthy then ⟨app, some .typeError⟩
      else if (data.get "action").truthy then ⟨app, some .typeError⟩
      else if (data.get "config").truthy then ⟨app, some .typeError⟩
      else ⟨app, none⟩
    | .ok _ => ⟨app, none⟩

/-- The method `handleMessage(message)` (lines 166-182) on any message. -/
def handleMessage.onAnyMessage (B : Builtins) (E : Env) (app : App) (message : String) :
    AppOutcome :=
  match E.parse message with
  | none => ⟨app, some .syntaxError⟩
  | some data => handleMessage.dispatchAny B E app data

/-- The functions of `Object.prototype` (ECMAScript 2015, 19.1.3 and B.2.2), each with
the value of its property `length`. -/
def objectPrototypeFunctions : List (String × Nat) :=
  [("constructor", 1), ("hasOwnProperty", 1), ("isPrototypeOf", 1),
    ("propertyIsEnumerable", 1), ("toLocaleString", 0), ("toString", 0), ("valueOf", 0),
    ("__defineGetter__", 2), ("__defineSetter__", 2), ("__lookupGetter__", 1),
    ("__lookupSetter__", 1)]

/-- Objects of the engine for the examples: under `__proto__` the object
`Object.prototype`, whose own properties are its functions and `__proto__`, which is
`null`; under the name of a function of `Object.prototype` that function, with its
properties `name` and `length`. The further properties of the constructor `Object` are
left out. -/
def Builtins.sample : Builtins :=
  { inherited := fun type id =>
      if type == "__proto__" then
        if id == "__proto__" then some false
        else if (objectPrototypeFunctions.lookup id).isSome then some true
        else none
      else
        match objectPrototypeFunctions.lookup type with
        | some length =>
          if id == "name" then some true
          else if id == "length" then some (length != 0)
          else none
        | none => none }

/-- A stream message whose `r` and `id` name a function of `Object.prototype`. -/
def inheritedMessage : JsVal :=
  .obj [("r", .str "__proto__"), ("id", .str "hasOwnProperty"),
    ("state", .obj [("on", .bool true)])]

/-- The text of `inheritedMessage`. -/
def inheritedMessageText : String :=
  "\x7b\"r\":\"__proto__\",\"id\":\"hasOwnProperty\",\"state\":\x7b\"on\":true\x7d\x7d"

/-- A stream message for no registered device and no inherited name. -/
def strangerMessage : JsVal :=
  .obj [("r", .str "sensors"), ("id", .str "8"), ("state", .obj [("on", .bool true)])]

/-- The text of `strangerMessage`. -/
def strangerMessageText : String :=
  "\x7b\"r\":\"sensors\",\"id\":\"8\",\"state\":\x7b\"on\":true\x7d\x7d"

/-- An environment whose `JSON.parse` knows the button message and the two messages
above. -/
def Env.inheritedNames : Env :=
  Env.parsing [(buttonMessageText, buttonMessage), (inheritedMessageText, inheritedMessage),
    (strangerMessageText, strangerMessage)]

/-! # Theorems -/

/-! ## Sink calls -/

namespace Device

variable (E : Env) (d : Device) (n : String) (v : JsVal)

@[simp] theorem setCapabilityValue_capabilities :
    (d.setCapabilityValue E n v).capabilities = d.capabilities := by
  simp only [setCapabilityValue, record, superSetCapabilityValue, getCapabilityValue]
  split <;> (try split) <;> (try split) <;> rfl

@[simp] theorem setCapabilityValue_driver :
    (d.setCapabilityValue E n v).driver = d.driver := by
  simp only [setCapabilityValue, record, superSetCapabilityValue, getCapabilityValue]
  split <;> (try split) <;> (try split) <;> rfl

@[simp] theorem setCapabilityValue_settings :
    (d.setCapabilityValue E n v).settings = d.settings := by
  simp only [setCapabilityValue, record, superSetCapabilityValue, getCapabilityValue]
  split <;> (try split) <;> (try split) <;> rfl

@[simp] theorem setCapabilityValue_available :
    (d.setCapabilityValue E n v).available = d.available := by
  simp only [setCapabilityValue, record, superSetCapabilityValue, getCapabilityValue]
  split <;> (try split) <;> (try split) <;> rfl

theorem setCapabilityValue_values_of_ne {m : String} (h : m ≠ n) :
    (d.setCapabilityValue E n v).capabilityValues m = d.capabilityValues m := by
  simp only [setCapabilityValue, record, superSetCapabilityValue, getCapabilityValue]
  split <;> (try split) <;> (try split) <;> simp [Function.update, h]

theorem mem_trace_setCapabilityValue {e : Effect}
    (h : e ∈ (d.setCapabilityValue E n v).trace) :
    e = .setCapabilityValue n v ∨ e = .trigger "switched" ∨ e ∈ d.trace := by
  simp only [setCapabilityValue, record, superSetCapabilityValue, getCapabilityValue] at h
  split at h <;> (try split at h) <;> (try split at h) <;> simp at h <;> tauto

theorem countP_trace_setCapabilityValue (p : Effect → Bool)
    (h1 : p (.setCapabilityValue n v) = false) (h2 : p (.trigger "switched") = false) :
    (d.setCapabilityValue E n v).trace.countP p = d.trace.countP p := by
  simp only [setCapabilityValue, record, superSetCapabilityValue, getCapabilityValue]
  split <;> (try split) <;> (try split) <;> simp [List.countP_cons, h1, h2]

end Device

namespace Sinks

variable {E : Env} {A : Effect → Prop}

theorem trans {d x y : Device} (h : Sinks E A d x) (k : Sinks E A x y) : Sinks E A d y := by
  induction k with
  | refl => exact h
  | setCapabilityValue n v _ ha ih => exact .setCapabilityValue n v ih ha
  | fireEvent args _ ha ih => exact .fireEvent args ih ha
  | handleAlertState s _ ha ih => exact .handleAlertState s ih ha
  | setSettings k v _ ha ih => exact .setSettings k v ih ha
  | setAvailable _ ha ih => exact .setAvailable ih ha
  | setUnavailable r _ ha ih => exact .setUnavailable r ih ha
  | trigger c _ ha ih => exact .trigger c ih ha

theorem onlyIf {d x : Device} {c : Bool} {f : Device → Device} (h : Sinks E A d x)
    (hf : c = true → ∀ y, Sinks E A y (f y)) : Sinks E A d (x.onlyIf c f) := by
  unfold Device.onlyIf
  split
  · exact h.trans (hf ‹_› x)
  · exact h

theorem capabilities {d x : Device} (h : Sinks E A d x) : x.capabilities = d.capabilities := by
  induction h with
  | refl => rfl
  | setCapabilityValue n v _ _ ih =>
    rw [← ih]
    simp only [Device.setCapabilityValue, Device.record, Device.superSetCapabilityValue,
      Device.getCapabilityValue]
    split <;> (try split) <;> (try split) <;> rfl
  | fireEvent _ _ _ ih => exact ih
  | handleAlertState _ _ _ ih => exact ih
  | setSettings _ _ _ _ ih => exact ih
  | setAvailable _ _ ih => exact ih
  | setUnavailable _ _ _ ih => exact ih
  | trigger _ _ _ ih => exact ih

theorem driver {d x : Device} (h : Sinks E A d x) : x.driver = d.driver := by
  induction h with
  | refl => rfl
  | setCapabilityValue n v _ _ ih =>
    rw [← ih]
    simp only [Device.setCapabilityValue, Device.record, Device.superSetCapabilityValue,
      Device.getCapabilityValue]
    split <;> (try split) <;> (try split) <;> rfl
  | fireEvent _ _ _ ih => exact ih
  | handleAlertState _ _ _ ih => exact ih
  | setSettings _ _ _ _ ih => exact ih
  | setAvailable _ _ ih => exact ih
  | setUnavailable _ _ _ ih => exact ih
  | trigger _ _ _ ih => exact ih

theorem settings_eq {d x : Device} (h : Sinks E A d x) (k : String)
    (hA : ∀ v, ¬ A (.setSettings k v)) : x.settings k = d.settings k := by
  induction h with
  | refl => rfl
  | setCapabilityValue n v _ _ ih => simpa using ih
  | fireEvent _ _ _ ih => exact ih
  | handleAlertState _ _ _ ih => exact ih
  | setSettings k2 v _ ha ih =>
    have hne : k ≠ k2 := fun hk => hA v (hk ▸ ha)
    simpa [Device.setSettings, Device.record, Function.update, hne] using ih
  | setAvailable _ _ ih => exact ih
  | setUnavailable _ _ _ ih => exact ih
  | trigger _ _ _ ih => exact ih

theorem values_eq {d x : Device} (h : Sinks E A d x) (m : String)
    (hA : ∀ v, ¬ A (.setCapabilityValue m v)) : x.capabilityValues m = d.capabilityValues m := by
  induction h with
  | refl => rfl
  | setCapabilityValue n v _ ha ih =>
    have hne : m ≠ n := fun hk => hA v (hk ▸ ha)
    rw [Device.setCapabilityValue_values_of_ne _ _ _ _ hne, ih]
  | fireEvent _ _ _ ih => exact ih
  | handleAlertState _ _ _ ih => exact ih
  | setSettings _ _ _ _ ih => exact ih
  | setAvailable _ _ ih => exact ih
  | setUnavailable _ _ _ ih => exact ih
  | trigger _ _ _ ih => exact ih

theorem available_eq {d x : Device} (h : Sinks E A d x) (h1 : ¬ A .setAvailable)
    (h2 : ∀ r, ¬ A (.setUnavailable r)) : x.available = d.available := by
  induction h with
  | refl => rfl
  | setCapabilityValue n v _ _ ih => simpa using ih
  | fireEvent _ _ _ ih => exact ih
  | handleAlertState _ _ _ ih => exact ih
  | setSettings _ _ _ _ ih => exact ih
  | setAvailable _ ha _ => exact absurd ha h1
  | setUnavailable r _ ha _ => exact absurd ha (h2 r)
  | trigger _ _ _ ih => exact ih

theorem mem_trace {d x : Device} (h : Sinks E A d x) {e : Effect} (he : e ∈ x.trace) :
    e ∈ d.trace ∨ A e ∨ e = .trigger "switched" := by
  induction h with
  | refl => exact .inl he
  | setCapabilityValue n v _ ha ih =>
    rcases Device.mem_trace_setCapabilityValue _ _ _ _ he with h1 | h1 | h1
    · exact .inr (.inl (h1 ▸ ha))
    · exact .inr (.inr h1)
    · exact ih h1
  | fireEvent _ _ ha ih =>
    rcases List.mem_cons.mp he with h1 | h1
    · exact .inr (.inl (h1 ▸ ha))
    · exact ih h1
  | handleAlertState _ _ ha ih =>
    rcases List.mem_cons.mp he with h1 | h1
    · exact .inr (.inl (h1 ▸ ha))
    · exact ih h1
  | setSettings _ _ _ ha ih =>
    rcases List.mem_cons.mp he with h1 | h1
    · exact .inr (.inl (h1 ▸ ha))
    · exact ih h1
  | setAvailable _ ha ih =>
    rcases List.mem_cons.mp he with h1 | h1
    · exact .inr (.inl (h1 ▸ ha))
    · exact ih h1
  | setUnavailable _ _ ha ih =>
    rcases List.mem_cons.mp he with h1 | h1
    · exact .inr (.inl (h1 ▸ ha))
    · exact ih h1
  | trigger _ _ ha ih =>
    rcases List.mem_cons.mp he with h1 | h1
    · exact .inr (.inl (h1 ▸ ha))
    · exact ih h1

theorem countP_trace {d x : Device} (h : Sinks E A d x) (p : Effect → Bool)
    (hp : ∀ e, A e → p e = false) (hs : p (.trigger "switched") = false) :
    x.trace.countP p = d.trace.countP p := by
  induction h with
  | refl => rfl
  | setCapabilityValue n v _ ha ih =>
    rw [Device.countP_trace_setCapabilityValue _ _ _ _ p (hp _ ha) hs, ih]
  | fireEvent _ _ ha ih =>
    simpa [Device.fireEvent, Device.record, List.countP_cons, hp _ ha] using ih
  | handleAlertState _ _ ha ih =>
    simpa [Device.handleAlertState, Device.record, List.countP_cons, hp _ ha] using ih
  | setSettings _ _ _ ha ih =>
    simpa [Device.setSettings, Device.record, List.countP_cons, hp _ ha] using ih
  | setAvailable _ ha ih =>
    simpa [Device.setAvailable, Device.record, List.countP_cons, hp _ ha] using ih
  | setUnavailable _ _ ha ih =>
    simpa [Device.setUnavailable, Device.record, List.countP_cons, hp _ ha] using ih
  | trigger _ _ ha ih =>
    simpa [Device.trigger, Device.record, List.countP_cons, hp _ ha] using ih

theorem mono {B : Effect → Prop} {d x : Device} (h : Sinks E A d x) (hAB : ∀ e, A e → B e) :
    Sinks E B d x := by
  induction h with
  | refl => exact .refl _
  | setCapabilityValue n v _ ha ih => exact .setCapabilityValue n v ih (hAB _ ha)
  | fireEvent args _ ha ih => exact .fireEvent args ih (hAB _ ha)
  | handleAlertState s _ ha ih => exact .handleAlertState s ih (hAB _ ha)
  | setSettings k v _ ha ih => exact .setSettings k v ih (hAB _ ha)
  | setAvailable _ ha ih => exact .setAvailable ih (hAB _ ha)
  | setUnavailable r _ ha ih => exact .setUnavailable r ih (hAB _ ha)
  | trigger c _ ha ih => exact .trigger c ih (hAB _ ha)

end Sinks

theorem deviceSupports_iff (caps l : List String) :
    deviceSupports caps l = true ↔ ∀ c ∈ l, c ∈ caps := by
  simp [deviceSupports]

theorem updateState.events_sinks (E : Env) (caps : List String) (state : JsVal)
    (initial : Bool) (d : Device) :
    Sinks E (updateState.allowed caps state initial) d (updateState.events state initial d) := by
  unfold updateState.events
  refine Sinks.onlyIf (Sinks.onlyIf (Sinks.refl _) ?_) ?_
  all_goals (intro hc y; dsimp only; apply Sinks.fireEvent _ (Sinks.refl _))
  all_goals (simp_all [updateState.allowed])

theorem updateState.attributes_sinks (E : Env) (caps : List String) (state : JsVal)
    (d : Device) :
    Sinks E (updateState.attrAllowed caps state) d (updateState.attributes E caps state d) := by
  unfold updateState.attributes
  dsimp only
  repeat (first
    | exact Sinks.refl _
    | refine Sinks.onlyIf ?_ ?_)
  all_goals (intro hc y; dsimp only)
  all_goals (repeat' (first
    | exact Sinks.refl _
    | apply Sinks.setCapabilityValue
    | apply Sinks.handleAlertState
    | apply Sinks.setAvailable
    | apply Sinks.setUnavailable
    | apply Sinks.trigger
    | (refine Sinks.onlyIf ?_ ?_; rotate_left; intro _ _; dsimp only)
    | split))
  all_goals (simp_all [updateState.attrAllowed, deviceSupports_iff])

/-! ## Counting calls along the statements -/

namespace Device

theorem onlyIf_eq (d : Device) (c : Bool) (f : Device → Device) :
    d.onlyIf c f = if c = true then f d else d := rfl

theorem fired_ite (c : Prop) [Decidable c] (a b : Device) :
    (if c then a else b).fired = if c then a.fired else b.fired := by
  split <;> rfl

theorem triggered_ite (card : String) (c : Prop) [Decidable c] (a b : Device) :
    triggered card (if c then a else b) = if c then triggered card a else triggered card b := by
  split <;> rfl

theorem available_ite (c : Prop) [Decidable c] (a b : Device) :
    (if c then a else b).available = if c then a.available else b.available := by
  split <;> rfl

theorem settings_ite (c : Prop) [Decidable c] (a b : Device) :
    (if c then a else b).settings = if c then a.settings else b.settings := by
  split <;> rfl

theorem fired_setCapabilityValue (E : Env) (d : Device) (n : String) (v : JsVal) :
    (d.setCapabilityValue E n v).fired = d.fired :=
  countP_trace_setCapabilityValue E d n v _ rfl rfl

theorem fired_fireEvent (d : Device) (args : List JsVal) :
    (d.fireEvent args).fired = d.fired + 1 := by
  simp [fired, fireEvent, record, List.countP_cons, Effect.isFireEvent]

theorem fired_handleAlertState (d : Device) (s : JsVal) :
    (d.handleAlertState s).fired = d.fired := by
  simp [fired, handleAlertState, record, List.countP_cons, Effect.isFireEvent]

theorem fired_setAvailable (d : Device) : d.setAvailable.fired = d.fired := by
  simp [fired, setAvailable, record, List.countP_cons, Effect.isFireEvent]

theorem fired_setUnavailable (d : Device) (r : String) : (d.setUnavailable r).fired = d.fired := by
  simp [fired, setUnavailable, record, List.countP_cons, Effect.isFireEvent]

theorem fired_trigger (d : Device) (c : String) : (d.trigger c).fired = d.fired := by
  simp [fired, trigger, record, List.countP_cons, Effect.isFireEvent]

theorem fired_setSettings (d : Device) (k : String) (v : JsVal) :
    (d.setSettings k v).fired = d.fired := by
  simp [fired, setSettings, record, List.countP_cons, Effect.isFireEvent]

theorem triggered_setCapabilityValue (E : Env) (card : String) (h : card ≠ "switched")
    (d : Device) (n : String) (v : JsVal) :
    triggered card (d.setCapabilityValue E n v) = triggered card d :=
  countP_trace_setCapabilityValue E d n v _ rfl (by simpa [Effect.isTrigger] using h.symm)

theorem triggered_fireEvent (card : String) (d : Device) (args : List JsVal) :
    triggered card (d.fireEvent args) = triggered card d := by
  simp [triggered, fireEvent, record, List.countP_cons, Effect.isTrigger]

theorem triggered_handleAlertState (card : String) (d : Device) (s : JsVal) :
    triggered card (d.handleAlertState s) = triggered card d := by
  simp [triggered, handleAlertState, record, List.countP_cons, Effect.isTrigger]

theorem triggered_setAvailable (card : String) (d : Device) :
    triggered card d.setAvailable = triggered card d := by
  simp [triggered, setAvailable, record, List.countP_cons, Effect.isTrigger]

theorem triggered_setUnavailable (card : String) (d : Device) (r : String) :
    triggered card (d.setUnavailable r) = triggered card d := by
  simp [triggered, setUnavailable, record, List.countP_cons, Effect.isTrigger]

theorem triggered_setSettings (card : String) (d : Device) (k : String) (v : JsVal) :
    triggered card (d.setSettings k v) = triggered card d := by
  simp [triggered, setSettings, record, List.countP_cons, Effect.isTrigger]

theorem triggered_trigger (card : String) (d : Device) (c : String) :
    triggered card (d.trigger c) = triggered card d + if c = card then 1 else 0 := by
  simp [triggered, trigger, record, List.countP_cons, Effect.isTrigger]

theorem available_fireEvent (d : Device) (args : List JsVal) :
    (d.fireEvent args).available = d.available := rfl

theorem available_handleAlertState (d : Device) (s : JsVal) :
    (d.handleAlertState s).available = d.available := rfl

theorem available_trigger (d : Device) (c : String) : (d.trigger c).available = d.available := rfl

theorem available_setAvailable (d : Device) : d.setAvailable.available = true := rfl

theorem available_setUnavailable (d : Device) (r : String) :
    (d.setUnavailable r).available = false := rfl

theorem settings_fireEvent (d : Device) (args : List JsVal) :
    (d.fireEvent args).settings = d.settings := rfl

theorem settings_handleAlertState (d : Device) (s : JsVal) :
    (d.handleAlertState s).settings = d.settings := rfl

theorem settings_trigger (d : Device) (c : String) : (d.trigger c).settings = d.settings := rfl

theorem settings_setAvailable (d : Device) : d.setAvailable.settings = d.settings := rfl

theorem settings_setUnavailable (d : Device) (r : String) :
    (d.setUnavailable r).settings = d.settings := rfl

end Device

theorem updateState.events_fired (state : JsVal) (initial : Bool) (d : Device) :
    (updateState.events state initial d).fired =
      d.fired + (if state.hasOwnProperty "buttonevent" && !initial then 1 else 0)
        + (if state.hasOwnProperty "buttonevent" && state.hasOwnProperty "gesture" then 1
          else 0) := by
  unfold updateState.events
  simp only [Device.onlyIf_eq, Device.fired_ite, Device.fired_fireEvent]
  split <;> split <;> simp

theorem updateState.rest_sinks (E : Env) (caps : List String) (state : JsVal) (d : Device) :
    Sinks E (updateState.restAllowed caps state) d (updateState.rest E caps state d) := by
  unfold updateState.rest
  dsimp only
  repeat (first
    | exact Sinks.refl _
    | refine Sinks.onlyIf ?_ ?_)
  all_goals (intro hc y; dsimp only)
  all_goals (repeat' (first
    | exact Sinks.refl _
    | apply Sinks.setCapabilityValue
    | apply Sinks.setSettings
    | (refine Sinks.onlyIf ?_ ?_; rotate_left; intro _ _; dsimp only)
    | split))
  all_goals (simp_all [updateState.restAllowed, deviceSupports_iff])

theorem JsVal.toFixed2_div_ne_error (E : Env) (v : JsVal) (c : ℚ) (e : JsError) :
    (JsVal.div E v c).toFixed2 ≠ .error e := by
  unfold JsVal.div
  cases JsVal.toNumber E v <;> simp [JsVal.ofNumber, JsVal.toFixed2]

theorem updateState.colourOk_after {E : Env} {caps : List String} {d x : Device}
    {r : Except Outcome Device} (h : Sinks E (updateState.gated caps) d x)
    (hr : updateState.ColourOk E caps x r) : updateState.ColourOk E caps d r := by
  cases r with
  | ok y => exact h.trans hr
  | error o => exact ⟨h.trans hr.1, hr.2⟩

theorem updateState.colourOk_bind {E : Env} {caps : List String} {d : Device}
    {r : Except Outcome Device} {f : Device → Except Outcome Device}
    (hr : updateState.ColourOk E caps d r) (hf : ∀ x, updateState.ColourOk E caps x (f x)) :
    updateState.ColourOk E caps d (r >>= f) := by
  cases r with
  | ok y => exact updateState.colourOk_after hr (hf y)
  | error o => exact hr

theorem updateState.colour_ok (E : Env) (caps : List String) (state : JsVal) (d : Device) :
    updateState.ColourOk E caps d (updateState.colour E caps state d) := by
  unfold updateState.colour
  dsimp only
  refine colourOk_bind (colourOk_bind (colourOk_bind ?_ ?_) ?_) ?_
  all_goals (try intro x)
  all_goals (repeat' split)
  all_goals (simp only [ColourOk])
  all_goals (try refine ⟨?_, ?_⟩)
  all_goals (repeat' (first
    | exact Sinks.refl _
    | apply Sinks.setCapabilityValue))
  all_goals (simp_all [updateState.gated, deviceSupports_iff, JsVal.toFixed2_div_ne_error])

theorem updateState.gated_allowed (caps : List String) (state : JsVal) (initial : Bool)
    (e : Effect) (h : updateState.gated caps e) : updateState.allowed caps state initial e := by
  cases e <;> simp_all [updateState.gated, updateState.allowed]

theorem updateState.attrAllowed_allowed (caps : List String) (state : JsVal) (initial : Bool)
    (e : Effect) (h : updateState.attrAllowed caps state e) :
    updateState.allowed caps state initial e := by
  cases e <;> simp_all [updateState.attrAllowed, updateState.allowed]

theorem updateState.restAllowed_allowed (caps : List String) (state : JsVal) (initial : Bool)
    (e : Effect) (h : updateState.restAllowed caps state e) :
    updateState.allowed caps state initial e := by
  cases e <;> simp_all [updateState.restAllowed, updateState.allowed]

/-- The parts of `updateState` on a state that is neither `null` nor `undefined`: either
the colour statements end the function, or the remaining statements run. -/
theorem updateState_parts (E : Env) (d : Device) (state : JsVal) (initial : Bool)
    (hs : state.isNullish = false) :
    (∃ o, updateState.colour E d.capabilities state
        (updateState.attributes E d.capabilities state (updateState.events state initial d))
          = .error o ∧
      updateState E d state initial = o) ∨
    (∃ y, updateState.colour E d.capabilities state
        (updateState.attributes E d.capabilities state (updateState.events state initial d))
          = .ok y ∧
      updateState E d state initial = ⟨updateState.rest E d.capabilities state y, none⟩) := by
  unfold updateState
  simp only [hs, Bool.false_eq_true, if_false, Device.getCapabilities]
  cases hc : updateState.colour E d.capabilities state
      (updateState.attributes E d.capabilities state (updateState.events state initial d)) with
  | ok y => right; exact ⟨y, rfl, rfl⟩
  | error o => left; exact ⟨o, rfl, rfl⟩

/-- The device after the colour statements, whether they end the function or not. -/
theorem updateState_colour_cases (E : Env) (caps : List String) (state : JsVal) (x : Device) :
    (∃ o, updateState.colour E caps state x = .error o ∧
        Sinks E (updateState.gated caps) x o.device ∧
        (o.error ≠ none → "light_hue" ∈ caps ∧ "light_saturation" ∈ caps)) ∨
    (∃ y, updateState.colour E caps state x = .ok y ∧
        Sinks E (updateState.gated caps) x y) := by
  have h := updateState.colour_ok E caps state x
  cases hc : updateState.colour E caps state x with
  | ok y => rw [hc] at h; exact .inr ⟨y, rfl, h⟩
  | error o => rw [hc] at h; exact .inl ⟨o, rfl, h.1, h.2⟩

theorem updateState_sinks_after_events (E : Env) (d : Device) (state : JsVal) (initial : Bool)
    (hs : state.isNullish = false) :
    Sinks E (updateState.allowed d.capabilities state initial) (updateState.events state initial d)
      (updateState E d state initial).device := by
  have h1 := (updateState.attributes_sinks E d.capabilities state
    (updateState.events state initial d)).mono
      (updateState.attrAllowed_allowed _ state initial)
  rcases updateState_parts E d state initial hs with ⟨o, hc, ho⟩ | ⟨y, hc, ho⟩
  · rcases updateState_colour_cases E d.capabilities state
      (updateState.attributes E d.capabilities state (updateState.events state initial d))
      with ⟨o2, hc2, h2, _⟩ | ⟨y2, hc2, _⟩
    · rw [hc] at hc2; cases hc2
      rw [ho]
      exact h1.trans (h2.mono (updateState.gated_allowed _ state initial))
    · rw [hc] at hc2; cases hc2
  · rcases updateState_colour_cases E d.capabilities state
      (updateState.attributes E d.capabilities state (updateState.events state initial d))
      with ⟨o2, hc2, _, _⟩ | ⟨y2, hc2, h2⟩
    · rw [hc] at hc2; cases hc2
    · rw [hc] at hc2; cases hc2
      rw [ho]
      exact (h1.trans (h2.mono (updateState.gated_allowed _ state initial))).trans
        ((updateState.rest_sinks E d.capabilities state y).mono
          (updateState.restAllowed_allowed _ state initial))

theorem updateState_sinks (E : Env) (d : Device) (state : JsVal) (initial : Bool) :
    Sinks E (updateState.allowed d.capabilities state initial) d
      (updateState E d state initial).device := by
  cases hs : state.isNullish with
  | true => simp only [updateState, hs, if_true]; exact Sinks.refl _
  | false =>
    have h0 := updateState.events_sinks E d.capabilities state initial d
    have h1 := (updateState.attributes_sinks E d.capabilities state
      (updateState.events state initial d)).mono
        (updateState.attrAllowed_allowed _ state initial)
    rcases updateState_parts E d state initial hs with ⟨o, hc, ho⟩ | ⟨y, hc, ho⟩
    · rcases updateState_colour_cases E d.capabilities state
        (updateState.attributes E d.capabilities state (updateState.events state initial d))
        with ⟨o2, hc2, h2, _⟩ | ⟨y2, hc2, _⟩
      · rw [hc] at hc2; cases hc2
        rw [ho]
        exact (h0.trans h1).trans (h2.mono (updateState.gated_allowed _ state initial))
      · rw [hc] at hc2; cases hc2
    · rcases updateState_colour_cases E d.capabilities state
        (updateState.attributes E d.capabilities state (updateState.events state initial d))
        with ⟨o2, hc2, _, _⟩ | ⟨y2, hc2, h2⟩
      · rw [hc] at hc2; cases hc2
      · rw [hc] at hc2; cases hc2
        rw [ho]
        exact ((h0.trans h1).trans (h2.mono (updateState.gated_allowed _ state initial))).trans
          ((updateState.rest_sinks E d.capabilities state y).mono
            (updateState.restAllowed_allowed _ state initial))

theorem updateState_error (E : Env) (d : Device) (state : JsVal) (initial : Bool)
    (h : (updateState E d state initial).error ≠ none) :
    state.isNullish = true ∨
      ("light_hue" ∈ d.capabilities ∧ "light_saturation" ∈ d.capabilities) := by
  cases hs : state.isNullish with
  | true => exact .inl rfl
  | false =>
    right
    rcases updateState_parts E d state initial hs with ⟨o, hc, ho⟩ | ⟨y, hc, ho⟩
    · rcases updateState_colour_cases E d.capabilities state
        (updateState.attributes E d.capabilities state (updateState.events state initial d))
        with ⟨o2, hc2, _, h2⟩ | ⟨y2, hc2, _⟩
      · rw [hc] at hc2; cases hc2
        rw [ho] at h
        exact h2 h
      · rw [hc] at hc2; cases hc2
    · rw [ho] at h
      exact absurd rfl h

theorem updateConfig.attributes_calls (E : Env) (caps : List String) (config : JsVal)
    (d : Device) :
    Sinks E (updateConfig.attrAllowed caps) d (updateConfig.attributes E caps config d) := by
  unfold updateConfig.attributes
  repeat (first
    | exact Sinks.refl _
    | refine Sinks.onlyIf ?_ ?_)
  all_goals (intro hc y; dsimp only)
  all_goals (repeat' (first
    | exact Sinks.refl _
    | apply Sinks.setCapabilityValue
    | apply Sinks.setSettings
    | (refine Sinks.onlyIf ?_ ?_; rotate_left; intro _ _; dsimp only)
    | split))
  all_goals (simp_all [updateConfig.attrAllowed])

theorem updateConfig.reachable_sinks (E : Env) (caps : List String) (config : JsVal)
    (d : Device) :
    Sinks E (updateConfig.allowed caps config) d (updateConfig.reachable config d) := by
  unfold updateConfig.reachable
  refine Sinks.onlyIf (Sinks.refl _) ?_
  intro hc y
  dsimp only
  split
  · exact Sinks.setAvailable (Sinks.refl _) (by simpa [updateConfig.allowed] using hc)
  · exact Sinks.setUnavailable _ (Sinks.refl _) (by simpa [updateConfig.allowed] using hc)

theorem updateConfig_sinks (E : Env) (d : Device) (config : JsVal) (initial : Bool) :
    Sinks E (updateConfig.allowed d.capabilities config) d
      (updateConfig E d config initial).device := by
  unfold updateConfig
  split
  · exact Sinks.refl _
  · dsimp only [Device.getCapabilities]
    refine ((updateConfig.attributes_calls E d.capabilities config d).mono ?_).trans
      (updateConfig.reachable_sinks E d.capabilities config _)
    intro e he
    cases e <;> simp_all [updateConfig.attrAllowed, updateConfig.allowed]

theorem updateConfig_error (E : Env) (d : Device) (fields : List (String × JsVal))
    (initial : Bool) : (updateConfig E d (.obj fields) initial).error = none := by
  simp [updateConfig, JsVal.isNullish]

/-! ## Independence of the attributes -/

/-- C2: on a device that declares `alarm_tamper`, `light_mode` and `light_temperature`,
the payload with `colormode` `'ct'`, `ct` 600 and `tampered` true leaves `alarm_tamper`
as it was: the `return` of the `ct` statement ends `updateState` before `tampered` is
looked at. So does the payload with `colormode` `'hs'` and a `hue`, the device lacking
`light_hue`. Without the colour attributes the same `tampered` is applied. -/
theorem ct_return_skips_tampered (E : Env) :
    (updateState E (Device.fresh ["alarm_tamper", "light_mode", "light_temperature"])
        (.obj [("colormode", .str "ct"), ("ct", .num 600),
          ("tampered", .bool true)])).device.capabilityValues "alarm_tamper" = .null ∧
    (updateState E (Device.fresh ["alarm_tamper", "light_mode", "light_temperature"])
        (.obj [("colormode", .str "hs"), ("hue", .num 100),
          ("tampered", .bool true)])).device.capabilityValues "alarm_tamper" = .null ∧
    (updateState E (Device.fresh ["alarm_tamper", "light_mode", "light_temperature"])
        (.obj [("tampered", .bool true)])).device.capabilityValues "alarm_tamper"
      = .bool true := by
  exact ⟨rfl, rfl, rfl⟩

/-! ## Button events -/

theorem updateState_fired (E : Env) (d : Device) (state : JsVal) (initial : Bool) :
    (updateState E d state initial).device.fired =
      d.fired + (if state.hasOwnProperty "buttonevent" && !initial then 1 else 0)
        + (if state.hasOwnProperty "buttonevent" && state.hasOwnProperty "gesture" then 1
          else 0) := by
  cases hs : state.isNullish with
  | true =>
    have h : ∀ k, state.hasOwnProperty k = false := by
      intro k; cases state <;> simp_all [JsVal.isNullish, JsVal.hasOwnProperty]
    simp [updateState, hs, h]
  | false =>
    have ha : ∀ e, updateState.attrAllowed d.capabilities state e →
        Effect.isFireEvent e = false := by
      intro e he; cases e <;> simp_all [updateState.attrAllowed, Effect.isFireEvent]
    have hg : ∀ e, updateState.gated d.capabilities e → Effect.isFireEvent e = false := by
      intro e he; cases e <;> simp_all [updateState.gated, Effect.isFireEvent]
    have hr : ∀ e, updateState.restAllowed d.capabilities state e →
        Effect.isFireEvent e = false := by
      intro e he; cases e <;> simp_all [updateState.restAllowed, Effect.isFireEvent]
    have h1 : (updateState.attributes E d.capabilities state
        (updateState.events state initial d)).fired = (updateState.events state initial d).fired :=
      (updateState.attributes_sinks E d.capabilities state _).countP_trace _ ha rfl
    rw [← updateState.events_fired state initial d, ← h1]
    rcases updateState_colour_cases E d.capabilities state
        (updateState.attributes E d.capabilities state (updateState.events state initial d))
        with ⟨o2, hc2, h2, _⟩ | ⟨y2, hc2, h2⟩
    · rcases updateState_parts E d state initial hs with ⟨o, hc, ho⟩ | ⟨y, hc, ho⟩
      · rw [hc] at hc2; cases hc2
        rw [ho]
        exact h2.countP_trace _ hg rfl
      · rw [hc] at hc2; cases hc2
    · rcases updateState_parts E d state initial hs with ⟨o, hc, ho⟩ | ⟨y, hc, ho⟩
      · rw [hc] at hc2; cases hc2
      · rw [hc] at hc2; cases hc2
        rw [ho]
        exact ((updateState.rest_sinks E d.capabilities state y2).countP_trace _ hr rfl).trans
          (h2.countP_trace _ hg rfl)

/-- C3, as stated, fails: a reconciliation application of a payload that carries both
`buttonevent` and `gesture` calls `fireEvent`. -/
theorem reconciliation_fires_gesture :
    (Device.fresh []).fired = 0 ∧
    (updateState Env.fixed (Device.fresh [])
      (.obj [("buttonevent", .num 1002), ("gesture", .num 1)]) true).device.fired = 1 := by
  constructor
  · rfl
  · rw [updateState_fired]; rfl

/-- C3, amended: a reconciliation application (`initial = true`) calls `fireEvent` once
when the payload carries both `buttonevent` and `gesture`, with the arguments
`(buttonevent, true, gesture, state)`, and not at all otherwise. -/
theorem reconciliation_fires_only_gestures (E : Env) (device : Device)
    (payload : List (String × JsVal)) :
    (updateState E device (.obj payload) true).device.fired =
      device.fired + (if (JsVal.obj payload).hasOwnProperty "buttonevent"
        && (JsVal.obj payload).hasOwnProperty "gesture" then 1 else 0) ∧
    (∀ args, Effect.fireEvent args ∈ (updateState E device (.obj payload) true).device.trace →
      Effect.fireEvent args ∈ device.trace ∨
        args = [(JsVal.obj payload).get "buttonevent", .bool true,
          (JsVal.obj payload).get "gesture", .obj payload]) := by
  constructor
  · rw [updateState_fired]; simp
  · intro args h
    rcases (updateState_sinks E device (.obj payload) true).mem_trace h with h1 | h1 | h1
    · exact .inl h1
    · right
      simp only [updateState.allowed] at h1
      rcases h1 with ⟨_, ⟨h2, _⟩ | ⟨_, h2⟩⟩
      · cases h2
      · exact h2
    · cases h1

/-! ## The poll and the stream -/

theorem Device.mem_trace_setCapabilityValue_of_mem (E : Env) (d : Device) (n : String)
    (v : JsVal) {e : Effect} (h : e ∈ d.trace) : e ∈ (d.setCapabilityValue E n v).trace := by
  simp only [setCapabilityValue, record, superSetCapabilityValue, getCapabilityValue]
  split <;> (try split) <;> (try split) <;> simp [h]

theorem Sinks.subset {E : Env} {A : Effect → Prop} {d x : Device} (h : Sinks E A d x)
    {e : Effect} (he : e ∈ d.trace) : e ∈ x.trace := by
  induction h with
  | refl => exact he
  | setCapabilityValue n v _ _ ih => exact Device.mem_trace_setCapabilityValue_of_mem _ _ _ _ ih
  | fireEvent _ _ _ ih => exact List.mem_cons_of_mem _ ih
  | handleAlertState _ _ _ ih => exact List.mem_cons_of_mem _ ih
  | setSettings _ _ _ _ ih => exact List.mem_cons_of_mem _ ih
  | setAvailable _ _ ih => exact List.mem_cons_of_mem _ ih
  | setUnavailable _ _ _ ih => exact List.mem_cons_of_mem _ ih
  | trigger _ _ _ ih => exact List.mem_cons_of_mem _ ih

theorem Sinks.run {E : Env} {A : Effect → Prop} {d x : Device} {f : Device → Device}
    (h : Sinks E A d x) (hf : ∀ y, Sinks E A y (f y)) : Sinks E A d (x.run f) :=
  h.trans (hf x)

theorem updateDeviceInfo.settings_sinks (E : Env) (data : JsVal) (d : Device) :
    Sinks E updateDeviceInfo.allowed d (updateDeviceInfo.settings E data d) := by
  unfold updateDeviceInfo.settings
  repeat (first
    | exact Sinks.refl _
    | refine Sinks.onlyIf ?_ ?_
    | refine Sinks.run ?_ ?_)
  all_goals (intros; dsimp only)
  all_goals (repeat' (first
    | exact Sinks.refl _
    | refine Sinks.setSettings _ _ ?_ trivial
    | (refine Sinks.onlyIf ?_ ?_; rotate_left; intro _ _; dsimp only)
    | split))

theorem updateDeviceInfo.lastseen_sinks (E : Env) (data : JsVal) (d : Device) :
    Sinks E updateDeviceInfo.allowed d (updateDeviceInfo.lastseen E data d) := by
  unfold updateDeviceInfo.lastseen
  refine Sinks.onlyIf (Sinks.refl _) ?_
  intro _ y
  dsimp only
  refine Sinks.onlyIf (Sinks.refl _) ?_
  intro _ z
  split <;> exact Sinks.setSettings _ _ (Sinks.refl _) trivial

theorem updateDeviceInfo_sinks (E : Env) (d : Device) (data : JsVal) :
    Sinks E updateDeviceInfo.allowed d (updateDeviceInfo E d data).device := by
  unfold updateDeviceInfo
  have h1 := updateDeviceInfo.settings_sinks E data d
  split
  · exact Sinks.refl _
  · dsimp only
    split
    · split
      · exact (Sinks.setSettings _ _ h1 trivial).trans (updateDeviceInfo.lastseen_sinks E data _)
      · exact h1
    · exact h1.trans (updateDeviceInfo.lastseen_sinks E data _)

namespace Device.FiresInitialOnly

theorem rfl_ (d : Device) : d.FiresInitialOnly d := fun _ h => .inl h

theorem followedBy {a b c : Device} (h1 : a.FiresInitialOnly b) (h2 : b.FiresInitialOnly c) :
    a.FiresInitialOnly c := by
  intro args h
  rcases h2 args h with h3 | h3
  · exact h1 args h3
  · exact .inr h3

theorem of_calls {E : Env} {A : Effect → Prop} {d x : Device} (h : Sinks E A d x)
    (hA : ∀ args, A (.fireEvent args) →
      ∃ s : JsVal, s.hasOwnProperty "buttonevent" = true ∧ s.hasOwnProperty "gesture" = true ∧
        args = [s.get "buttonevent", .bool true, s.get "gesture", s]) :
    d.FiresInitialOnly x := by
  intro args ha
  rcases h.mem_trace ha with h1 | h1 | h1
  · exact .inl h1
  · exact .inr (hA args h1)
  · cases h1

end Device.FiresInitialOnly

theorem updateState_firesInitialOnly (E : Env) (d : Device) (state : JsVal) :
    d.FiresInitialOnly (updateState E d state true).device := by
  refine Device.FiresInitialOnly.of_calls (updateState_sinks E d state true) ?_
  intro args h
  simp only [updateState.allowed] at h
  rcases h with ⟨hb, ⟨h2, _⟩ | ⟨hg, h2⟩⟩
  · cases h2
  · exact ⟨state, hb, hg, h2⟩

theorem updateConfig_firesInitialOnly (E : Env) (d : Device) (config : JsVal) (initial : Bool) :
    d.FiresInitialOnly (updateConfig E d config initial).device :=
  Device.FiresInitialOnly.of_calls (updateConfig_sinks E d config initial)
    (fun _ h => absurd h (by simp [updateConfig.allowed]))

theorem updateDeviceInfo_firesInitialOnly (E : Env) (d : Device) (data : JsVal) :
    d.FiresInitialOnly (updateDeviceInfo E d data).device :=
  Device.FiresInitialOnly.of_calls (updateDeviceInfo_sinks E d data)
    (fun _ h => absurd h (by simp [updateDeviceInfo.allowed]))

theorem lookup_replaceDevice (l : List (String × Device)) (id k : String) (d : Device) :
    (replaceDevice l id d).lookup k =
      if k = id then (l.lookup id).map (fun _ => d) else l.lookup k := by
  induction l with
  | nil => simp [replaceDevice]
  | cons e l ih =>
    obtain ⟨a, b⟩ := e
    by_cases h1 : id = a
    · subst h1
      by_cases h2 : k = id
      · subst h2; simp [replaceDevice, List.lookup]
      · have h3 : (k == id) = false := by simpa using h2
        simp [replaceDevice, List.lookup, h2, h3]
    · have h3 : (id == a) = false := by simpa using h1
      by_cases h2 : k = id
      · subst h2
        simp [replaceDevice, List.lookup, h3, ih]
      · simp only [replaceDevice, h3, List.lookup, ih, if_neg h2, Bool.false_eq_true, if_false]

theorem getDevice_afterTranslation (app : App) (type id : String) (o : Outcome)
    (kind k : String) :
    getDevice (app.afterTranslation type id o).app kind k =
      if kind = type ∧ k = id then (getDevice app type id).map (fun _ => o.device)
      else getDevice app kind k := by
  simp only [App.afterTranslation, getDevice, Registry.setDevice, Registry.ofType]
  by_cases h1 : type = "lights"
  · subst h1
    by_cases h2 : kind = "lights"
    · subst h2; simp [lookup_replaceDevice]
    · by_cases h3 : kind = "sensors"
      · subst h3; simp
      · by_cases h4 : kind = "groups"
        · subst h4; simp
        · simp [h2, h3, h4]
  · by_cases h5 : type = "sensors"
    · subst h5
      by_cases h2 : kind = "lights"
      · subst h2; simp
      · by_cases h3 : kind = "sensors"
        · subst h3; simp [lookup_replaceDevice]
        · by_cases h4 : kind = "groups"
          · subst h4; simp
          · simp [h2, h3, h4]
    · by_cases h6 : type = "groups"
      · subst h6
        by_cases h2 : kind = "lights"
        · subst h2; simp
        · by_cases h3 : kind = "sensors"
          · subst h3; simp
          · by_cases h4 : kind = "groups"
            · subst h4; simp [lookup_replaceDevice]
            · simp [h2, h3, h4]
      · simp only [h1, h5, h6, beq_iff_eq, if_false]
        by_cases h7 : kind = type
        · subst h7; simp [h1, h5, h6]
        · simp [h7]

namespace App.PollQuiet

theorem unchanged (app : App) : App.PollQuiet app app :=
  fun _ _ _ d2 h => ⟨d2, h, Device.FiresInitialOnly.rfl_ d2⟩

theorem andThen {a b c : App} (h1 : App.PollQuiet a b) (h2 : App.PollQuiet b c) :
    App.PollQuiet a c := by
  intro kind hk id d2 h
  obtain ⟨d1, hd1, hf1⟩ := h2 kind hk id d2 h
  obtain ⟨d0, hd0, hf0⟩ := h1 kind hk id d1 hd1
  exact ⟨d0, hd0, hf0.followedBy hf1⟩

theorem of_devices {a b : App} (h : b.devices = a.devices) : App.PollQuiet a b := by
  intro kind _ id d2 hd
  refine ⟨d2, ?_, Device.FiresInitialOnly.rfl_ d2⟩
  simpa [getDevice, h] using hd

theorem afterTranslation (app : App) (type id : String) (d : Device) (o : Outcome)
    (hd : getDevice app type id = some d)
    (ho : type = "sensors" ∨ type = "groups" → d.FiresInitialOnly o.device) :
    App.PollQuiet app (app.afterTranslation type id o).app := by
  intro kind hk k d2 h
  rw [getDevice_afterTranslation] at h
  split at h
  · rename_i hc
    obtain ⟨rfl, rfl⟩ := hc
    rw [hd] at h
    simp only [Option.map_some', Option.some.injEq] at h
    subst h
    exact ⟨d, hd, ho hk⟩
  · exact ⟨d2, h, Device.FiresInitialOnly.rfl_ d2⟩

end App.PollQuiet

theorem setInitialStates.light_quiet (E : Env) (app : App) (entry : String × JsVal) :
    App.PollQuiet app (setInitialStates.light E app entry).app := by
  unfold setInitialStates.light
  dsimp only
  split
  · exact App.PollQuiet.unchanged app
  · rename_i device hd
    split
    · exact App.PollQuiet.unchanged app
    · split <;>
        exact App.PollQuiet.afterTranslation app _ _ device _ hd (fun h => by simp at h)

theorem setInitialStates.sensor_quiet (E : Env) (app : App) (entry : String × JsVal) :
    App.PollQuiet app (setInitialStates.sensor E app entry).app := by
  unfold setInitialStates.sensor
  dsimp only
  split
  · exact App.PollQuiet.unchanged app
  · rename_i device hd
    have h1 : device.FiresInitialOnly
        (if (entry.2.get "state").truthy = true then
          updateState E device (entry.2.get "state") true
        else ⟨device, none⟩).device := by
      split
      · exact updateState_firesInitialOnly E device _
      · exact Device.FiresInitialOnly.rfl_ device
    generalize (if (entry.2.get "state").truthy = true then
          updateState E device (entry.2.get "state") true
        else (⟨device, none⟩ : Outcome)) = o1 at h1
    have h2 : device.FiresInitialOnly
        (if (entry.2.get "config").truthy = true then
          updateConfig E o1.device (entry.2.get "config") true
        else o1).device := by
      split
      · exact h1.followedBy (updateConfig_firesInitialOnly E _ _ _)
      · exact h1
    generalize (if (entry.2.get "config").truthy = true then
          updateConfig E o1.device (entry.2.get "config") true
        else o1) = o2 at h2
    split
    · exact App.PollQuiet.unchanged app
    · split
      · exact App.PollQuiet.afterTranslation app _ _ device _ hd (fun _ => h1)
      · split
        · exact App.PollQuiet.afterTranslation app _ _ device _ hd (fun _ => h2)
        · exact App.PollQuiet.afterTranslation app _ _ device _ hd
            (fun _ => h2.followedBy (updateDeviceInfo_firesInitialOnly E _ _))

theorem setInitialStates.group_quiet (E : Env) (app : App) (entry : String × JsVal) :
    App.PollQuiet app (setInitialStates.group E app entry).app := by
  unfold setInitialStates.group
  dsimp only
  split
  · exact App.PollQuiet.unchanged app
  · rename_i device hd
    have h1 := updateState_firesInitialOnly E device (entry.2.get "action")
    split
    · exact App.PollQuiet.unchanged app
    · split
      · split
        · exact App.PollQuiet.afterTranslation app _ _ device _ hd (fun _ => h1)
        · refine App.PollQuiet.afterTranslation app _ _ device _ hd (fun _ => ?_)
          intro args ha
          rcases List.mem_cons.mp ha with h2 | h2
          · cases h2
          · exact h1 args h2
      · exact App.PollQuiet.unchanged app

theorem forEachEntry_quiet (f : App → String × JsVal → AppOutcome)
    (hf : ∀ app entry, App.PollQuiet app (f app entry).app) (app : App)
    (entries : List (String × JsVal)) : App.PollQuiet app (forEachEntry f app entries).app := by
  induction entries generalizing app with
  | nil => exact App.PollQuiet.unchanged app
  | cons e es ih =>
    unfold forEachEntry
    have h1 := hf app e
    split
    · rename_i next heq
      rw [heq] at h1
      exact h1.andThen (ih next)
    · rename_i next err heq
      rw [heq] at h1
      exact h1

theorem getResourceList_quiet (E : Env) (reply : HttpReply)
    (callback : App → JsVal → JsVal → AppOutcome)
    (hc : ∀ app error listing, App.PollQuiet app (callback app error listing).app) (app : App) :
    App.PollQuiet app (getResourceList E reply callback app) := by
  unfold getResourceList
  have h1 : App.PollQuiet app
      (if reply.error.truthy = true then callback app reply.error .null
        else
          match E.parse reply.response with
          | none => (⟨app, some .syntaxError⟩ : AppOutcome)
          | some listing => callback app reply.error listing).app := by
    split
    · exact hc _ _ _
    · split
      · exact App.PollQuiet.unchanged app
      · exact hc _ _ _
  generalize (if reply.error.truthy = true then callback app reply.error .null
        else
          match E.parse reply.response with
          | none => (⟨app, some .syntaxError⟩ : AppOutcome)
          | some listing => callback app reply.error listing) = first at h1
  dsimp only
  split
  · exact h1
  · exact h1.andThen (hc _ _ _)

theorem setInitialStates_quiet (E : Env) (app : App) (lights sensors groups : HttpReply) :
    App.PollQuiet app (setInitialStates E app lights sensors groups) := by
  unfold setInitialStates
  split
  · exact App.PollQuiet.unchanged app
  · refine ((getResourceList_quiet E lights _ ?_ app).andThen
      (getResourceList_quiet E sensors _ ?_ _)).andThen (getResourceList_quiet E groups _ ?_ _)
    · intro a error listing
      unfold setInitialStates.lights
      split
      · split
        · exact App.PollQuiet.of_devices rfl
        · exact App.PollQuiet.unchanged a
      · split
        · exact App.PollQuiet.unchanged a
        · exact forEachEntry_quiet _ (setInitialStates.light_quiet E) a _
    · intro a error listing
      unfold setInitialStates.sensors
      split
      · exact App.PollQuiet.unchanged a
      · split
        · exact App.PollQuiet.unchanged a
        · exact forEachEntry_quiet _ (setInitialStates.sensor_quiet E) a _
    · intro a error listing
      unfold setInitialStates.groups
      split
      · exact App.PollQuiet.unchanged a
      · split
        · exact App.PollQuiet.unchanged a
        · exact forEachEntry_quiet _ (setInitialStates.group_quiet E) a _

theorem updateState_button_event (E : Env) (d : Device) (payload : List (String × JsVal))
    (hb : (JsVal.obj payload).hasOwnProperty "buttonevent" = true) :
    Effect.fireEvent [(JsVal.obj payload).get "buttonevent", .obj payload]
      ∈ (updateState E d (.obj payload) false).device.trace := by
  refine (updateState_sinks_after_events E d (.obj payload) false rfl).subset ?_
  simp [updateState.events, Device.onlyIf, hb, Device.fireEvent, Device.record]
  split <;> simp

/-- C4, as stated, fails: the poll of a sensor whose state carries `buttonevent` and
`gesture` calls `fireEvent` on the device. -/
theorem poll_fires_gesture :
    (getDevice App.oneSensor "sensors" "7").map Device.fired = some 0 ∧
    (getDevice
      (setInitialStates Env.sample App.oneSensor HttpReply.failed ⟨.null, gestureListingText⟩
        HttpReply.failed)
      "sensors" "7").map Device.fired = some 1 := by
  exact ⟨rfl, rfl⟩

/-- The poll of a light whose state carries `buttonevent` calls `fireEvent` with the
button event alone: line 597 leaves out the argument `initial` that lines 615 and 636
pass. -/
theorem poll_light_fires_button_event :
    (getDevice
      (setInitialStates Env.sample App.oneLight ⟨.null, lightListingText⟩ HttpReply.failed
        HttpReply.failed)
      "lights" "3").map Device.trace
      = some [Effect.fireEvent [.num 1002, buttonState]] := by
  rfl

/-- C4, amended: whatever the three replies of a poll are, every sensor and every group
registered after `setInitialStates` was registered before and the poll has made no call
of `fireEvent` on it other than calls with the flag `initial = true` (line 682, for a
state that carries a gesture); and `handleMessage` on a stream message whose state
carries `buttonevent` calls `fireEvent(buttonevent, state)` on the registered device. -/
theorem poll_is_quiet_stream_fires (E : Env) (app : App) (lights sensors groups : HttpReply) :
    App.PollQuiet app (setInitialStates E app lights sensors groups) ∧
    ∀ (message : String) (data : JsVal) (type id : String) (device : Device)
      (payload : List (String × JsVal)),
      E.parse message = some data → data.get "r" = .str type → data.get "id" = .str id →
      data.get "state" = .obj payload → getDevice app type id = some device →
      (JsVal.obj payload).hasOwnProperty "buttonevent" = true →
      ∃ d2, getDevice (handleMessage E app message).app type id = some d2 ∧
        Effect.fireEvent [(JsVal.obj payload).get "buttonevent", .obj payload] ∈ d2.trace ∧
        d2.fired = device.fired + 1 +
          (if (JsVal.obj payload).hasOwnProperty "gesture" then 1 else 0) := by
  refine ⟨setInitialStates_quiet E app lights sensors groups, ?_⟩
  intro message data type id device payload hp hr hid hst hdev hb
  have hn : data.isNullish = false := by
    cases data <;> simp_all [JsVal.isNullish, JsVal.get]
  refine ⟨(updateState E device (.obj payload)).device, ?_,
    updateState_button_event E device payload hb, ?_⟩
  · simp only [handleMessage, hp, handleMessage.dispatch, hn, hr, hid, hst, JsVal.toKey, hdev,
      JsVal.truthy, if_true, Bool.false_eq_true, if_false]
    rw [getDevice_afterTranslation]
    simp [hdev]
  · rw [updateState_fired]
    simp [hb]

/-- C4 at a concrete input: the poll leaves the sensor 7 with a plain button event alone,
the stream message fires it. -/
theorem poll_is_quiet_stream_fires_example :
    App.PollQuiet App.oneSensor
      (setInitialStates Env.sample App.oneSensor HttpReply.failed ⟨.null, buttonListingText⟩
        HttpReply.failed) ∧
    (getDevice
      (setInitialStates Env.sample App.oneSensor HttpReply.failed ⟨.null, buttonListingText⟩
        HttpReply.failed) "sensors" "7").map Device.fired = some 0 ∧
    ∃ d2, getDevice (handleMessage Env.sample App.oneSensor buttonMessageText).app
        "sensors" "7" = some d2 ∧
      Effect.fireEvent [.num 1002, buttonState] ∈ d2.trace ∧ d2.fired = 0 + 1 + 0 :=
  ⟨(poll_is_quiet_stream_fires Env.sample App.oneSensor HttpReply.failed
      ⟨.null, buttonListingText⟩ HttpReply.failed).1,
    rfl,
    (poll_is_quiet_stream_fires Env.sample App.oneSensor HttpReply.failed
      ⟨.null, buttonListingText⟩ HttpReply.failed).2 buttonMessageText buttonMessage "sensors"
      "7" (Device.fresh []) [("buttonevent", .num 1002)] rfl rfl rfl rfl rfl rfl⟩

/-! ## Reachability -/

theorem updateState.attributes_settings (E : Env) (caps : List String) (state : JsVal)
    (d : Device) (k : String) :
    (updateState.attributes E caps state d).settings k = d.settings k :=
  (updateState.attributes_sinks E caps state d).settings_eq k
    (fun _ h => by simp [updateState.attrAllowed] at h)

theorem updateState.attributes_available (E : Env) (caps : List String) (state : JsVal)
    (d : Device) :
    (updateState.attributes E caps state d).available =
      if state.hasOwnProperty "reachable" then
        ((state.get "reachable").truthy || (d.settings "ignore-reachable").isTrue)
      else d.available := by
  unfold updateState.attributes
  simp only [Device.onlyIf_eq, Device.available_ite, Device.setCapabilityValue_available,
    Device.available_handleAlertState, Device.available_setAvailable,
    Device.available_setUnavailable, Device.available_trigger, Device.settings_ite,
    Device.setCapabilityValue_settings, Device.settings_handleAlertState, Device.getSetting,
    ite_self]
  split <;> simp

theorem updateState.attributes_triggered (E : Env) (caps : List String) (state : JsVal)
    (d : Device) (card : String) (hc : card ≠ "switched") :
    Device.triggered card (updateState.attributes E caps state d) =
      Device.triggered card d +
        (if state.hasOwnProperty "reachable" = true
            ∧ (d.settings "ignore-reachable").isTrue = false then
          (if (state.get "reachable").isTrue = true ∧ d.available = false then
            (if "device_on_reachable" = card then 1 else 0)
          else if (state.get "reachable").isFalse = true ∧ d.available = true then
            (if "device_on_unreachable" = card then 1 else 0)
          else 0)
        else 0) := by
  unfold updateState.attributes
  simp only [Device.onlyIf_eq, Device.triggered_ite, Device.triggered_setCapabilityValue E card hc,
    Device.triggered_handleAlertState, Device.triggered_setAvailable,
    Device.triggered_setUnavailable, Device.triggered_trigger,
    Device.available_ite, Device.setCapabilityValue_available,
    Device.available_handleAlertState, Device.settings_ite,
    Device.setCapabilityValue_settings, Device.settings_handleAlertState, Device.getSetting,
    Device.getAvailable, ite_self]
  by_cases h1 : state.hasOwnProperty "reachable" = true <;>
  by_cases h2 : (d.settings "ignore-reachable").isTrue = true <;>
  by_cases h3 : (state.get "reachable").isTrue = true <;>
  by_cases h4 : (state.get "reachable").isFalse = true <;>
  by_cases h5 : d.available = true <;>
  simp [h1, h2, h3, h4, h5]

theorem updateState.gated_restAllowed (caps : List String) (state : JsVal) (e : Effect)
    (h : updateState.gated caps e) : updateState.restAllowed caps state e := by
  cases e <;> simp_all [updateState.gated, updateState.restAllowed]

theorem updateState_sinks_after_attributes (E : Env) (d : Device) (state : JsVal)
    (initial : Bool) (hs : state.isNullish = false) :
    Sinks E (updateState.restAllowed d.capabilities state)
      (updateState.attributes E d.capabilities state (updateState.events state initial d))
      (updateState E d state initial).device := by
  rcases updateState_parts E d state initial hs with ⟨o, hc, ho⟩ | ⟨y, hc, ho⟩
  · rcases updateState_colour_cases E d.capabilities state
      (updateState.attributes E d.capabilities state (updateState.events state initial d))
      with ⟨o2, hc2, h2, _⟩ | ⟨y2, hc2, _⟩
    · rw [hc] at hc2; cases hc2
      rw [ho]
      exact h2.mono (updateState.gated_restAllowed _ state)
    · rw [hc] at hc2; cases hc2
  · rcases updateState_colour_cases E d.capabilities state
      (updateState.attributes E d.capabilities state (updateState.events state initial d))
      with ⟨o2, hc2, _, _⟩ | ⟨y2, hc2, h2⟩
    · rw [hc] at hc2; cases hc2
    · rw [hc] at hc2; cases hc2
      rw [ho]
      exact (h2.mono (updateState.gated_restAllowed _ state)).trans
        (updateState.rest_sinks E d.capabilities state y)

theorem updateState.events_settings (state : JsVal) (initial : Bool) (d : Device) :
    (updateState.events state initial d).settings = d.settings := by
  unfold updateState.events
  simp only [Device.onlyIf_eq, Device.settings_ite, Device.settings_fireEvent, ite_self]

theorem updateState.events_available (state : JsVal) (initial : Bool) (d : Device) :
    (updateState.events state initial d).available = d.available := by
  unfold updateState.events
  simp only [Device.onlyIf_eq, Device.available_ite, Device.available_fireEvent, ite_self]

theorem updateState.events_triggered (state : JsVal) (initial : Bool) (d : Device)
    (card : String) :
    Device.triggered card (updateState.events state initial d) = Device.triggered card d := by
  unfold updateState.events
  simp only [Device.onlyIf_eq, Device.triggered_ite, Device.triggered_fireEvent, ite_self]

theorem updateState_triggered (E : Env) (d : Device) (state : JsVal) (initial : Bool)
    (hs : state.isNullish = false) (card : String) (hc : card ≠ "switched") :
    Device.triggered card (updateState E d state initial).device =
      Device.triggered card d +
        (if state.hasOwnProperty "reachable" = true
            ∧ (d.settings "ignore-reachable").isTrue = false then
          (if (state.get "reachable").isTrue = true ∧ d.available = false then
            (if "device_on_reachable" = card then 1 else 0)
          else if (state.get "reachable").isFalse = true ∧ d.available = true then
            (if "device_on_unreachable" = card then 1 else 0)
          else 0)
        else 0) := by
  have h1 : Device.triggered card (updateState E d state initial).device =
      Device.triggered card
        (updateState.attributes E d.capabilities state (updateState.events state initial d)) := by
    refine (updateState_sinks_after_attributes E d state initial hs).countP_trace _ ?_ ?_
    · intro e he; cases e <;> simp_all [updateState.restAllowed, Effect.isTrigger]
    · simpa [Effect.isTrigger] using hc.symm
  rw [h1, updateState.attributes_triggered E _ state _ card hc, updateState.events_settings,
    updateState.events_available, updateState.events_triggered]

theorem updateState_available (E : Env) (d : Device) (state : JsVal) (initial : Bool)
    (hs : state.isNullish = false) :
    (updateState E d state initial).device.available =
      if state.hasOwnProperty "reachable" then
        ((state.get "reachable").truthy || (d.settings "ignore-reachable").isTrue)
      else d.available := by
  have h1 : (updateState E d state initial).device.available =
      (updateState.attributes E d.capabilities state
        (updateState.events state initial d)).available := by
    refine (updateState_sinks_after_attributes E d state initial hs).available_eq ?_ ?_
    · simp [updateState.restAllowed]
    · simp [updateState.restAllowed]
  rw [h1, updateState.attributes_available, updateState.events_settings,
    updateState.events_available]

theorem updateState_settings_of_ne (E : Env) (d : Device) (state : JsVal) (initial : Bool)
    (k : String) (hk : k ≠ "lastUpdated") :
    (updateState E d state initial).device.settings k = d.settings k :=
  (updateState_sinks E d state initial).settings_eq k
    (fun _ h => hk (by simp only [updateState.allowed] at h; exact h.1))

theorem JsVal.isTrue_bool (b : Bool) : (JsVal.bool b).isTrue = b := by
  cases b <;> rfl

theorem JsVal.isFalse_bool (b : Bool) : (JsVal.bool b).isFalse = !b := by
  cases b <;> rfl

/-- C5: on a device whose setting `ignore-reachable` is not `true`, a payload with a
boolean `reachable` fires the became-reachable card once exactly when `reachable` is true
and the device was unavailable, fires the became-unreachable card once exactly when
`reachable` is false and the device was available, and fires neither card when the same
payload is applied a second time. -/
theorem reachable_edge_triggers (E : Env) (device : Device) (payload : List (String × JsVal))
    (initial : Bool) (b : Bool)
    (hi : (device.getSetting "ignore-reachable").isTrue = false)
    (hr : payload.lookup "reachable" = some (.bool b)) :
    Device.triggered "device_on_reachable" (updateState E device (.obj payload) initial).device
      = Device.triggered "device_on_reachable" device
        + (if b = true ∧ device.getAvailable = false then 1 else 0) ∧
    Device.triggered "device_on_unreachable" (updateState E device (.obj payload) initial).device
      = Device.triggered "device_on_unreachable" device
        + (if b = false ∧ device.getAvailable = true then 1 else 0) ∧
    Device.triggered "device_on_reachable"
        (updateState E (updateState E device (.obj payload) initial).device (.obj payload)
          initial).device
      = Device.triggered "device_on_reachable"
        (updateState E device (.obj payload) initial).device ∧
    Device.triggered "device_on_unreachable"
        (updateState E (updateState E device (.obj payload) initial).device (.obj payload)
          initial).device
      = Device.triggered "device_on_unreachable"
        (updateState E device (.obj payload) initial).device := by
  have hhas : (JsVal.obj payload).hasOwnProperty "reachable" = true := by
    simp [JsVal.hasOwnProperty, hr]
  have hget : (JsVal.obj payload).get "reachable" = .bool b := by
    simp [JsVal.get, hr]
  have hi2 : (device.settings "ignore-reachable").isTrue = false := hi
  have hav : (updateState E device (.obj payload) initial).device.available = b := by
    rw [updateState_available E device (.obj payload) initial rfl]
    simp [hhas, hget, hi2, JsVal.truthy]
  have hset : ((updateState E device (.obj payload) initial).device.settings
      "ignore-reachable").isTrue = false := by
    rw [updateState_settings_of_ne E device _ initial _ (by decide)]; exact hi2
  refine ⟨?_, ?_, ?_, ?_⟩
  · rw [updateState_triggered E device (.obj payload) initial rfl _ (by decide)]
    cases b <;> cases hd : device.available <;>
      simp [hhas, hget, hi2, hd, JsVal.isTrue_bool, JsVal.isFalse_bool, Device.getAvailable]
  · rw [updateState_triggered E device (.obj payload) initial rfl _ (by decide)]
    cases b <;> cases hd : device.available <;>
      simp [hhas, hget, hi2, hd, JsVal.isTrue_bool, JsVal.isFalse_bool, Device.getAvailable]
  · rw [updateState_triggered E _ (.obj payload) initial rfl _ (by decide)]
    cases b <;> simp [hhas, hget, hset, hav, JsVal.isTrue_bool, JsVal.isFalse_bool]
  · rw [updateState_triggered E _ (.obj payload) initial rfl _ (by decide)]
    cases b <;> simp [hhas, hget, hset, hav, JsVal.isTrue_bool, JsVal.isFalse_bool]

/-- C5 at a concrete input: an unavailable device that becomes reachable. -/
theorem reachable_edge_triggers_example :
    Device.triggered "device_on_reachable"
        (updateState Env.fixed (Device.fresh []) (.obj [("reachable", .bool true)]) false).device
      = 0 + 1 ∧
    Device.triggered "device_on_unreachable"
        (updateState Env.fixed (Device.fresh []) (.obj [("reachable", .bool true)]) false).device
      = 0 + 0 ∧
    Device.triggered "device_on_reachable"
        (updateState Env.fixed
          (updateState Env.fixed (Device.fresh []) (.obj [("reachable", .bool true)]) false).device
          (.obj [("reachable", .bool true)]) false).device
      = Device.triggered "device_on_reachable"
        (updateState Env.fixed (Device.fresh []) (.obj [("reachable", .bool true)]) false).device ∧
    Device.triggered "device_on_unreachable"
        (updateState Env.fixed
          (updateState Env.fixed (Device.fresh []) (.obj [("reachable", .bool true)]) false).device
          (.obj [("reachable", .bool true)]) false).device
      = Device.triggered "device_on_unreachable"
        (updateState Env.fixed (Device.fresh []) (.obj [("reachable", .bool true)]) false).device :=
  reachable_edge_triggers Env.fixed (Device.fresh []) [("reachable", .bool true)] false true
    rfl rfl

/-! ## Applying a payload twice -/

namespace Device.Same

variable {free : String → Prop}

theorem of_sinks {E : Env} {A : Effect → Prop} {x y : Device} (h : Sinks E A x y)
    (hA : ∀ e, A e → Effect.quiet free e) : Device.Same free x y := by
  refine ⟨h.driver, h.capabilities, ?_, ?_⟩
  · funext n
    exact h.values_eq n (fun v hv => by simpa [Effect.quiet] using hA _ hv)
  · intro k hk
    exact h.settings_eq k (fun v hv => hk (by simpa [Effect.quiet] using hA _ hv))

end Device.Same

namespace Twin

variable {free : String → Prop} {d0 e0 x y : Device}

theorem start (h1 : d0.driver = e0.driver) (h2 : d0.capabilities = e0.capabilities)
    (h3 : ∀ k, ¬ free k → d0.settings k = e0.settings k) : Twin free d0 e0 d0 e0 :=
  ⟨h1, h2, h3, fun _ => .inr ⟨rfl, rfl⟩⟩

theorem of_same {x2 y2 : Device} (h : Twin free d0 e0 x y) (hx : Device.Same free x x2)
    (hy : Device.Same free y y2) : Twin free d0 e0 x2 y2 := by
  obtain ⟨h1, h2, h3, h4⟩ := h
  obtain ⟨a1, a2, a3, a4⟩ := hx
  obtain ⟨b1, b2, b3, b4⟩ := hy
  refine ⟨by rw [a1, b1, h1], by rw [a2, b2, h2], ?_, ?_⟩
  · intro k hk; rw [a4 k hk, b4 k hk, h3 k hk]
  · intro n; rw [a3, b3]; exact h4 n

theorem setCapabilityValue (E : Env) (n : String) (v : JsVal) (h : Twin free d0 e0 x y) :
    Twin free d0 e0 (x.setCapabilityValue E n v) (y.setCapabilityValue E n v) := by
  obtain ⟨h1, h2, h3, h4⟩ := h
  refine ⟨by simpa using h1, by simpa using h2, by simpa using h3, ?_⟩
  intro m
  by_cases hm : m = n
  · subst hm
    simp only [Device.setCapabilityValue, Device.record, Device.superSetCapabilityValue,
      Device.getCapabilityValue, ← h1]
    split <;> (try split) <;> (try split) <;>
      simp_all [Function.update]
  · rw [Device.setCapabilityValue_values_of_ne _ _ _ _ hm,
      Device.setCapabilityValue_values_of_ne _ _ _ _ hm]
    exact h4 m

theorem onlyIf_both {c : Bool} {f g : Device → Device} (h : Twin free d0 e0 x y)
    (hf : c = true → ∀ a b, Twin free d0 e0 a b → Twin free d0 e0 (f a) (g b)) :
    Twin free d0 e0 (x.onlyIf c f) (y.onlyIf c g) := by
  unfold Device.onlyIf
  split
  · exact hf ‹_› x y h
  · exact h

theorem ite {c : Prop} [Decidable c] {a1 a2 b1 b2 : Device}
    (h1 : c → Twin free d0 e0 a1 b1) (h2 : ¬ c → Twin free d0 e0 a2 b2) :
    Twin free d0 e0 (if c then a1 else a2) (if c then b1 else b2) := by
  split
  · exact h1 ‹_›
  · exact h2 ‹_›

theorem quiet {E : Env} {x2 y2 : Device} (h : Twin free d0 e0 x y)
    (hx : Sinks E (Effect.quiet free) x x2) (hy : Sinks E (Effect.quiet free) y y2) :
    Twin free d0 e0 x2 y2 :=
  h.of_same (Device.Same.of_sinks hx fun _ he => he) (Device.Same.of_sinks hy fun _ he => he)

end Twin

theorem updateState.attributes_twin (E : Env) (caps : List String) (state : JsVal)
    (free : String → Prop) (h1 : ¬ free "invert_alarm") (h2 : ¬ free "temperature_offset")
    (h3 : ¬ free "humidity_offset") (h4 : ¬ free "pressure_offset")
    (h5 : ¬ free "ignore-reachable") (d0 e0 x y : Device) (h : Twin free d0 e0 x y) :
    Twin free d0 e0 (updateState.attributes E caps state x)
      (updateState.attributes E caps state y) := by
  unfold updateState.attributes
  dsimp only
  repeat (first
    | exact h
    | refine Twin.onlyIf_both ?_ ?_)
  all_goals (intro _ a b hab; dsimp only)
  all_goals (try simp only [Device.getSetting, ← hab.2.2.1 "invert_alarm" h1,
    ← hab.2.2.1 "temperature_offset" h2, ← hab.2.2.1 "humidity_offset" h3,
    ← hab.2.2.1 "pressure_offset" h4, ← hab.2.2.1 "ignore-reachable" h5])
  all_goals (first
    | exact Twin.setCapabilityValue E _ _ hab
    | (refine Twin.ite ?_ ?_ <;> intro _ <;> exact Twin.setCapabilityValue E _ _ hab)
    | skip)
  all_goals (refine Twin.quiet (E := E) hab ?_ ?_)
  all_goals (repeat' (first
    | exact Sinks.refl _
    | apply Sinks.handleAlertState
    | apply Sinks.setAvailable
    | apply Sinks.setUnavailable
    | apply Sinks.trigger
    | (refine Sinks.onlyIf ?_ ?_; rotate_left; intro _ _; dsimp only)
    | split))
  all_goals (simp [Effect.quiet])

theorem updateState.events_quiet (E : Env) (free : String → Prop) (state : JsVal)
    (initial : Bool) (d : Device) :
    Sinks E (Effect.quiet free) d (updateState.events state initial d) := by
  unfold updateState.events
  refine Sinks.onlyIf (Sinks.onlyIf (Sinks.refl _) ?_) ?_
  all_goals (intro hc y; dsimp only; apply Sinks.fireEvent _ (Sinks.refl _))
  all_goals (simp [Effect.quiet])

theorem updateState.rest_twin (E : Env) (caps : List String) (state : JsVal)
    (d0 e0 x y : Device) (h : Twin updateState.free d0 e0 x y) :
    Twin updateState.free d0 e0 (updateState.rest E caps state x)
      (updateState.rest E caps state y) := by
  unfold updateState.rest
  dsimp only
  repeat (first
    | exact h
    | refine Twin.onlyIf_both ?_ ?_)
  all_goals (intro _ a b hab; dsimp only)
  all_goals (first
    | exact Twin.setCapabilityValue E _ _ hab
    | skip)
  all_goals (refine Twin.quiet (E := E) hab ?_ ?_)
  all_goals (repeat' (first
    | exact Sinks.refl _
    | apply Sinks.setSettings
    | (refine Sinks.onlyIf ?_ ?_; rotate_left; intro _ _; dsimp only)))
  all_goals (simp [Effect.quiet, updateState.free])

theorem TwinExit.bind {free : String → Prop} {d0 e0 : Device} {r r2 : Except Outcome Device}
    {f : Device → Except Outcome Device} (h : TwinExit free d0 e0 r r2)
    (hf : ∀ a b, Twin free d0 e0 a b → TwinExit free d0 e0 (f a) (f b)) :
    TwinExit free d0 e0 (r >>= f) (r2 >>= f) := by
  cases r with
  | ok a =>
    cases r2 with
    | ok b => exact hf a b h
    | error p => exact absurd h (by simp [TwinExit])
  | error o =>
    cases r2 with
    | ok b => exact absurd h (by simp [TwinExit])
    | error p => exact h

theorem updateState.colour_twin (E : Env) (caps : List String) (state : JsVal)
    (free : String → Prop) (d0 e0 x y : Device) (h : Twin free d0 e0 x y) :
    TwinExit free d0 e0 (updateState.colour E caps state x)
      (updateState.colour E caps state y) := by
  unfold updateState.colour
  dsimp only
  refine TwinExit.bind (TwinExit.bind (TwinExit.bind ?_ ?_) ?_) ?_
  all_goals (try intro x y h)
  all_goals (repeat' split)
  all_goals (simp only [TwinExit])
  all_goals (first
    | exact h
    | exact ⟨h, rfl⟩
    | contradiction
    | exact Twin.setCapabilityValue E _ _ h
    | exact Twin.setCapabilityValue E _ _ (Twin.setCapabilityValue E _ _ h)
    | skip)
  all_goals (simp_all)
  all_goals (exact Twin.setCapabilityValue E _ _ h)

theorem writeIfSet_twice (key : String) (value : JsVal) (present : Bool)
    (settings : String → JsVal) :
    writeIfSet key value present (writeIfSet key value present settings)
      = writeIfSet key value present settings := by
  unfold writeIfSet
  by_cases h1 : (present && !(settings key).isNullish) = true
  · simp only [h1, if_true]
    split
    · exact Function.update_idem _ _ _
    · rfl
  · simp [h1]

theorem Device.settings_setSettings (d : Device) (k : String) (v : JsVal) :
    (d.setSettings k v).settings = Function.update d.settings k v := rfl

theorem updateState.rest_settings (E : Env) (caps : List String) (state : JsVal) (d : Device) :
    (updateState.rest E caps state d).settings =
      writeIfSet "lastUpdated" (state.get "lastupdated") (state.hasOwnProperty "lastupdated")
        d.settings := by
  unfold updateState.rest writeIfSet
  simp only [Device.onlyIf_eq, Device.settings_ite, Device.setCapabilityValue_settings,
    Device.settings_setSettings, Device.getSetting, ite_self]
  by_cases h1 : state.hasOwnProperty "lastupdated" = true <;>
  by_cases h2 : (d.settings "lastUpdated").isNullish = true <;>
  simp [h1, h2]

theorem updateState.before_rest_settings (E : Env) (caps : List String) (state : JsVal)
    (initial : Bool) (d : Device) :
    (updateState.attributes E caps state (updateState.events state initial d)).settings
      = d.settings := by
  funext k
  rw [updateState.attributes_settings, updateState.events_settings]

theorem updateState.gated_settings (E : Env) (caps : List String) {x y : Device}
    (h : Sinks E (updateState.gated caps) x y) : y.settings = x.settings := by
  funext k
  exact h.settings_eq k (fun _ hv => by simp [updateState.gated] at hv)

/-- Two runs of `updateState` on devices of the same class with the same capabilities and
the same settings outside `lastUpdated`: they end the same way, and either neither reaches
line 881 or both do. -/
theorem updateState_twin (E : Env) (d0 e0 : Device) (state : JsVal) (initial : Bool)
    (hs : state.isNullish = false) (h : Twin updateState.free d0 e0 d0 e0) :
    Twin updateState.free d0 e0 (updateState E d0 state initial).device
        (updateState E e0 state initial).device ∧
      (updateState E d0 state initial).error = (updateState E e0 state initial).error ∧
      (((updateState E d0 state initial).device.settings = d0.settings ∧
          (updateState E e0 state initial).device.settings = e0.settings) ∨
        ((updateState E d0 state initial).device.settings =
            writeIfSet "lastUpdated" (state.get "lastupdated")
              (state.hasOwnProperty "lastupdated") d0.settings ∧
          (updateState E e0 state initial).device.settings =
            writeIfSet "lastUpdated" (state.get "lastupdated")
              (state.hasOwnProperty "lastupdated") e0.settings)) := by
  have hcaps : e0.capabilities = d0.capabilities := h.2.1.symm
  have hx := Twin.quiet h (updateState.events_quiet E updateState.free state initial d0)
    (updateState.events_quiet E updateState.free state initial e0)
  have hy := updateState.attributes_twin E d0.capabilities state updateState.free
    (by simp [updateState.free]) (by simp [updateState.free]) (by simp [updateState.free])
    (by simp [updateState.free]) (by simp [updateState.free]) d0 e0 _ _ hx
  have hz := updateState.colour_twin E d0.capabilities state updateState.free d0 e0 _ _ hy
  have sd := updateState.before_rest_settings E d0.capabilities state initial d0
  have se := updateState.before_rest_settings E d0.capabilities state initial e0
  rcases updateState_parts E d0 state initial hs with ⟨o, hc, ho⟩ | ⟨a, hc, ho⟩ <;>
  rcases updateState_parts E e0 state initial hs with ⟨p, hc2, hp⟩ | ⟨b, hc2, hp⟩ <;>
  simp only [hcaps] at hc2 hp <;> rw [hc, hc2] at hz <;> simp only [TwinExit] at hz
  · rw [ho, hp]
    refine ⟨hz.1, hz.2, .inl ⟨?_, ?_⟩⟩
    · rcases updateState_colour_cases E d0.capabilities state
        (updateState.attributes E d0.capabilities state (updateState.events state initial d0))
        with ⟨o2, h2, h3, _⟩ | ⟨y2, h2, _⟩
      · rw [hc] at h2; cases h2
        rw [updateState.gated_settings E _ h3, sd]
      · rw [hc] at h2; cases h2
    · rcases updateState_colour_cases E d0.capabilities state
        (updateState.attributes E d0.capabilities state (updateState.events state initial e0))
        with ⟨o2, h2, h3, _⟩ | ⟨y2, h2, _⟩
      · rw [hc2] at h2; cases h2
        rw [updateState.gated_settings E _ h3, se]
      · rw [hc2] at h2; cases h2
  · rw [ho, hp]
    refine ⟨updateState.rest_twin E d0.capabilities state d0 e0 a b hz, rfl, .inr ⟨?_, ?_⟩⟩
    · rcases updateState_colour_cases E d0.capabilities state
        (updateState.attributes E d0.capabilities state (updateState.events state initial d0))
        with ⟨o2, h2, _, _⟩ | ⟨y2, h2, h3⟩
      · rw [hc] at h2; cases h2
      · rw [hc] at h2; cases h2
        simp only [updateState.rest_settings, updateState.gated_settings E _ h3, sd]
    · rcases updateState_colour_cases E d0.capabilities state
        (updateState.attributes E d0.capabilities state (updateState.events state initial e0))
        with ⟨o2, h2, _, _⟩ | ⟨y2, h2, h3⟩
      · rw [hc2] at h2; cases h2
      · rw [hc2] at h2; cases h2
        simp only [updateState.rest_settings, updateState.gated_settings E _ h3, se]

theorem updateState_twice (E : Env) (d : Device) (state : JsVal) (initial : Bool)
    (hs : state.isNullish = false) :
    (updateState E (updateState E d state initial).device state initial).device.capabilityValues
        = (updateState E d state initial).device.capabilityValues ∧
      (updateState E (updateState E d state initial).device state initial).device.settings
        = (updateState E d state initial).device.settings ∧
      (updateState E (updateState E d state initial).device state initial).device.available
        = (updateState E d state initial).device.available := by
  have hsk := updateState_sinks E d state initial
  have h0 : Twin updateState.free d (updateState E d state initial).device d
      (updateState E d state initial).device :=
    Twin.start hsk.driver.symm hsk.capabilities.symm
      (fun k hk => (updateState_settings_of_ne E d state initial k hk).symm)
  obtain ⟨h1, _, h3⟩ := updateState_twin E d _ state initial hs h0
  refine ⟨?_, ?_, ?_⟩
  · funext n
    rcases h1.2.2.2 n with h4 | ⟨_, h4⟩
    · exact h4.symm
    · exact h4
  · rcases h3 with ⟨h4, h5⟩ | ⟨h4, h5⟩
    · exact h5
    · rw [h5, h4, writeIfSet_twice]
  · rw [updateState_available E _ state initial hs, updateState_available E d state initial hs,
      updateState_settings_of_ne E d state initial _ (by decide)]
    split <;> simp_all

theorem writeIfSet_comm (k1 k2 : String) (hk : k1 ≠ k2) (v1 v2 : JsVal) (p1 p2 : Bool)
    (s : String → JsVal) :
    writeIfSet k1 v1 p1 (writeIfSet k2 v2 p2 s) = writeIfSet k2 v2 p2 (writeIfSet k1 v1 p1 s) := by
  unfold writeIfSet
  by_cases h1 : (p1 && !(s k1).isNullish) = true <;>
  by_cases h2 : (p2 && !(s k2).isNullish) = true <;>
  simp [h1, h2, Function.update_noteq hk, Function.update_noteq hk.symm,
    Function.update_comm hk]

theorem updateConfig.attributes_settings_eq (E : Env) (caps : List String) (config : JsVal)
    (d : Device) :
    (updateConfig.attributes E caps config d).settings =
      writeIfSet "pending" (E.stringify (config.get "pending")) (config.hasOwnProperty "pending")
        (writeIfSet "ledindication" (config.get "ledindication")
          (config.hasOwnProperty "ledindication")
          (writeIfSet "sensitivity" (config.get "sensitivity")
            (config.hasOwnProperty "sensitivity") d.settings)) := by
  unfold updateConfig.attributes writeIfSet
  simp only [Device.onlyIf_eq, Device.settings_ite, Device.setCapabilityValue_settings,
    Device.settings_setSettings, Device.getSetting, ite_self]
  simp only [Bool.and_eq_true, Bool.not_eq_true']
  by_cases h1 : config.hasOwnProperty "pending" = true <;>
  by_cases h2 : config.hasOwnProperty "ledindication" = true <;>
  by_cases h3 : config.hasOwnProperty "sensitivity" = true <;>
  simp [h1, h2, h3]

theorem updateConfig.reachable_settings (config : JsVal) (d : Device) :
    (updateConfig.reachable config d).settings = d.settings := by
  unfold updateConfig.reachable
  simp only [Device.onlyIf_eq, Device.settings_ite, Device.settings_setAvailable,
    Device.settings_setUnavailable, ite_self]

theorem updateConfig_settings (E : Env) (d : Device) (fields : List (String × JsVal))
    (initial : Bool) :
    (updateConfig E d (.obj fields) initial).device.settings =
      writeIfSet "pending" (E.stringify ((JsVal.obj fields).get "pending"))
        ((JsVal.obj fields).hasOwnProperty "pending")
        (writeIfSet "ledindication" ((JsVal.obj fields).get "ledindication")
          ((JsVal.obj fields).hasOwnProperty "ledindication")
          (writeIfSet "sensitivity" ((JsVal.obj fields).get "sensitivity")
            ((JsVal.obj fields).hasOwnProperty "sensitivity") d.settings)) := by
  simp only [updateConfig, JsVal.isNullish, Bool.false_eq_true, if_false,
    updateConfig.reachable_settings, updateConfig.attributes_settings_eq]

theorem updateConfig_available (E : Env) (d : Device) (fields : List (String × JsVal))
    (initial : Bool) :
    (updateConfig E d (.obj fields) initial).device.available =
      if (JsVal.obj fields).hasOwnProperty "reachable" then
        (((JsVal.obj fields).get "reachable").truthy || (d.settings "ignore-reachable").isTrue)
      else d.available := by
  have hs := updateConfig.attributes_calls E d.capabilities (.obj fields) d
  have h1 : (updateConfig.attributes E d.capabilities (.obj fields) d).available = d.available :=
    hs.available_eq (by simp [updateConfig.attrAllowed]) (by simp [updateConfig.attrAllowed])
  have h2 : (updateConfig.attributes E d.capabilities (.obj fields) d).settings
      "ignore-reachable" = d.settings "ignore-reachable" :=
    hs.settings_eq _ (fun _ h => by simp [updateConfig.attrAllowed] at h)
  simp only [updateConfig, JsVal.isNullish, Bool.false_eq_true, if_false,
    Device.getCapabilities, updateConfig.reachable, Device.onlyIf_eq, Device.getSetting, h2]
  by_cases h3 : (JsVal.obj fields).hasOwnProperty "reachable" = true
  · simp only [h3, if_true]
    split <;> simp_all [Device.setAvailable, Device.setUnavailable, Device.record]
  · simp only [h3, if_false, Bool.false_eq_true]
    exact h1

theorem writeIfSet_three_twice (k1 k2 k3 : String) (h12 : k1 ≠ k2) (h13 : k1 ≠ k3)
    (h23 : k2 ≠ k3) (v1 v2 v3 : JsVal) (p1 p2 p3 : Bool) (s : String → JsVal) :
    writeIfSet k3 v3 p3 (writeIfSet k2 v2 p2 (writeIfSet k1 v1 p1
        (writeIfSet k3 v3 p3 (writeIfSet k2 v2 p2 (writeIfSet k1 v1 p1 s)))))
      = writeIfSet k3 v3 p3 (writeIfSet k2 v2 p2 (writeIfSet k1 v1 p1 s)) := by
  rw [writeIfSet_comm k1 k3 h13 v1 v3 p1 p3 (writeIfSet k2 v2 p2 (writeIfSet k1 v1 p1 s)),
    writeIfSet_comm k1 k2 h12 v1 v2 p1 p2 (writeIfSet k1 v1 p1 s),
    writeIfSet_twice k1 v1 p1 s,
    writeIfSet_comm k2 k3 h23 v2 v3 p2 p3 (writeIfSet k2 v2 p2 (writeIfSet k1 v1 p1 s)),
    writeIfSet_twice k2 v2 p2, writeIfSet_twice k3 v3 p3]

theorem updateConfig.attributes_side_by_side (E : Env) (caps : List String) (config : JsVal)
    (d0 e0 x y : Device) (h : Twin updateConfig.free d0 e0 x y) :
    Twin updateConfig.free d0 e0 (updateConfig.attributes E caps config x)
      (updateConfig.attributes E caps config y) := by
  unfold updateConfig.attributes
  repeat (first
    | exact h
    | refine Twin.onlyIf_both ?_ ?_)
  all_goals (intro _ a b hab; dsimp only)
  all_goals (first
    | exact Twin.setCapabilityValue E _ _ hab
    | skip)
  all_goals (refine Twin.quiet (E := E) hab ?_ ?_)
  all_goals (repeat' (first
    | exact Sinks.refl _
    | apply Sinks.setSettings
    | (refine Sinks.onlyIf ?_ ?_; rotate_left; intro _ _; dsimp only)))
  all_goals (simp [Effect.quiet, updateConfig.free])

theorem updateConfig.reachable_quiet (E : Env) (free : String → Prop) (config : JsVal)
    (d : Device) : Sinks E (Effect.quiet free) d (updateConfig.reachable config d) := by
  unfold updateConfig.reachable
  refine Sinks.onlyIf (Sinks.refl _) ?_
  intro hc y
  dsimp only
  split
  · exact Sinks.setAvailable (Sinks.refl _) (by simp [Effect.quiet])
  · exact Sinks.setUnavailable _ (Sinks.refl _) (by simp [Effect.quiet])

theorem updateConfig_twice (E : Env) (d : Device) (fields : List (String × JsVal))
    (initial : Bool) :
    (updateConfig E (updateConfig E d (.obj fields) initial).device (.obj fields)
        initial).device.capabilityValues
        = (updateConfig E d (.obj fields) initial).device.capabilityValues ∧
      (updateConfig E (updateConfig E d (.obj fields) initial).device (.obj fields)
        initial).device.settings
        = (updateConfig E d (.obj fields) initial).device.settings ∧
      (updateConfig E (updateConfig E d (.obj fields) initial).device (.obj fields)
        initial).device.available
        = (updateConfig E d (.obj fields) initial).device.available := by
  have hsk := updateConfig_sinks E d (.obj fields) initial
  refine ⟨?_, ?_, ?_⟩
  · have h0 : Twin updateConfig.free d (updateConfig E d (.obj fields) initial).device d
        (updateConfig E d (.obj fields) initial).device :=
      Twin.start hsk.driver.symm hsk.capabilities.symm
        (fun k hk => (hsk.settings_eq k (fun v hv => hk (by
          simpa [updateConfig.allowed, updateConfig.free] using hv))).symm)
    have h1 := Twin.quiet
      (updateConfig.attributes_side_by_side E d.capabilities (.obj fields) _ _ _ _ h0)
      (updateConfig.reachable_quiet E updateConfig.free (.obj fields) _)
      (updateConfig.reachable_quiet E updateConfig.free (.obj fields) _)
    have hr : ∀ x : Device, (updateConfig E x (.obj fields) initial).device =
        updateConfig.reachable (.obj fields)
          (updateConfig.attributes E x.capabilities (.obj fields) x) := by
      intro x; simp [updateConfig, JsVal.isNullish, Device.getCapabilities]
    funext n
    rw [hr _, hsk.capabilities]
    rcases h1.2.2.2 n with h4 | ⟨_, h4⟩
    · rw [← h4, hr]
    · rw [h4]
  · rw [updateConfig_settings, updateConfig_settings]
    exact writeIfSet_three_twice _ _ _ (by decide) (by decide) (by decide) _ _ _ _ _ _ _
  · rw [updateConfig_available, updateConfig_available]
    have hk : (updateConfig E d (.obj fields) initial).device.settings "ignore-reachable"
        = d.settings "ignore-reachable" :=
      hsk.settings_eq _ (fun _ h => by simp [updateConfig.allowed] at h)
    rw [hk]
    split <;> simp_all

/-- C6: applying a state payload twice with `updateState`, or a config payload twice with
`updateConfig`, leaves the device with the capability values, the settings and the
availability that applying it once leaves. -/
theorem applying_twice_is_applying_once (E : Env) (device : Device)
    (payload : List (String × JsVal)) (initial : Bool) :
    ((updateState E (updateState E device (.obj payload) initial).device (.obj payload)
        initial).device.capabilityValues
        = (updateState E device (.obj payload) initial).device.capabilityValues ∧
      (updateState E (updateState E device (.obj payload) initial).device (.obj payload)
        initial).device.settings
        = (updateState E device (.obj payload) initial).device.settings ∧
      (updateState E (updateState E device (.obj payload) initial).device (.obj payload)
        initial).device.available
        = (updateState E device (.obj payload) initial).device.available) ∧
    ((updateConfig E (updateConfig E device (.obj payload) initial).device (.obj payload)
        initial).device.capabilityValues
        = (updateConfig E device (.obj payload) initial).device.capabilityValues ∧
      (updateConfig E (updateConfig E device (.obj payload) initial).device (.obj payload)
        initial).device.settings
        = (updateConfig E device (.obj payload) initial).device.settings ∧
      (updateConfig E (updateConfig E device (.obj payload) initial).device (.obj payload)
        initial).device.available
        = (updateConfig E device (.obj payload) initial).device.available) :=
  ⟨updateState_twice E device (.obj payload) initial rfl,
    updateConfig_twice E device payload initial⟩

/-! ## Stream messages -/

/-- C7: the message `null` parses to `null` and reading `data.r` throws a `TypeError`; a
message that is no JSON text makes `JSON.parse` throw a `SyntaxError`. Nothing in
`handleMessage` or in the `message` listener catches either, whereas the flow action
`debug_send_message` wraps the same call in `try`/`catch`. The devices are unchanged. -/
theorem handleMessage_throws :
    (handleMessage Env.sample App.oneSensor "null").error = some .typeError ∧
    (handleMessage Env.sample App.oneSensor "\x7b").error = some .syntaxError ∧
    (handleMessage Env.sample App.oneSensor "null").app = App.oneSensor ∧
    (handleMessage Env.sample App.oneSensor "\x7b").app = App.oneSensor :=
  ⟨rfl, rfl, rfl, rfl⟩

theorem handleMessage_unparsed (E : Env) (app : App) (message : String) :
    (E.parse message = none → handleMessage E app message = ⟨app, some .syntaxError⟩) ∧
    (E.parse message = some .null →
      handleMessage E app message = ⟨app, some .typeError⟩) := by
  constructor <;> intro h <;> simp [handleMessage, h, handleMessage.dispatch, JsVal.isNullish]

/-! ## The connection manager -/

/-- C9: a first connection closes (the gateway is down), which schedules the reconnect;
`startWebSocketConnection` runs before the five seconds are over (a changed setting, or
the auto-repair) and opens a second connection; then the reconnect timer fires and
`webSocketConnectTo` opens a third connection without terminating the second: two
connections are live. Before the timer fires there is one. -/
theorem reconnect_timer_adds_a_live_connection :
    (run App.oneSensor [.startWebSocketConnection, .closed 0,
      .startWebSocketConnection]).map App.liveSockets = some 1 ∧
    (run App.oneSensor [.startWebSocketConnection, .closed 0, .startWebSocketConnection,
      .timer 0]).map App.liveSockets = some 2 := by
  exact ⟨rfl, rfl⟩

/-- The connection that is current when `startWebSocketConnection` runs is terminated by
it. -/
theorem App.startWebSocketConnection_terminates (app : App) (i : Nat)
    (h : app.websocket = some i) (x : Socket)
    (hx : app.startWebSocketConnection.sockets.get? i = some x) :
    x.terminated = true ∨ app.sockets.length ≤ i := by
  by_cases hi : i < app.sockets.length
  · left
    simp only [App.startWebSocketConnection, h, App.webSocketConnectTo, App.terminate] at hx
    rw [List.get?_eq_getElem?, List.getElem?_append_left (by simpa using hi)] at hx
    simp only [List.getElem?_modify, if_true] at hx
    cases hs : app.sockets[i]? with
    | none => simp [hs] at hx
    | some y => simp [hs] at hx; rw [← hx]
  · exact .inr (Nat.le_of_not_lt hi)

theorem App.iterate_onPing (n : Nat) (app : App) :
    (Nat.iterate App.onPing n app).wsConnected = app.wsConnected ∧
      (Nat.iterate App.onPing n app).autoRepairAttempts = app.autoRepairAttempts := by
  induction n generalizing app with
  | zero => exact ⟨rfl, rfl⟩
  | succ n ih =>
    rw [Function.iterate_succ_apply]
    have h1 : (App.onPing app).wsConnected = app.wsConnected := by
      simp only [App.onPing, App.addTimer]
      split <;> simp [App.clearTimer]
    have h2 : (App.onPing app).autoRepairAttempts = app.autoRepairAttempts := by
      simp only [App.onPing, App.addTimer]
      split <;> simp [App.clearTimer]
    exact ⟨(ih _).1.trans h1, (ih _).2.trans h2⟩

theorem step_keeps_disconnected (app next : App) (e : Event) (he : ∀ i, e ≠ .opened i)
    (h : step app e = some next) (hw : app.wsConnected = false) :
    next.wsConnected = false ∧ next.autoRepairAttempts = app.autoRepairAttempts := by
  cases e with
  | startWebSocketConnection =>
    simp only [step, Option.some.injEq] at h
    subst h
    simp only [App.startWebSocketConnection, App.webSocketConnectTo]
    split <;> simp [App.terminate]
  | timer t =>
    simp only [step] at h
    split at h
    · rename_i x hx
      split at h
      · simp only [Option.some.injEq] at h
        subst h
        cases x.callback <;> cases x.recurring <;>
          simp [App.runCallback, App.webSocketConnectTo, App.startWebSocketConnection, hw] <;>
          split <;> simp [App.terminate]
      · cases h
    · cases h
  | opened i => exact absurd rfl (he i)
  | closed i =>
    simp only [step] at h
    split at h
    · split at h
      · simp only [Option.some.injEq] at h
        subst h
        simp [App.onClose, App.addTimer, App.setAllUnavailable, hw]
      · cases h
    · cases h
  | ping i =>
    simp only [step] at h
    split at h
    · rename_i x hx
      split at h
      · simp only [Option.some.injEq] at h
        subst h
        exact ⟨(App.iterate_onPing _ app).1.trans hw, (App.iterate_onPing _ app).2⟩
      · cases h
    · cases h

theorem run_keeps_disconnected (events : List Event) (app final : App)
    (he : ∀ i, Event.opened i ∉ events) (h : run app events = some final)
    (hw : app.wsConnected = false) :
    final.autoRepairAttempts = app.autoRepairAttempts := by
  induction events generalizing app with
  | nil => simp only [run, Option.some.injEq] at h; rw [h]
  | cons e es ih =>
    simp only [run] at h
    cases hs : step app e with
    | none => simp [hs] at h
    | some next =>
      simp only [hs, Option.some_bind] at h
      have h1 := step_keeps_disconnected app next e
        (fun i hi => he i (hi ▸ List.mem_cons_self _ _)) hs hw
      rw [ih next (fun i hi => he i (List.mem_cons_of_mem _ hi)) h h1.1, h1.2]

/-- C10: the `close` listener schedules one reconnect, `webSocketConnectTo` after 5000 ms,
sets `wsConnected` to false and calls `attemptAutoRepair` exactly when `wsConnected` was
true and `autoRepairConnection` is true; and whatever happens after a `close` event, as
long as no connection opens, further `close` events included, `attemptAutoRepair` is not
called again. -/
theorem close_schedules_one_reconnect (app : App) :
    (App.onClose app).timers = app.timers ++ [⟨.webSocketConnectTo, some 5000, false, true⟩] ∧
    (App.onClose app).wsConnected = false ∧
    (App.onClose app).autoRepairAttempts = app.autoRepairAttempts
      + (if app.wsConnected = true ∧ app.autoRepairConnection = true then 1 else 0) ∧
    ∀ (i : Nat) (events : List Event) (closed final : App),
      step app (.closed i) = some closed → (∀ j, Event.opened j ∉ events) →
      run closed events = some final →
      final.autoRepairAttempts = closed.autoRepairAttempts ∧
        closed.autoRepairAttempts ≤ app.autoRepairAttempts + 1 := by
  have h3 : ∀ a : App, (App.onClose a).autoRepairAttempts = a.autoRepairAttempts
      + (if a.wsConnected = true ∧ a.autoRepairConnection = true then 1 else 0) := by
    intro a
    cases h1 : a.wsConnected <;> cases h2 : a.autoRepairConnection <;>
      simp [App.onClose, App.addTimer, App.setAllUnavailable, App.attemptAutoRepair, h1, h2]
  have h2 : ∀ a : App, (App.onClose a).wsConnected = false := by
    intro a
    simp [App.onClose, App.addTimer]
  refine ⟨?_, h2 app, h3 app, ?_⟩
  · simp only [App.onClose, App.addTimer, App.setAllUnavailable]
    split <;> norm_num [App.attemptAutoRepair]
  · intro i events closed final hc he hr
    simp only [step] at hc
    split at hc
    · split at hc
      · simp only [Option.some.injEq] at hc
        subst hc
        refine ⟨run_keeps_disconnected events _ final he hr (h2 _), ?_⟩
        rw [h3]
        simp only []
        split <;> omega
      · cases hc
    · cases hc

/-- C10 at a concrete input: the open connection closes, the reconnect timer fires and the
new connection closes as well; auto-repair has run once. -/
theorem close_schedules_one_reconnect_example :
    (run App.connected [.closed 0, .timer 1, .closed 1]).map App.autoRepairAttempts = some 1 ∧
    (run App.connected [.closed 0]).map App.autoRepairAttempts = some 1 :=
  ⟨by
      have h := (close_schedules_one_reconnect App.connected).2.2.2 0 [.timer 1, .closed 1]
        ((run App.connected [.closed 0]).getD App.connected)
        ((run App.connected [.closed 0, .timer 1, .closed 1]).getD App.connected)
        rfl (by intro j hj; simp at hj) rfl
      exact congrArg some h.1,
    rfl⟩

/-! ## The unavailability broadcast -/

theorem lookup_map_snd (f : Device → Device) (l : List (String × Device)) (id : String) :
    (l.map fun e => (e.1, f e.2)).lookup id = (l.lookup id).map f := by
  induction l with
  | nil => rfl
  | cons e l ih =>
    obtain ⟨k, d⟩ := e
    simp only [List.map_cons, List.lookup_cons]
    cases h : id == k <;> simp [ih]

theorem getDevice_setAllUnavailable (app : App) (type id : String) :
    getDevice app.setAllUnavailable type id
      = (getDevice app type id).map fun d => d.setUnavailable "Websocket is down" := by
  simp only [getDevice, App.setAllUnavailable, Registry.ofType]
  split_ifs
  · exact lookup_map_snd (fun d => d.setUnavailable "Websocket is down") _ id
  · exact lookup_map_snd (fun d => d.setUnavailable "Websocket is down") _ id
  · exact lookup_map_snd (fun d => d.setUnavailable "Websocket is down") _ id
  · rfl

theorem App.onClose_devices (app : App) :
    (App.onClose app).devices = app.setAllUnavailable.devices := by
  simp only [App.onClose, App.addTimer, App.setAllUnavailable]
  split <;> rfl

theorem getDevice_congr {a b : App} (h : a.devices = b.devices) (type id : String) :
    getDevice a type id = getDevice b type id := by
  simp only [getDevice, h]

/-- C11: `setAllUnavailable`, and with it every `close` event, turns every registered
device of every kind into the device after one call `setUnavailable('Websocket is down')`:
the devices registered afterwards are those registered before, each has seen exactly one
more call of `setUnavailable`, and none is available. -/
theorem setAllUnavailable_marks_every_device (app : App) (type id : String) :
    getDevice app.setAllUnavailable type id
      = (getDevice app type id).map (fun d => d.setUnavailable "Websocket is down") ∧
    (∀ d2, getDevice app.setAllUnavailable type id = some d2 →
      d2.available = false ∧
        ∃ d, getDevice app type id = some d ∧
          d2.trace = .setUnavailable "Websocket is down" :: d.trace ∧
          d2.unavailableCalls = d.unavailableCalls + 1) ∧
    (∀ i next, step app (.closed i) = some next →
      getDevice next type id
        = (getDevice app type id).map (fun d => d.setUnavailable "Websocket is down")) := by
  refine ⟨getDevice_setAllUnavailable app type id, ?_, ?_⟩
  · intro d2 h
    rw [getDevice_setAllUnavailable] at h
    cases hd : getDevice app type id with
    | none => simp [hd] at h
    | some d =>
      simp only [hd, Option.map_some', Option.some.injEq] at h
      subst h
      exact ⟨rfl, d, rfl, rfl, by simp [Device.unavailableCalls, Device.setUnavailable,
        Device.record, Effect.isSetUnavailable]⟩
  · intro i next h
    simp only [step] at h
    split at h
    · split at h
      · simp only [Option.some.injEq] at h
        subst h
        rw [getDevice_congr (App.onClose_devices _), getDevice_setAllUnavailable]
        rfl
      · cases h
    · cases h

/-- C11 at a concrete input: the one sensor of the application is unavailable after the
connection has closed, with one call of `setUnavailable`. -/
theorem setAllUnavailable_marks_every_device_example :
    (getDevice (App.setAllUnavailable App.oneSensor) "sensors" "7").map Device.unavailableCalls
      = some 1 := by
  rw [(setAllUnavailable_marks_every_device App.oneSensor "sensors" "7").1]
  rfl

/-! ## Timers and their handles -/

namespace TimerStored

variable {c : Callback} {timers : List Timer} {handle : Option Nat}

theorem nil (c : Callback) (handle : Option Nat) : TimerStored c [] handle := by
  intro i x h
  simp at h

theorem append_other (h : TimerStored c timers handle) {x : Timer} (hx : x.callback ≠ c) :
    TimerStored c (timers ++ [x]) handle := by
  intro i y hy ha hc
  by_cases hi : i < timers.length
  · rw [List.getElem?_append_left hi] at hy
    exact h i y hy ha hc
  · rw [List.getElem?_append_right (Nat.le_of_not_lt hi)] at hy
    cases hk : i - timers.length with
    | zero =>
      simp only [hk, List.getElem?_cons_zero, Option.some.injEq] at hy
      exact absurd (hy ▸ hc) hx
    | succ k => simp [hk] at hy

theorem deactivate (h : TimerStored c timers handle) (t : Nat) :
    TimerStored c (timers.modify (fun x => { x with active := false }) t) handle := by
  intro i y hy ha hc
  rw [List.getElem?_modify] at hy
  cases hx : timers[i]? with
  | none => simp [hx] at hy
  | some x =>
    by_cases hti : t = i
    · simp only [hx, hti, if_true, Option.map_eq_map, Option.map_some',
        Option.some.injEq] at hy
      subst hy
      simp at ha
    · simp only [hx, hti, if_false, Option.map_eq_map, Option.map_some', Option.some.injEq,
        id_eq] at hy
      subst hy
      exact h i _ hx ha hc

theorem cleared (h : TimerStored c timers handle) (i : Nat) (x : Timer)
    (hx : (clearStored timers handle)[i]? = some x) (ha : x.active = true) :
    x.callback ≠ c := by
  intro hc
  cases handle with
  | none => exact absurd (h i x hx ha hc) (by simp)
  | some t =>
    simp only [clearStored, List.getElem?_modify] at hx
    cases hy : timers[i]? with
    | none => simp [hy] at hx
    | some y =>
      by_cases hti : t = i
      · simp only [hy, hti, if_true, Option.map_eq_map, Option.map_some',
          Option.some.injEq] at hx
        subst hx
        simp at ha
      · simp only [hy, hti, if_false, Option.map_eq_map, Option.map_some', Option.some.injEq,
          id_eq] at hx
        subst hx
        have := h i _ hy ha hc
        simp only [Option.some.injEq] at this
        exact hti this

theorem clearStored_length (timers : List Timer) (handle : Option Nat) :
    (clearStored timers handle).length = timers.length := by
  cases handle <;> simp [clearStored]

theorem filter_cleared (h : TimerStored c timers handle) :
    (clearStored timers handle).filter (fun x => x.active && x.callback == c) = [] := by
  rw [List.filter_eq_nil_iff]
  intro x hx
  obtain ⟨i, hi, rfl⟩ := List.getElem_of_mem hx
  cases ha : (clearStored timers handle)[i].active with
  | false => simp [ha]
  | true =>
    have := cleared h i _ (List.getElem?_eq_getElem hi) ha
    simp [ha, this]

theorem rearm (h : TimerStored c timers handle) (x : Timer) :
    TimerStored c (clearStored timers handle ++ [x]) (some timers.length) := by
  intro i y hy ha hc
  by_cases hi : i < (clearStored timers handle).length
  · rw [List.getElem?_append_left hi] at hy
    exact absurd hc (cleared h i y hy ha)
  · rw [List.getElem?_append_right (Nat.le_of_not_lt hi)] at hy
    cases hk : i - (clearStored timers handle).length with
    | zero =>
      rw [clearStored_length] at hi hk
      have : i = timers.length := by
        have := List.getElem?_eq_some_iff.1 hy
        omega
      rw [this]
    | succ k => simp [hk] at hy

theorem filter_le_one (h : TimerStored c timers handle) :
    (timers.filter fun x => x.active && x.callback == c).length ≤ 1 := by
  induction timers generalizing handle with
  | nil => simp
  | cons x xs ih =>
    have hxs : TimerStored c xs (handle.map fun t => t - 1) := by
      intro i y hy ha hc
      have := h (i + 1) y (by simpa using hy) ha hc
      simp [this]
    by_cases hx : (x.active && x.callback == c) = true
    · have h0 := h 0 x (by simp) (by simp_all) (by simp_all)
      have : xs.filter (fun x => x.active && x.callback == c) = [] := by
        rw [List.filter_eq_nil_iff]
        intro y hy hyc
        obtain ⟨i, hi, rfl⟩ := List.getElem_of_mem hy
        have := h (i + 1) xs[i] (by simp [List.getElem?_eq_getElem hi]) (by simp_all)
          (by simp_all)
        rw [h0] at this
        simp at this
      simp [List.filter_cons, hx, this]
    · simp only [List.filter_cons, hx]
      exact ih hxs

end TimerStored

/-! ## The keepalive timers -/

theorem App.setWSKeepAlive_timers (app : App) :
    (App.setWSKeepAlive app).timers
        = clearStored app.timers app.keepAliveTimeout ++ [⟨.sendPing, some 60000, true, true⟩] ∧
      (App.setWSKeepAlive app).keepAliveTimeout = app.keepAliveTimeout := by
  obtain ⟨_, _, _, _, _, _, _, websocket, _, _, keepAliveTimeout, _, _, _⟩ := app
  cases keepAliveTimeout <;> cases websocket <;>
    norm_num [App.setWSKeepAlive, App.addTimer, clearStored, App.clearTimer]

theorem App.onPing_timers (app : App) :
    (App.onPing app).timers
        = clearStored app.timers app.keepAliveTimeout
          ++ [⟨.connectionLost, some 186000, false, true⟩] ∧
      (App.onPing app).keepAliveTimeout = some app.timers.length ∧
      (App.onPing app).sockets = app.sockets ∧
      (App.onPing app).websocket = app.websocket := by
  obtain ⟨_, _, _, _, _, _, _, _, _, _, keepAliveTimeout, _, _, _⟩ := app
  cases keepAliveTimeout <;> norm_num [App.onPing, App.addTimer, clearStored, App.clearTimer]

theorem App.onClose_timers (app : App) :
    (App.onClose app).timers = app.timers ++ [⟨.webSocketConnectTo, some 5000, false, true⟩] ∧
      (App.onClose app).keepAliveTimeout = app.keepAliveTimeout := by
  simp only [App.onClose, App.addTimer, App.setAllUnavailable]
  split <;> norm_num [App.attemptAutoRepair]

theorem App.runCallback_timers (app : App) (c : Callback) :
    (App.runCallback app c).timers = app.timers ∧
      (App.runCallback app c).keepAliveTimeout = app.keepAliveTimeout := by
  cases c <;> simp only [App.runCallback, App.webSocketConnectTo, App.startWebSocketConnection]
    <;> (try split) <;> simp [App.terminate]

theorem App.WatchdogStored.after_ping {app : App} (h : app.WatchdogStored) :
    (App.onPing app).WatchdogStored := by
  unfold App.WatchdogStored at h ⊢
  rw [(App.onPing_timers app).1, (App.onPing_timers app).2.1]
  exact h.rearm _

theorem App.WatchdogStored.after_pings (n : Nat) {app : App} (h : app.WatchdogStored) :
    (Nat.iterate App.onPing n app).WatchdogStored := by
  induction n generalizing app with
  | zero => exact h
  | succ n ih =>
    rw [Function.iterate_succ_apply]
    exact ih h.after_ping

theorem step_watchdogStored (app next : App) (e : Event) (h : step app e = some next)
    (hw : app.WatchdogStored) : next.WatchdogStored := by
  cases e with
  | startWebSocketConnection =>
    simp only [step, Option.some.injEq] at h
    subst h
    have := App.runCallback_timers app .connectionLost
    unfold App.WatchdogStored at hw ⊢
    simp only [App.runCallback] at this
    rw [this.1, this.2]
    exact hw
  | timer t =>
    simp only [step] at h
    split at h
    · rename_i x hx
      split at h
      · simp only [Option.some.injEq] at h
        subst h
        unfold App.WatchdogStored at hw ⊢
        rw [(App.runCallback_timers _ _).1, (App.runCallback_timers _ _).2]
        split
        · exact hw
        · exact hw.deactivate t
      · cases h
    · cases h
  | opened i =>
    simp only [step] at h
    split at h
    · split at h
      · simp only [Option.some.injEq] at h
        subst h
        unfold App.WatchdogStored at hw ⊢
        simp only [App.onOpen]
        rw [(App.setWSKeepAlive_timers _).1, (App.setWSKeepAlive_timers _).2]
        refine TimerStored.append_other ?_ (by simp)
        show TimerStored .connectionLost (clearStored app.timers app.keepAliveTimeout)
          app.keepAliveTimeout
        cases hk : app.keepAliveTimeout with
        | none => rw [hk] at hw; exact hw
        | some t => rw [hk] at hw; exact hw.deactivate t
      · cases h
    · cases h
  | closed i =>
    simp only [step] at h
    split at h
    · split at h
      · simp only [Option.some.injEq] at h
        subst h
        unfold App.WatchdogStored at hw ⊢
        rw [(App.onClose_timers _).1, (App.onClose_timers _).2]
        exact TimerStored.append_other hw (by simp)
      · cases h
    · cases h
  | ping i =>
    simp only [step] at h
    split at h
    · split at h
      · simp only [Option.some.injEq] at h
        subst h
        exact App.WatchdogStored.after_pings _ hw
      · cases h
    · cases h

theorem run_watchdogStored (events : List Event) (app final : App)
    (h : run app events = some final) (hw : app.WatchdogStored) : final.WatchdogStored := by
  induction events generalizing app with
  | nil => simp only [run, Option.some.injEq] at h; exact h ▸ hw
  | cons e es ih =>
    simp only [run] at h
    cases hs : step app e with
    | none => simp [hs] at h
    | some next =>
      simp only [hs, Option.some_bind] at h
      exact ih next h (step_watchdogStored app next e hs hw)

theorem App.start_watchdogStored (devices : Registry) (host port apikey wsPort : JsVal)
    (autoRepairConnection : Bool) :
    (App.start devices host port apikey wsPort autoRepairConnection).WatchdogStored :=
  TimerStored.nil _ _

theorem App.activeTimers_append (app : App) (c : Callback) (timers : List Timer) (x : Timer)
    (h : app.timers = timers ++ [x]) :
    app.activeTimers c
      = timers.filter (fun x => x.active && x.callback == c)
        ++ (if x.active && x.callback == c then [x] else []) := by
  simp only [App.activeTimers, h, List.filter_append, List.filter_cons, List.filter_nil]

/-- C13, the claim as it stands fails: when the first connection has opened, the one
active timer is the outbound ping interval and no watchdog is armed; with no ping of the
peer, the ping interval may fire any number of times and no connection is started. -/
theorem open_arms_no_watchdog :
    (run App.oneSensor [.startWebSocketConnection, .opened 0]).map
        (fun a => (a.timers, a.activeTimers .connectionLost))
      = some ([⟨.sendPing, some 60000, true, true⟩], []) ∧
    (run App.oneSensor [.startWebSocketConnection, .opened 0, .timer 0, .timer 0,
        .timer 0]).map (fun a => (a.sockets.length, a.activeTimers .connectionLost))
      = some (1, []) := by
  refine ⟨?_, rfl⟩
  have h : (run App.oneSensor [.startWebSocketConnection, .opened 0]).map
      (fun a => (a.timers, a.activeTimers .connectionLost))
      = some ([⟨.sendPing, some (60 * 1000), true, true⟩], []) := rfl
  rw [h]
  norm_num

/-- C13, amended: in every state the application reaches after `onInit`, the opening of
a connection leaves no keepalive watchdog armed (it cancels the one that was) and adds
the outbound ping interval of 60000 ms; a ping of the peer on an open connection that
has a `ping` listener leaves exactly one watchdog armed, a timeout of
186000 ms = 3.1 × 60000 ms created last, under the handle `keepAliveTimeout`; and when
that timeout expires, `startWebSocketConnection` runs. -/
theorem watchdog_armed_by_ping (devices : Registry) (host port apikey wsPort : JsVal)
    (autoRepairConnection : Bool) (events : List Event) (app : App)
    (hrun : run (App.start devices host port apikey wsPort autoRepairConnection) events
      = some app) :
    (∀ i next, step app (.opened i) = some next →
      next.activeTimers .connectionLost = [] ∧
        next.timers.getLast? = some ⟨.sendPing, some 60000, true, true⟩) ∧
    (∀ i x next, app.sockets[i]? = some x → 0 < x.pingListeners →
      step app (.ping i) = some next →
      next.activeTimers .connectionLost = [⟨.connectionLost, some (3.1 * 60000), false, true⟩] ∧
        next.timers.getLast? = some ⟨.connectionLost, some 186000, false, true⟩ ∧
        next.keepAliveTimeout = some (next.timers.length - 1)) ∧
    (∀ t, app.timers[t]? = some ⟨.connectionLost, some 186000, false, true⟩ →
      step app (.timer t) = some (App.startWebSocketConnection (app.clearTimer t))) := by
  have hw : app.WatchdogStored :=
    run_watchdogStored events _ app hrun (App.start_watchdogStored _ _ _ _ _ _)
  refine ⟨?_, ?_, ?_⟩
  · intro i next h
    simp only [step] at h
    split at h
    · split at h
      · simp only [Option.some.injEq] at h
        subst h
        simp only [App.onOpen]
        refine ⟨?_, ?_⟩
        · rw [App.activeTimers_append _ _ _ _ (App.setWSKeepAlive_timers _).1]
          have := TimerStored.filter_cleared hw
          simp only [App.WatchdogStored] at this
          simp only [this]
          rfl
        · simp only [(App.setWSKeepAlive_timers _).1, List.getLast?_append,
            List.getLast?_singleton]
          rfl
      · cases h
    · cases h
  · intro i x next hx hn h
    simp only [step, List.get?_eq_getElem?, hx] at h
    split at h
    · simp only [Option.some.injEq] at h
      obtain ⟨n, hn⟩ : ∃ n, x.pingListeners = n + 1 := ⟨x.pingListeners - 1, by omega⟩
      rw [hn, Function.iterate_succ_apply'] at h
      subst h
      have hw2 := App.WatchdogStored.after_pings n hw
      have ht := App.onPing_timers (Nat.iterate App.onPing n app)
      refine ⟨?_, ?_, ?_⟩
      · rw [App.activeTimers_append _ _ _ _ ht.1]
        simp only [TimerStored.filter_cleared hw2]
        norm_num
      · simp only [ht.1, List.getLast?_append, List.getLast?_singleton]
        rfl
      · rw [ht.2.1, ht.1]
        simp [TimerStored.clearStored_length]
    · cases h
  · intro t ht
    simp only [step, List.get?_eq_getElem?, ht]
    rfl

/-- C13 at a concrete input: the application with one sensor and its first connection
open; a ping of the peer arms the watchdog. -/
theorem watchdog_armed_by_ping_example :
    (run App.connected [.ping 0]).map (fun a => a.activeTimers .connectionLost)
      = some [⟨.connectionLost, some (3.1 * 60000), false, true⟩] := by
  have h := (watchdog_armed_by_ping ⟨[], [("7", Device.fresh [])], []⟩ (.str "192.168.1.2")
    (.num 80) (.str "key") (.num 443) true [.startWebSocketConnection, .opened 0]
    App.connected rfl).2.1 0 ⟨false, true, false, 1⟩
    ((run App.connected [.ping 0]).getD App.connected) rfl (by decide) rfl
  exact congrArg some h.1

/-! ## The poll timer -/

theorem TimerStored.clearStored_stored {c : Callback} {timers : List Timer}
    {handle : Option Nat} (h : TimerStored c timers handle) :
    TimerStored c (clearStored timers handle) handle := by
  cases handle with
  | none => exact h
  | some t => exact h.deactivate t

theorem App.startIntervalStateUpdate_num (E : Env) (app : App) (settings : String → JsVal)
    (v : ℚ) (hs : settings "pollingIntervall" = .num v) :
    (v < 0 →
      (App.startIntervalStateUpdate E app settings).timers
          = clearStored app.timers app.pollIntervall ∧
        (App.startIntervalStateUpdate E app settings).pollIntervall = app.pollIntervall) ∧
    (0 < v →
      (App.startIntervalStateUpdate E app settings).timers
          = clearStored app.timers app.pollIntervall ++ [⟨.poll, some (v * 60000), true, true⟩] ∧
        (App.startIntervalStateUpdate E app settings).pollIntervall
          = some app.timers.length) ∧
    (v = 0 →
      (App.startIntervalStateUpdate E app settings).timers
          = clearStored app.timers app.pollIntervall ++ [⟨.poll, some 900000, true, true⟩] ∧
        (App.startIntervalStateUpdate E app settings).pollIntervall
          = some app.timers.length) := by
  obtain ⟨_, _, _, _, _, _, _, _, _, timers, _, pollIntervall, _, _⟩ := app
  have h60 : v * 60 * 1000 = v * 60000 := by ring
  refine ⟨fun hv => ?_, fun hv => ?_, fun hv => ?_⟩
  · have h1 : v ≠ 0 := ne_of_lt hv
    have h2 : v ≤ 0 := le_of_lt hv
    cases pollIntervall <;>
      simp [App.startIntervalStateUpdate, hs, JsVal.truthy, JsVal.le, JsVal.toPrimitive,
        JsVal.isObject, JsVal.toNumber, h1, h2, clearStored, App.clearTimer]
  · have h1 : v ≠ 0 := ne_of_gt hv
    have h2 : ¬ v ≤ 0 := not_le_of_lt hv
    cases pollIntervall <;>
      simp [App.startIntervalStateUpdate, hs, JsVal.truthy, JsVal.le, JsVal.toPrimitive,
        JsVal.isObject, JsVal.toNumber, JsVal.mul, JsVal.ofNumber, h1, h2, h60, clearStored,
        App.clearTimer, App.addTimer]
  · subst hv
    cases pollIntervall <;>
      norm_num [App.startIntervalStateUpdate, hs, JsVal.truthy, JsVal.le, JsVal.toPrimitive,
        JsVal.isObject, JsVal.toNumber, JsVal.mul, JsVal.ofNumber, clearStored,
        App.clearTimer, App.addTimer]

/-- C14: for a numeric polling interval `v`, on an application whose active poll timer,
if any, is the one under `pollIntervall`: when `v < 0` no poll timer is active afterwards;
when `v > 0` exactly one is, recurring, with the period `v × 60000` ms; but when `v = 0`
line 76 takes the value for an unset one and replaces it by 15, so that the test
`interval <= 0` of line 80 sees 15 and a poll timer of 900000 ms is left active. In each
case the active poll timer, if any, is again the one under `pollIntervall`. -/
theorem zero_interval_still_polls (E : Env) (app : App) (settings : String → JsVal) (v : ℚ)
    (hs : settings "pollingIntervall" = .num v) (hp : app.PollTimerStored) :
    (v < 0 → (App.startIntervalStateUpdate E app settings).activeTimers .poll = []) ∧
    (0 < v → (App.startIntervalStateUpdate E app settings).activeTimers .poll
      = [⟨.poll, some (v * 60000), true, true⟩]) ∧
    (v = 0 → (App.startIntervalStateUpdate E app settings).activeTimers .poll
      = [⟨.poll, some 900000, true, true⟩]) ∧
    (App.startIntervalStateUpdate E app settings).PollTimerStored := by
  have h := App.startIntervalStateUpdate_num E app settings v hs
  have hc := TimerStored.filter_cleared hp
  refine ⟨fun hv => ?_, fun hv => ?_, fun hv => ?_, ?_⟩
  · simp only [App.activeTimers, (h.1 hv).1, hc]
  · rw [App.activeTimers_append _ _ _ _ (h.2.1 hv).1, hc]
    rfl
  · rw [App.activeTimers_append _ _ _ _ (h.2.2 hv).1, hc]
    rfl
  · unfold App.PollTimerStored at hp ⊢
    rcases lt_trichotomy v 0 with hv | hv | hv
    · rw [(h.1 hv).1, (h.1 hv).2]
      exact hp.clearStored_stored
    · rw [(h.2.2 hv).1, (h.2.2 hv).2]
      exact hp.rearm _
    · rw [(h.2.1 hv).1, (h.2.1 hv).2]
      exact hp.rearm _

/-- C14 at the failing input: the polling interval 0, on the application as `onInit`
sets it up, leaves the poll timer of 15 minutes. -/
theorem zero_interval_still_polls_example :
    (App.startIntervalStateUpdate Env.fixed App.oneSensor (fun _ => .num 0)).activeTimers .poll
      = [⟨.poll, some 900000, true, true⟩] :=
  (zero_interval_still_polls Env.fixed App.oneSensor (fun _ => .num 0) 0 rfl
    (TimerStored.nil _ _)).2.2.1 rfl

/-! ## Changes of the settings -/

theorem App.startWebSocketConnection_sockets_length (app : App) :
    (App.startWebSocketConnection app).sockets.length = app.sockets.length + 1 := by
  simp only [App.startWebSocketConnection, App.webSocketConnectTo]
  split <;> simp [App.terminate]

theorem App.startIntervalStateUpdate_sockets (E : Env) (app : App)
    (settings : String → JsVal) :
    (App.startIntervalStateUpdate E app settings).sockets = app.sockets ∧
      (App.startIntervalStateUpdate E app settings).websocket = app.websocket := by
  obtain ⟨_, _, _, _, _, _, _, _, _, _, _, pollIntervall, _, _⟩ := app
  cases pollIntervall <;> simp only [App.startIntervalStateUpdate, App.clearTimer, App.addTimer]
    <;> split <;> split <;> exact ⟨rfl, rfl⟩

/-- C15: with host, port, API key and stream port all set, `onSettingsChanged` starts a
connection for the keys `host`, `port` and `apikey`, and for the name `wsPort` that line
133 tests; but the stream port is stored and read back under the key `wsport` (lines 33,
115 and 566), and for that key, as for every key other than the four names of line 133,
no connection is created and `this.websocket` stays as it was. -/
theorem wsport_change_starts_no_connection (E : Env) (app : App) (settings : String → JsVal)
    (hhost : (settings "host").truthy = true) (hport : (settings "port").truthy = true)
    (hapikey : (settings "apikey").truthy = true)
    (hwsport : (settings "wsport").truthy = true) :
    (∀ key, key = "host" ∨ key = "port" ∨ key = "apikey" ∨ key = "wsPort" →
      (App.onSettingsChanged E app settings key).sockets.length = app.sockets.length + 1 ∧
        (App.onSettingsChanged E app settings key).websocket = some app.sockets.length) ∧
    ((App.onSettingsChanged E app settings "wsport").sockets = app.sockets ∧
      (App.onSettingsChanged E app settings "wsport").websocket = app.websocket) ∧
    (∀ key, key ≠ "host" → key ≠ "port" → key ≠ "apikey" → key ≠ "wsPort" →
      (App.onSettingsChanged E app settings key).sockets = app.sockets ∧
        (App.onSettingsChanged E app settings key).websocket = app.websocket) := by
  have hother : ∀ key, key ≠ "host" → key ≠ "port" → key ≠ "apikey" → key ≠ "wsPort" →
      (App.onSettingsChanged E app settings key).sockets = app.sockets ∧
        (App.onSettingsChanged E app settings key).websocket = app.websocket := by
    intro key h1 h2 h3 h4
    have hk : (key == "host" || key == "port" || key == "apikey" || key == "wsPort")
        = false := by
      simp [h1, h2, h3, h4]
    simp only [App.onSettingsChanged, hk, Bool.false_eq_true, if_false]
    split
    · exact App.startIntervalStateUpdate_sockets E _ settings
    · exact ⟨rfl, rfl⟩
  refine ⟨?_, hother "wsport" (by decide) (by decide) (by decide) (by decide), hother⟩
  intro key hkey
  have hk : (key == "host" || key == "port" || key == "apikey" || key == "wsPort") = true := by
    rcases hkey with h | h | h | h <;> subst h <;> decide
  have hp : (key == "pollingIntervall") = false := by
    rcases hkey with h | h | h | h <;> subst h <;> decide
  simp only [App.onSettingsChanged, hk, hp, if_true, hhost, hport, hapikey, hwsport,
    Bool.and_self, Bool.false_eq_true, if_false]
  refine ⟨App.startWebSocketConnection_sockets_length _, ?_⟩
  simp only [App.startWebSocketConnection, App.webSocketConnectTo]
  split <;> simp [App.terminate]

/-- C15 at the failing input: every setting is set and the key `wsport` has changed; no
connection is created, while the key `host` creates one. -/
theorem wsport_change_starts_no_connection_example :
    (App.onSettingsChanged Env.fixed App.oneSensor (fun _ => .str "set") "wsport").sockets = [] ∧
    (App.onSettingsChanged Env.fixed App.oneSensor (fun _ => .str "set") "host").sockets.length
      = 1 :=
  ⟨(wsport_change_starts_no_connection Env.fixed App.oneSensor (fun _ => .str "set")
      rfl rfl rfl rfl).2.1.1,
    rfl⟩

/-! ## Device information -/

theorem Sinks.written_eq {E : Env} {A : Effect → Prop} {d x : Device} (h : Sinks E A d x)
    (key : String) (hA : ∀ v, ¬ A (.setSettings key v)) : x.written key = d.written key := by
  induction h with
  | refl => rfl
  | setCapabilityValue n v _ _ ih =>
    rw [← ih]
    simp only [Device.written, Device.setCapabilityValue, Device.record,
      Device.superSetCapabilityValue]
    split <;> (try split) <;> (try split) <;>
      simp [List.filterMap_cons, Effect.settingWritten]
  | fireEvent _ _ _ ih => simpa [Device.written, Device.fireEvent, Device.record,
      List.filterMap_cons, Effect.settingWritten] using ih
  | handleAlertState _ _ _ ih => simpa [Device.written, Device.handleAlertState, Device.record,
      List.filterMap_cons, Effect.settingWritten] using ih
  | setSettings k2 v _ ha ih =>
    have hne : k2 ≠ key := fun hk => hA v (hk ▸ ha)
    simpa [Device.written, Device.setSettings, Device.record, List.filterMap_cons,
      Effect.settingWritten, hne] using ih
  | setAvailable _ _ ih => simpa [Device.written, Device.setAvailable, Device.record,
      List.filterMap_cons, Effect.settingWritten] using ih
  | setUnavailable _ _ _ ih => simpa [Device.written, Device.setUnavailable, Device.record,
      List.filterMap_cons, Effect.settingWritten] using ih
  | trigger _ _ _ ih => simpa [Device.written, Device.trigger, Device.record,
      List.filterMap_cons, Effect.settingWritten] using ih

theorem updateDeviceInfo.settings_other (E : Env) (data : JsVal) (d : Device) :
    Sinks E (Effect.writesOther "mac") d (updateDeviceInfo.settings E data d) := by
  unfold updateDeviceInfo.settings
  repeat (first
    | exact Sinks.refl _
    | refine Sinks.onlyIf ?_ ?_
    | refine Sinks.run ?_ ?_)
  all_goals (intros; dsimp only)
  all_goals (repeat' (first
    | exact Sinks.refl _
    | refine Sinks.setSettings _ _ ?_ (by simp [Effect.writesOther])
    | (refine Sinks.onlyIf ?_ ?_; rotate_left; intro _ _; dsimp only)
    | split))

theorem updateDeviceInfo.lastseen_other (E : Env) (data : JsVal) (d : Device) :
    Sinks E (Effect.writesOther "mac") d (updateDeviceInfo.lastseen E data d) := by
  unfold updateDeviceInfo.lastseen
  refine Sinks.onlyIf (Sinks.refl _) ?_
  intro _ y
  dsimp only
  refine Sinks.onlyIf (Sinks.refl _) ?_
  intro _ z
  split <;> exact Sinks.setSettings _ _ (Sinks.refl _) (by simp [Effect.writesOther])

theorem updateDeviceInfo_mac (E : Env) (device : Device) (data : JsVal) (uniqueid : String)
    (hdata : data.hasOwnProperty "uniqueid" = true) (hid : data.get "uniqueid" = .str uniqueid)
    (hmac : (device.getSetting "mac").isNullish = false) :
    updateDeviceInfo E device data
      = ⟨updateDeviceInfo.lastseen E data
          ((updateDeviceInfo.settings E data device).setSettings "mac"
            (.str (firstSegment uniqueid))), none⟩ := by
  have hn : data.isNullish = false := by
    cases data <;> simp_all [JsVal.hasOwnProperty, JsVal.isNullish]
  have h1 : (updateDeviceInfo.settings E data device).getSetting "mac"
      = device.getSetting "mac" :=
    (updateDeviceInfo.settings_other E data device).settings_eq "mac" (fun v h => h rfl)
  simp only [updateDeviceInfo, hn, Bool.false_eq_true, if_false, hdata, h1, hmac, Bool.not_false,
    Bool.and_self, if_true, hid]

/-- C16: the setting `mac` is written without a look at the stored value. For a device
whose setting `mac` is set and a device-info record with a unique id, `updateDeviceInfo`
stores the first segment of the unique id; applied a second time to the same record it
calls `setSettings` for `mac` again, with the value that is stored. -/
theorem mac_is_written_again (E : Env) (device : Device) (data : JsVal) (uniqueid : String)
    (hdata : data.hasOwnProperty "uniqueid" = true) (hid : data.get "uniqueid" = .str uniqueid)
    (hmac : (device.getSetting "mac").isNullish = false) :
    (updateDeviceInfo E device data).device.getSetting "mac" = .str (firstSegment uniqueid) ∧
    (updateDeviceInfo E (updateDeviceInfo E device data).device data).device.written "mac"
      = .str (firstSegment uniqueid) :: (updateDeviceInfo E device data).device.written "mac" ∧
    (updateDeviceInfo E (updateDeviceInfo E device data).device data).error = none := by
  have hw : ∀ d : Device, (d.getSetting "mac").isNullish = false →
      (updateDeviceInfo E d data).device.getSetting "mac" = .str (firstSegment uniqueid) ∧
      (updateDeviceInfo E d data).device.written "mac"
        = .str (firstSegment uniqueid) :: d.written "mac" ∧
      (updateDeviceInfo E d data).error = none := by
    intro d hd
    rw [updateDeviceInfo_mac E d data uniqueid hdata hid hd]
    refine ⟨?_, ?_, rfl⟩
    · show (updateDeviceInfo.lastseen E data _).settings "mac" = _
      rw [(updateDeviceInfo.lastseen_other E data _).settings_eq "mac" (fun v h => h rfl)]
      simp [Device.setSettings]
    · show (updateDeviceInfo.lastseen E data _).written "mac" = _
      rw [(updateDeviceInfo.lastseen_other E data _).written_eq "mac" (fun v h => h rfl)]
      simp only [Device.written, Device.setSettings, Device.record, List.filterMap_cons,
        Effect.settingWritten, beq_self_eq_true, if_true]
      exact congrArg _
        ((updateDeviceInfo.settings_other E data d).written_eq "mac" (fun v h => h rfl))
  have h1 := hw device hmac
  refine ⟨h1.1, ?_⟩
  have h2 := hw (updateDeviceInfo E device data).device (by
    show ((updateDeviceInfo E device data).device.getSetting "mac").isNullish = false
    rw [h1.1]; rfl)
  exact ⟨h2.2.1, h2.2.2⟩

/-- C16 at a concrete input: a device whose setting `mac` holds the address; the second
application of the record writes the address once more. -/
theorem mac_is_written_again_example :
    (updateDeviceInfo Env.fixed
        (updateDeviceInfo Env.fixed
          (Device.withSettings [] [("mac", .str "00:15:8d:00:02:a1:b2:c3")]) macData).device
        macData).device.written "mac"
      = [.str "00:15:8d:00:02:a1:b2:c3", .str "00:15:8d:00:02:a1:b2:c3"] := by
  have h := (mac_is_written_again Env.fixed
    (Device.withSettings [] [("mac", .str "00:15:8d:00:02:a1:b2:c3")]) macData
    "00:15:8d:00:02:a1:b2:c3-01-0006" rfl rfl rfl).2.1
  rw [h]
  rfl

/-! ## Ignoring the attribute reachable -/

namespace Device

theorem unavailableCalls_ite (c : Prop) [Decidable c] (a b : Device) :
    (if c then a else b).unavailableCalls
      = if c then a.unavailableCalls else b.unavailableCalls := by
  split <;> rfl

theorem unavailableCalls_setCapabilityValue (E : Env) (d : Device) (n : String) (v : JsVal) :
    (d.setCapabilityValue E n v).unavailableCalls = d.unavailableCalls :=
  countP_trace_setCapabilityValue E d n v _ rfl rfl

theorem unavailableCalls_fireEvent (d : Device) (args : List JsVal) :
    (d.fireEvent args).unavailableCalls = d.unavailableCalls := by
  simp [unavailableCalls, fireEvent, record, List.countP_cons, Effect.isSetUnavailable]

theorem unavailableCalls_handleAlertState (d : Device) (s : JsVal) :
    (d.handleAlertState s).unavailableCalls = d.unavailableCalls := by
  simp [unavailableCalls, handleAlertState, record, List.countP_cons, Effect.isSetUnavailable]

theorem unavailableCalls_setAvailable (d : Device) :
    d.setAvailable.unavailableCalls = d.unavailableCalls := by
  simp [unavailableCalls, setAvailable, record, List.countP_cons, Effect.isSetUnavailable]

theorem unavailableCalls_setUnavailable (d : Device) (r : String) :
    (d.setUnavailable r).unavailableCalls = d.unavailableCalls + 1 := by
  simp [unavailableCalls, setUnavailable, record, List.countP_cons, Effect.isSetUnavailable]

theorem unavailableCalls_trigger (d : Device) (c : String) :
    (d.trigger c).unavailableCalls = d.unavailableCalls := by
  simp [unavailableCalls, trigger, record, List.countP_cons, Effect.isSetUnavailable]

end Device

theorem updateState.events_unavailable (state : JsVal) (initial : Bool) (d : Device) :
    (updateState.events state initial d).unavailableCalls = d.unavailableCalls := by
  unfold updateState.events
  simp only [Device.onlyIf_eq, Device.unavailableCalls_ite, Device.unavailableCalls_fireEvent,
    ite_self]

theorem updateState.attributes_unavailable (E : Env) (caps : List String) (state : JsVal)
    (d : Device) :
    (updateState.attributes E caps state d).unavailableCalls =
      d.unavailableCalls +
        (if state.hasOwnProperty "reachable" = true ∧ (state.get "reachable").truthy = false
            ∧ (d.settings "ignore-reachable").isTrue = false then 1 else 0) := by
  unfold updateState.attributes
  simp only [Device.onlyIf_eq, Device.unavailableCalls_ite,
    Device.unavailableCalls_setCapabilityValue, Device.unavailableCalls_handleAlertState,
    Device.unavailableCalls_setAvailable, Device.unavailableCalls_setUnavailable,
    Device.unavailableCalls_trigger, Device.settings_ite,
    Device.setCapabilityValue_settings, Device.settings_handleAlertState,
    Device.settings_trigger, Device.getSetting, ite_self]
  by_cases h1 : state.hasOwnProperty "reachable" = true <;>
  by_cases h2 : (d.settings "ignore-reachable").isTrue = true <;>
  by_cases h3 : (state.get "reachable").truthy = true <;>
  simp [h1, h2, h3]

theorem updateState_unavailable (E : Env) (d : Device) (state : JsVal) (initial : Bool) :
    (updateState E d state initial).device.unavailableCalls =
      d.unavailableCalls +
        (if state.hasOwnProperty "reachable" = true ∧ (state.get "reachable").truthy = false
            ∧ (d.settings "ignore-reachable").isTrue = false then 1 else 0) := by
  cases hs : state.isNullish with
  | true =>
    have h1 : state.hasOwnProperty "reachable" = false := by
      cases state <;> simp_all [JsVal.isNullish, JsVal.hasOwnProperty]
    simp [updateState, hs, h1]
  | false =>
    have h1 : (updateState E d state initial).device.unavailableCalls =
        (updateState.attributes E d.capabilities state
          (updateState.events state initial d)).unavailableCalls := by
      refine (updateState_sinks_after_attributes E d state initial hs).countP_trace _ ?_ rfl
      intro e he; cases e <;> simp_all [updateState.restAllowed, Effect.isSetUnavailable]
    rw [h1, updateState.attributes_unavailable, updateState.events_settings,
      updateState.events_unavailable]

theorem updateConfig_unavailable (E : Env) (d : Device) (config : JsVal) (initial : Bool) :
    (updateConfig E d config initial).device.unavailableCalls =
      d.unavailableCalls +
        (if config.hasOwnProperty "reachable" = true ∧ (config.get "reachable").truthy = false
            ∧ (d.settings "ignore-reachable").isTrue = false then 1 else 0) := by
  cases hs : config.isNullish with
  | true =>
    have h1 : config.hasOwnProperty "reachable" = false := by
      cases config <;> simp_all [JsVal.isNullish, JsVal.hasOwnProperty]
    simp [updateConfig, hs, h1]
  | false =>
    have hc := updateConfig.attributes_calls E d.capabilities config d
    have h1 : (updateConfig.attributes E d.capabilities config d).unavailableCalls
        = d.unavailableCalls := by
      refine hc.countP_trace _ ?_ rfl
      intro e he; cases e <;> simp_all [updateConfig.attrAllowed, Effect.isSetUnavailable]
    have h2 : (updateConfig.attributes E d.capabilities config d).settings
        "ignore-reachable" = d.settings "ignore-reachable" :=
      hc.settings_eq _ (fun _ h => by simp [updateConfig.attrAllowed] at h)
    simp only [updateConfig, hs, Bool.false_eq_true, if_false, Device.getCapabilities,
      updateConfig.reachable, Device.onlyIf_eq, Device.getSetting, h2,
      Device.unavailableCalls_ite, Device.unavailableCalls_setAvailable,
      Device.unavailableCalls_setUnavailable, h1]
    by_cases h3 : config.hasOwnProperty "reachable" = true <;>
    by_cases h4 : (d.settings "ignore-reachable").isTrue = true <;>
    by_cases h5 : (config.get "reachable").truthy = true <;>
    simp [h3, h4, h5]

theorem updateConfig_available_of_ignore (E : Env) (d : Device) (config : JsVal)
    (initial : Bool) (hr : config.hasOwnProperty "reachable" = true)
    (hi : (d.settings "ignore-reachable").isTrue = true) :
    (updateConfig E d config initial).device.available = true := by
  have hs : config.isNullish = false := by
    cases config <;> simp_all [JsVal.isNullish, JsVal.hasOwnProperty]
  have h2 : (updateConfig.attributes E d.capabilities config d).settings
      "ignore-reachable" = d.settings "ignore-reachable" :=
    (updateConfig.attributes_calls E d.capabilities config d).settings_eq _
      (fun _ h => by simp [updateConfig.attrAllowed] at h)
  simp [updateConfig, hs, Device.getCapabilities, updateConfig.reachable, Device.onlyIf_eq,
    Device.getSetting, h2, hr, hi, Device.setAvailable]

/-- C17: on a device whose setting `ignore-reachable` is `true`, `updateState` and
`updateConfig` call `setUnavailable` for no payload, and `updateState` fires neither the
card `device_on_reachable` nor the card `device_on_unreachable`; a payload with the
attribute `reachable`, whatever its value, `false` included, leaves the device
available. -/
theorem ignore_reachable_keeps_available (E : Env) (device : Device) (payload : JsVal)
    (initial : Bool) (hignore : (device.getSetting "ignore-reachable").isTrue = true) :
    (updateState E device payload initial).device.unavailableCalls
      = device.unavailableCalls ∧
    (updateConfig E device payload initial).device.unavailableCalls
      = device.unavailableCalls ∧
    Device.triggered "device_on_reachable" (updateState E device payload initial).device
      = Device.triggered "device_on_reachable" device ∧
    Device.triggered "device_on_unreachable" (updateState E device payload initial).device
      = Device.triggered "device_on_unreachable" device ∧
    (payload.hasOwnProperty "reachable" = true →
      (updateState E device payload initial).device.available = true ∧
        (updateConfig E device payload initial).device.available = true) := by
  have hi : (device.settings "ignore-reachable").isTrue = true := hignore
  have ht : ∀ card, card ≠ "switched" →
      Device.triggered card (updateState E device payload initial).device
        = Device.triggered card device := by
    intro card hc
    cases hs : payload.isNullish with
    | true => simp [updateState, hs]
    | false => rw [updateState_triggered E device payload initial hs card hc]; simp [hi]
  refine ⟨?_, ?_, ht _ (by decide), ht _ (by decide), ?_⟩
  · rw [updateState_unavailable]; simp [hi]
  · rw [updateConfig_unavailable]; simp [hi]
  · intro hr
    have hs : payload.isNullish = false := by
      cases payload <;> simp_all [JsVal.isNullish, JsVal.hasOwnProperty]
    refine ⟨?_, updateConfig_available_of_ignore E device payload initial hr hi⟩
    rw [updateState_available E device payload initial hs]
    simp [hr, hi]

/-- C17 at a concrete input: a device that ignores `reachable` and was unavailable, and
the payload with `reachable` false. -/
theorem ignore_reachable_keeps_available_example :
    (updateState Env.fixed (Device.withSettings ["onoff"] [("ignore-reachable", .bool true)])
        (.obj [("reachable", .bool false)]) false).device.unavailableCalls = 0 ∧
    (updateState Env.fixed (Device.withSettings ["onoff"] [("ignore-reachable", .bool true)])
        (.obj [("reachable", .bool false)]) false).device.available = true :=
  ⟨(ignore_reachable_keeps_available Env.fixed
      (Device.withSettings ["onoff"] [("ignore-reachable", .bool true)])
      (.obj [("reachable", .bool false)]) false rfl).1,
    ((ignore_reachable_keeps_available Env.fixed
      (Device.withSettings ["onoff"] [("ignore-reachable", .bool true)])
      (.obj [("reachable", .bool false)]) false rfl).2.2.2.2 rfl).1⟩

/-! ## The values of the calls -/

namespace Device

theorem calls_ite (name : String) (c : Prop) [Decidable c] (a b : Device) :
    (if c then a else b).calls name = if c then a.calls name else b.calls name := by
  split <;> rfl

theorem calls_setCapabilityValue (E : Env) (d : Device) (n : String) (v : JsVal)
    (name : String) :
    (d.setCapabilityValue E n v).calls name
      = if n = name then v :: d.calls name else d.calls name := by
  simp only [calls, setCapabilityValue, record, superSetCapabilityValue, getCapabilityValue]
  split <;> (try split) <;> (try split) <;>
    simp [List.filterMap_cons, Effect.valueSet] <;> split <;> simp_all

theorem calls_fireEvent (name : String) (d : Device) (args : List JsVal) :
    (d.fireEvent args).calls name = d.calls name := by
  simp [calls, fireEvent, record, List.filterMap_cons, Effect.valueSet]

theorem calls_handleAlertState (name : String) (d : Device) (s : JsVal) :
    (d.handleAlertState s).calls name = d.calls name := by
  simp [calls, handleAlertState, record, List.filterMap_cons, Effect.valueSet]

theorem calls_setAvailable (name : String) (d : Device) :
    d.setAvailable.calls name = d.calls name := by
  simp [calls, setAvailable, record, List.filterMap_cons, Effect.valueSet]

theorem calls_setUnavailable (name : String) (d : Device) (r : String) :
    (d.setUnavailable r).calls name = d.calls name := by
  simp [calls, setUnavailable, record, List.filterMap_cons, Effect.valueSet]

theorem calls_trigger (name : String) (d : Device) (c : String) :
    (d.trigger c).calls name = d.calls name := by
  simp [calls, trigger, record, List.filterMap_cons, Effect.valueSet]

theorem calls_setSettings (name : String) (d : Device) (k : String) (v : JsVal) :
    (d.setSettings k v).calls name = d.calls name := by
  simp [calls, setSettings, record, List.filterMap_cons, Effect.valueSet]

theorem values_setCapabilityValue_self (E : Env) (d : Device) (n : String) (v : JsVal)
    (h : d.driver ≠ .genericBlinds) : (d.setCapabilityValue E n v).capabilityValues n = v := by
  simp only [setCapabilityValue, record, superSetCapabilityValue]
  split
  · simp
  · simp_all
  · simp

end Device

theorem Sinks.calls_eq {E : Env} {A : Effect → Prop} {d x : Device} (h : Sinks E A d x)
    (name : String) (hA : ∀ v, ¬ A (.setCapabilityValue name v)) :
    x.calls name = d.calls name := by
  induction h with
  | refl => rfl
  | setCapabilityValue n v _ ha ih =>
    have hne : n ≠ name := fun hk => hA v (hk ▸ ha)
    rw [Device.calls_setCapabilityValue, if_neg hne, ih]
  | fireEvent _ _ _ ih => rw [Device.calls_fireEvent, ih]
  | handleAlertState _ _ _ ih => rw [Device.calls_handleAlertState, ih]
  | setSettings _ _ _ _ ih => rw [Device.calls_setSettings, ih]
  | setAvailable _ _ ih => rw [Device.calls_setAvailable, ih]
  | setUnavailable _ _ _ ih => rw [Device.calls_setUnavailable, ih]
  | trigger _ _ _ ih => rw [Device.calls_trigger, ih]

/-- On a device whose class stores the value it is given, the value stored under a
capability that was set is the value of the last call. -/
theorem Sinks.stores_last {E : Env} {A : Effect → Prop} {d x : Device} (h : Sinks E A d x)
    (name : String) (hd : d.driver ≠ .genericBlinds) :
    (x.calls name = d.calls name ∧ x.capabilityValues name = d.capabilityValues name) ∨
      ∃ v rest, x.calls name = v :: rest ∧ (d.calls name).length ≤ rest.length ∧
        x.capabilityValues name = v := by
  induction h with
  | refl => exact .inl ⟨rfl, rfl⟩
  | @setCapabilityValue y n v hy _ ih =>
    have hy2 : y.driver ≠ .genericBlinds := by rw [hy.driver]; exact hd
    by_cases hn : n = name
    · subst hn
      refine .inr ⟨v, y.calls n, by rw [Device.calls_setCapabilityValue, if_pos rfl], ?_,
        Device.values_setCapabilityValue_self E y n v hy2⟩
      rcases ih with h1 | ⟨w, rest, h1, h2, _⟩
      · rw [h1.1]
      · rw [h1]; simp only [List.length_cons]; omega
    · have hn2 : name ≠ n := fun h => hn h.symm
      rw [Device.calls_setCapabilityValue, if_neg hn,
        Device.setCapabilityValue_values_of_ne _ _ _ _ hn2]
      exact ih
  | fireEvent _ _ _ ih => rw [Device.calls_fireEvent]; exact ih
  | handleAlertState _ _ _ ih => rw [Device.calls_handleAlertState]; exact ih
  | setSettings _ _ _ _ ih => rw [Device.calls_setSettings]; exact ih
  | setAvailable _ _ ih => rw [Device.calls_setAvailable]; exact ih
  | setUnavailable _ _ _ ih => rw [Device.calls_setUnavailable]; exact ih
  | trigger _ _ _ ih => rw [Device.calls_trigger]; exact ih

theorem Sinks.stores_head {E : Env} {A : Effect → Prop} {d x : Device} (h : Sinks E A d x)
    (name : String) (hd : d.driver ≠ .genericBlinds) (v : JsVal) (rest : List JsVal)
    (hc : x.calls name = v :: rest) (hr : (d.calls name).length ≤ rest.length) :
    x.capabilityValues name = v := by
  rcases h.stores_last name hd with h1 | ⟨w, rest2, h1, _, h3⟩
  · rw [h1.1] at hc
    rw [hc] at hr
    simp only [List.length_cons] at hr
    omega
  · rw [h1] at hc
    cases hc
    exact h3

theorem updateState.colourCalls_bind {E : Env} {d : Device}
    {r : Except Outcome Device} {f : Device → Except Outcome Device}
    (hr : updateState.ColourCalls E d r) (hf : ∀ x, updateState.ColourCalls E x (f x)) :
    updateState.ColourCalls E d (r >>= f) := by
  cases r with
  | ok y =>
    have h := hf y
    show updateState.ColourCalls E d (f y)
    cases hfy : f y with
    | ok z => rw [hfy] at h; exact Sinks.trans hr h
    | error o => rw [hfy] at h; exact Sinks.trans hr h
  | error o => exact hr

theorem updateState.colour_calls (E : Env) (caps : List String) (state : JsVal) (d : Device) :
    updateState.ColourCalls E d (updateState.colour E caps state d) := by
  unfold updateState.colour
  dsimp only
  refine colourCalls_bind (colourCalls_bind (colourCalls_bind ?_ ?_) ?_) ?_
  all_goals (try intro x)
  all_goals (repeat' split)
  all_goals (simp only [ColourCalls])
  all_goals (repeat' (first
    | exact Sinks.refl _
    | apply Sinks.setCapabilityValue))
  all_goals (simp [updateState.colourNames])

theorem updateState.rest_calls (E : Env) (caps : List String) (state : JsVal) (d : Device)
    (name : String) (h1 : name ≠ "alarm_tamper") (h2 : name ≠ "measure_voc") :
    (updateState.rest E caps state d).calls name = d.calls name := by
  unfold updateState.rest
  simp only [Device.onlyIf_eq, Device.calls_ite, Device.calls_setCapabilityValue,
    Device.calls_setSettings, if_neg h1.symm, if_neg h2.symm, ite_self]

theorem updateState.events_calls (state : JsVal) (initial : Bool) (d : Device)
    (name : String) : (updateState.events state initial d).calls name = d.calls name := by
  unfold updateState.events
  simp only [Device.onlyIf_eq, Device.calls_ite, Device.calls_fireEvent, ite_self]

theorem updateState.events_driver (state : JsVal) (initial : Bool) (d : Device) :
    (updateState.events state initial d).driver = d.driver := by
  unfold updateState.events
  simp only [Device.onlyIf_eq, Device.fireEvent, Device.record]
  split <;> split <;> rfl

/-- The calls of `setCapabilityValue` for a capability that only lines 685-844 set are
those of these lines. -/
theorem updateState_calls_of_attribute (E : Env) (d : Device) (state : JsVal)
    (initial : Bool) (hs : state.isNullish = false) (name : String)
    (h1 : name ≠ "alarm_tamper") (h2 : name ≠ "measure_voc") (h3 : name ≠ "light_mode")
    (h4 : name ≠ "light_temperature") (h5 : name ≠ "light_hue")
    (h6 : name ≠ "light_saturation") :
    (updateState E d state initial).device.calls name
      = (updateState.attributes E d.capabilities state
          (updateState.events state initial d)).calls name := by
  have hA : ∀ v, ¬ updateState.colourNames (.setCapabilityValue name v) := by
    intro v h
    simp only [updateState.colourNames] at h
    rcases h with h | h | h | h
    · exact h3 h
    · exact h4 h
    · exact h5 h
    · exact h6 h
  have hc := updateState.colour_calls E d.capabilities state
    (updateState.attributes E d.capabilities state (updateState.events state initial d))
  rcases updateState_parts E d state initial hs with ⟨o, hco, ho⟩ | ⟨y, hco, ho⟩
  · rw [hco] at hc
    rw [ho]
    exact Sinks.calls_eq hc name hA
  · rw [hco] at hc
    rw [ho]
    show (updateState.rest E d.capabilities state y).calls name = _
    rw [updateState.rest_calls E _ state y name h1 h2]
    exact Sinks.calls_eq hc name hA

theorem JsVal.hasOwnProperty_of_get {payload : List (String × JsVal)} {k : String}
    (h : (JsVal.obj payload).get k ≠ .undefined) : (JsVal.obj payload).hasOwnProperty k = true := by
  simp only [JsVal.get, JsVal.hasOwnProperty] at h ⊢
  cases hl : payload.lookup k with
  | none => simp [hl] at h
  | some v => rfl

theorem updateState.attributes_calls_temperature (E : Env) (caps : List String)
    (state : JsVal) (d : Device) :
    (updateState.attributes E caps state d).calls "measure_temperature" =
      if (state.hasOwnProperty "temperature" && deviceSupports caps ["measure_temperature"])
          = true then
        JsVal.add E (JsVal.div E (state.get "temperature") 100)
            (if (d.settings "temperature_offset").isNullish then .num 0
              else d.settings "temperature_offset")
          :: d.calls "measure_temperature"
      else d.calls "measure_temperature" := by
  unfold updateState.attributes
  simp only [Device.onlyIf_eq, Device.calls_ite, Device.calls_setCapabilityValue,
    Device.calls_handleAlertState, Device.calls_setAvailable, Device.calls_setUnavailable,
    Device.calls_trigger, Device.settings_ite, Device.setCapabilityValue_settings,
    Device.settings_handleAlertState, Device.settings_trigger, Device.settings_setAvailable,
    Device.settings_setUnavailable, Device.getSetting, ite_self]
  simp

theorem updateState.attributes_calls_humidity (E : Env) (caps : List String)
    (state : JsVal) (d : Device) :
    (updateState.attributes E caps state d).calls "measure_humidity" =
      if (state.hasOwnProperty "humidity" && deviceSupports caps ["measure_humidity"])
          = true then
        JsVal.add E (JsVal.div E (state.get "humidity") 100)
            (if (d.settings "humidity_offset").isNullish then .num 0
              else d.settings "humidity_offset")
          :: d.calls "measure_humidity"
      else d.calls "measure_humidity" := by
  unfold updateState.attributes
  simp only [Device.onlyIf_eq, Device.calls_ite, Device.calls_setCapabilityValue,
    Device.calls_handleAlertState, Device.calls_setAvailable, Device.calls_setUnavailable,
    Device.calls_trigger, Device.settings_ite, Device.setCapabilityValue_settings,
    Device.settings_handleAlertState, Device.settings_trigger, Device.settings_setAvailable,
    Device.settings_setUnavailable, Device.getSetting, ite_self]
  simp

theorem updateState.attributes_calls_pressure (E : Env) (caps : List String)
    (state : JsVal) (d : Device) :
    (updateState.attributes E caps state d).calls "measure_pressure" =
      if (state.hasOwnProperty "pressure" && deviceSupports caps ["measure_pressure"])
          = true then
        JsVal.add E (state.get "pressure")
            (if (d.settings "pressure_offset").isNullish then .num 0
              else d.settings "pressure_offset")
          :: d.calls "measure_pressure"
      else d.calls "measure_pressure" := by
  unfold updateState.attributes
  simp only [Device.onlyIf_eq, Device.calls_ite, Device.calls_setCapabilityValue,
    Device.calls_handleAlertState, Device.calls_setAvailable, Device.calls_setUnavailable,
    Device.calls_trigger, Device.settings_ite, Device.setCapabilityValue_settings,
    Device.settings_handleAlertState, Device.settings_trigger, Device.settings_setAvailable,
    Device.settings_setUnavailable, Device.getSetting, ite_self]
  simp

theorem updateState.attributes_calls_contact (E : Env) (caps : List String)
    (state : JsVal) (d : Device) :
    (updateState.attributes E caps state d).calls "alarm_contact" =
      if (state.hasOwnProperty "open" && deviceSupports caps ["alarm_contact"]) = true then
        (if (if (d.settings "invert_alarm").isNullish then JsVal.bool false
              else d.settings "invert_alarm").isTrue = true
          then (state.get "open").not else state.get "open")
          :: d.calls "alarm_contact"
      else d.calls "alarm_contact" := by
  unfold updateState.attributes
  simp only [Device.onlyIf_eq, Device.calls_ite, Device.calls_setCapabilityValue,
    Device.calls_handleAlertState, Device.calls_setAvailable, Device.calls_setUnavailable,
    Device.calls_trigger, Device.settings_ite, Device.setCapabilityValue_settings,
    Device.settings_handleAlertState, Device.settings_trigger, Device.settings_setAvailable,
    Device.settings_setUnavailable, Device.getSetting, ite_self]
  simp
  split
  · split <;> split <;> simp_all
  · rfl

theorem updateState.attributes_calls_water (E : Env) (caps : List String)
    (state : JsVal) (d : Device) :
    (updateState.attributes E caps state d).calls "alarm_water" =
      if (state.hasOwnProperty "water" && deviceSupports caps ["alarm_water"]) = true then
        (if (if (d.settings "invert_alarm").isNullish then JsVal.bool false
              else d.settings "invert_alarm").isTrue = true
          then (state.get "water").not else state.get "water")
          :: d.calls "alarm_water"
      else d.calls "alarm_water" := by
  unfold updateState.attributes
  simp only [Device.onlyIf_eq, Device.calls_ite, Device.calls_setCapabilityValue,
    Device.calls_handleAlertState, Device.calls_setAvailable, Device.calls_setUnavailable,
    Device.calls_trigger, Device.settings_ite, Device.setCapabilityValue_settings,
    Device.settings_handleAlertState, Device.settings_trigger, Device.settings_setAvailable,
    Device.settings_setUnavailable, Device.getSetting, ite_self]
  simp
  split
  · split <;> split <;> simp_all
  · rfl

theorem updateState.attributes_calls_light_temperature (E : Env) (caps : List String)
    (state : JsVal) (d : Device) :
    (updateState.attributes E caps state d).calls "light_temperature"
      = d.calls "light_temperature" := by
  unfold updateState.attributes
  simp only [Device.onlyIf_eq, Device.calls_ite, Device.calls_setCapabilityValue,
    Device.calls_handleAlertState, Device.calls_setAvailable, Device.calls_setUnavailable,
    Device.calls_trigger, ite_self]
  simp

theorem updateState.attributes_calls_light_mode (E : Env) (caps : List String)
    (state : JsVal) (d : Device) :
    (updateState.attributes E caps state d).calls "light_mode" =
      if (state.hasOwnProperty "colormode" && deviceSupports caps ["light_mode"]) = true then
        (if (JsVal.looseEq E (state.get "colormode") (.str "xy")
              || JsVal.looseEq E (state.get "colormode") (.str "hs")) = true
          then JsVal.str "color" else JsVal.str "temperature")
          :: d.calls "light_mode"
      else d.calls "light_mode" := by
  unfold updateState.attributes
  simp only [Device.onlyIf_eq, Device.calls_ite, Device.calls_setCapabilityValue,
    Device.calls_handleAlertState, Device.calls_setAvailable, Device.calls_setUnavailable,
    Device.calls_trigger, ite_self]
  simp

/-! ## Offsets of the measurements -/

theorem JsVal.add_num_offset (E : Env) (q o : ℚ) (offset : JsVal)
    (h : offset = .num o ∨ (offset.isNullish = true ∧ o = 0)) :
    JsVal.add E (.num q) (if offset.isNullish then .num 0 else offset) = .num (q + o) := by
  rcases h with h | ⟨h, ho⟩
  · subst h
    simp [JsVal.isNullish, JsVal.add, JsVal.toPrimitive, JsVal.isObject, JsVal.toNumber]
  · subst ho
    simp [h, JsVal.add, JsVal.toPrimitive, JsVal.isObject, JsVal.toNumber]

theorem JsVal.div_num (E : Env) (q c : ℚ) : JsVal.div E (.num q) c = .num (q / c) := rfl

theorem deviceSupports_single (caps : List String) (name : String) (h : name ∈ caps) :
    deviceSupports caps [name] = true := by
  rw [deviceSupports_iff]
  intro n hn
  simp only [List.mem_singleton] at hn
  exact hn ▸ h

/-- C19: for a payload with a numeric `temperature`, `humidity` or `pressure` and a device
that declares the capability, `updateState` calls `setCapabilityValue` once for it, with
`temperature / 100 + temperature_offset`, `humidity / 100 + humidity_offset` and
`pressure + pressure_offset`, where the offset is the number the setting holds, or 0 when
the setting is `null` or `undefined`; on a device whose class stores what it is given,
that is the value of the capability afterwards. -/
theorem offsets_are_added (E : Env) (device : Device) (payload : List (String × JsVal))
    (initial : Bool) :
    (∀ t o : ℚ, (JsVal.obj payload).get "temperature" = .num t →
      "measure_temperature" ∈ device.getCapabilities →
      (device.getSetting "temperature_offset" = .num o ∨
        ((device.getSetting "temperature_offset").isNullish = true ∧ o = 0)) →
      (updateState E device (.obj payload) initial).device.calls "measure_temperature"
          = .num (t / 100 + o) :: device.calls "measure_temperature" ∧
        (device.driver ≠ .genericBlinds →
          (updateState E device (.obj payload) initial).device.getCapabilityValue
            "measure_temperature" = .num (t / 100 + o))) ∧
    (∀ h o : ℚ, (JsVal.obj payload).get "humidity" = .num h →
      "measure_humidity" ∈ device.getCapabilities →
      (device.getSetting "humidity_offset" = .num o ∨
        ((device.getSetting "humidity_offset").isNullish = true ∧ o = 0)) →
      (updateState E device (.obj payload) initial).device.calls "measure_humidity"
          = .num (h / 100 + o) :: device.calls "measure_humidity" ∧
        (device.driver ≠ .genericBlinds →
          (updateState E device (.obj payload) initial).device.getCapabilityValue
            "measure_humidity" = .num (h / 100 + o))) ∧
    (∀ p o : ℚ, (JsVal.obj payload).get "pressure" = .num p →
      "measure_pressure" ∈ device.getCapabilities →
      (device.getSetting "pressure_offset" = .num o ∨
        ((device.getSetting "pressure_offset").isNullish = true ∧ o = 0)) →
      (updateState E device (.obj payload) initial).device.calls "measure_pressure"
          = .num (p + o) :: device.calls "measure_pressure" ∧
        (device.driver ≠ .genericBlinds →
          (updateState E device (.obj payload) initial).device.getCapabilityValue
            "measure_pressure" = .num (p + o))) := by
  have hstore : ∀ (name : String) (v : JsVal),
      (updateState E device (.obj payload) initial).device.calls name = v :: device.calls name →
      device.driver ≠ .genericBlinds →
      (updateState E device (.obj payload) initial).device.getCapabilityValue name = v :=
    fun name v hc hd =>
      Sinks.stores_head (updateState_sinks E device (.obj payload) initial) name hd v _ hc
        (le_refl _)
  refine ⟨?_, ?_, ?_⟩
  · intro t o ht hcap hoff
    have hc : (updateState E device (.obj payload) initial).device.calls "measure_temperature"
        = .num (t / 100 + o) :: device.calls "measure_temperature" := by
      rw [updateState_calls_of_attribute E device (.obj payload) initial rfl _ (by decide)
        (by decide) (by decide) (by decide) (by decide) (by decide),
        updateState.attributes_calls_temperature, updateState.events_settings,
        updateState.events_calls,
        JsVal.hasOwnProperty_of_get (by rw [ht]; exact fun h => JsVal.noConfusion h),
        deviceSupports_single device.capabilities _ hcap, ht, JsVal.div_num,
        JsVal.add_num_offset E _ o (device.settings "temperature_offset") hoff]
      rfl
    exact ⟨hc, hstore _ _ hc⟩
  · intro t o ht hcap hoff
    have hc : (updateState E device (.obj payload) initial).device.calls "measure_humidity"
        = .num (t / 100 + o) :: device.calls "measure_humidity" := by
      rw [updateState_calls_of_attribute E device (.obj payload) initial rfl _ (by decide)
        (by decide) (by decide) (by decide) (by decide) (by decide),
        updateState.attributes_calls_humidity, updateState.events_settings,
        updateState.events_calls,
        JsVal.hasOwnProperty_of_get (by rw [ht]; exact fun h => JsVal.noConfusion h),
        deviceSupports_single device.capabilities _ hcap, ht, JsVal.div_num,
        JsVal.add_num_offset E _ o (device.settings "humidity_offset") hoff]
      rfl
    exact ⟨hc, hstore _ _ hc⟩
  · intro t o ht hcap hoff
    have hc : (updateState E device (.obj payload) initial).device.calls "measure_pressure"
        = .num (t + o) :: device.calls "measure_pressure" := by
      rw [updateState_calls_of_attribute E device (.obj payload) initial rfl _ (by decide)
        (by decide) (by decide) (by decide) (by decide) (by decide),
        updateState.attributes_calls_pressure, updateState.events_settings,
        updateState.events_calls,
        JsVal.hasOwnProperty_of_get (by rw [ht]; exact fun h => JsVal.noConfusion h),
        deviceSupports_single device.capabilities _ hcap, ht,
        JsVal.add_num_offset E _ o (device.settings "pressure_offset") hoff]
      rfl
    exact ⟨hc, hstore _ _ hc⟩

/-- C19 at a concrete input: 21.5 degrees with an offset of half a degree, and a device
without offset. -/
theorem offsets_are_added_example :
    (updateState Env.fixed
        (Device.withSettings ["measure_temperature"] [("temperature_offset", .num (1 / 2))])
        (.obj [("temperature", .num 2150)]) false).device.getCapabilityValue
          "measure_temperature" = .num (2150 / 100 + 1 / 2) ∧
    (updateState Env.fixed (Device.fresh ["measure_temperature"])
        (.obj [("temperature", .num 2150)]) false).device.getCapabilityValue
          "measure_temperature" = .num (2150 / 100 + 0) :=
  ⟨((offsets_are_added Env.fixed
      (Device.withSettings ["measure_temperature"] [("temperature_offset", .num (1 / 2))])
      [("temperature", .num 2150)] false).1 2150 (1 / 2) rfl (by decide) (.inl rfl)).2
        (by decide),
    ((offsets_are_added Env.fixed (Device.fresh ["measure_temperature"])
      [("temperature", .num 2150)] false).1 2150 0 rfl (by decide) (.inr ⟨rfl, rfl⟩)).2
        (by decide)⟩

/-! ## Inverted alarms -/

theorem JsVal.inverted (b : Bool) (setting : JsVal) :
    (if (if setting.isNullish then JsVal.bool false else setting).isTrue = true
      then (JsVal.bool b).not else JsVal.bool b) = .bool (xor b setting.isTrue) := by
  cases setting <;> cases b <;> simp [JsVal.isNullish, JsVal.isTrue, JsVal.not, JsVal.truthy]
  all_goals (rename_i c; cases c <;> simp [JsVal.isTrue])

/-- C20: for a payload with a boolean `open` (respectively `water`) and a device that
declares `alarm_contact` (respectively `alarm_water`), `updateState` calls
`setCapabilityValue` once for the capability, with the raw value XOR
(`invert_alarm === true`): the negated value when the setting `invert_alarm` is `true`,
the value itself when the setting is `false`, unset or anything else; on a device whose
class stores what it is given, that is the value of the capability afterwards. -/
theorem alarms_are_inverted (E : Env) (device : Device) (payload : List (String × JsVal))
    (initial : Bool) :
    (∀ b : Bool, (JsVal.obj payload).get "open" = .bool b →
      "alarm_contact" ∈ device.getCapabilities →
      (updateState E device (.obj payload) initial).device.calls "alarm_contact"
          = .bool (xor b (device.getSetting "invert_alarm").isTrue)
            :: device.calls "alarm_contact" ∧
        (device.driver ≠ .genericBlinds →
          (updateState E device (.obj payload) initial).device.getCapabilityValue
            "alarm_contact" = .bool (xor b (device.getSetting "invert_alarm").isTrue))) ∧
    (∀ b : Bool, (JsVal.obj payload).get "water" = .bool b →
      "alarm_water" ∈ device.getCapabilities →
      (updateState E device (.obj payload) initial).device.calls "alarm_water"
          = .bool (xor b (device.getSetting "invert_alarm").isTrue)
            :: device.calls "alarm_water" ∧
        (device.driver ≠ .genericBlinds →
          (updateState E device (.obj payload) initial).device.getCapabilityValue
            "alarm_water" = .bool (xor b (device.getSetting "invert_alarm").isTrue))) := by
  have hstore : ∀ (name : String) (v : JsVal),
      (updateState E device (.obj payload) initial).device.calls name = v :: device.calls name →
      device.driver ≠ .genericBlinds →
      (updateState E device (.obj payload) initial).device.getCapabilityValue name = v :=
    fun name v hc hd =>
      Sinks.stores_head (updateState_sinks E device (.obj payload) initial) name hd v _ hc
        (le_refl _)
  refine ⟨?_, ?_⟩
  · intro b hb hcap
    have hc : (updateState E device (.obj payload) initial).device.calls "alarm_contact"
        = .bool (xor b (device.getSetting "invert_alarm").isTrue)
          :: device.calls "alarm_contact" := by
      rw [updateState_calls_of_attribute E device (.obj payload) initial rfl _ (by decide)
        (by decide) (by decide) (by decide) (by decide) (by decide),
        updateState.attributes_calls_contact, updateState.events_settings,
        updateState.events_calls,
        JsVal.hasOwnProperty_of_get (by rw [hb]; exact fun h => JsVal.noConfusion h),
        deviceSupports_single device.capabilities _ hcap, hb,
        JsVal.inverted b (device.settings "invert_alarm")]
      rfl
    exact ⟨hc, hstore _ _ hc⟩
  · intro b hb hcap
    have hc : (updateState E device (.obj payload) initial).device.calls "alarm_water"
        = .bool (xor b (device.getSetting "invert_alarm").isTrue)
          :: device.calls "alarm_water" := by
      rw [updateState_calls_of_attribute E device (.obj payload) initial rfl _ (by decide)
        (by decide) (by decide) (by decide) (by decide) (by decide),
        updateState.attributes_calls_water, updateState.events_settings,
        updateState.events_calls,
        JsVal.hasOwnProperty_of_get (by rw [hb]; exact fun h => JsVal.noConfusion h),
        deviceSupports_single device.capabilities _ hcap, hb,
        JsVal.inverted b (device.settings "invert_alarm")]
      rfl
    exact ⟨hc, hstore _ _ hc⟩

/-- C20 at concrete inputs: an open contact on a device that inverts the alarm, and on a
device whose setting `invert_alarm` is unset. -/
theorem alarms_are_inverted_example :
    (updateState Env.fixed
        (Device.withSettings ["alarm_contact"] [("invert_alarm", .bool true)])
        (.obj [("open", .bool true)]) false).device.getCapabilityValue "alarm_contact"
      = .bool false ∧
    (updateState Env.fixed (Device.fresh ["alarm_contact"])
        (.obj [("open", .bool true)]) false).device.getCapabilityValue "alarm_contact"
      = .bool true :=
  ⟨((alarms_are_inverted Env.fixed
      (Device.withSettings ["alarm_contact"] [("invert_alarm", .bool true)])
      [("open", .bool true)] false).1 true rfl (by decide)).2 (by decide),
    ((alarms_are_inverted Env.fixed (Device.fresh ["alarm_contact"])
      [("open", .bool true)] false).1 true rfl (by decide)).2 (by decide)⟩

/-! ## The colour temperature -/

theorem updateState.colour_ct (E : Env) (caps : List String) (state : JsVal) (d : Device)
    (hmode : state.get "colormode" = .str "ct") (hct : state.hasOwnProperty "ct" = true)
    (hcm : state.hasOwnProperty "colormode" = true) :
    updateState.colour E caps state d =
      if (!deviceSupports caps ["light_mode", "light_temperature"]
          || JsVal.gt E (state.get "ct") 500) = true then .error ⟨d, none⟩
      else .ok ((d.setCapabilityValue E "light_mode" (.str "temperature")).setCapabilityValue E
        "light_temperature" (JsVal.div E (JsVal.sub E (state.get "ct") 153) 347)) := by
  unfold updateState.colour
  have h1 : (JsVal.str "ct").strictEqStr "ct" = true := by decide
  have h2 : (JsVal.str "ct").strictEqStr "hs" = false := by decide
  have h3 : (JsVal.str "ct").strictEqStr "xy" = false := by decide
  simp only [hmode, hct, hcm, h1, h2, h3, Bool.and_self, Bool.and_false, if_true,
    Bool.false_eq_true, if_false]
  split <;> rfl

theorem deviceSupports_pair (caps : List String) (a b : String) :
    deviceSupports caps [a, b] = true ↔ a ∈ caps ∧ b ∈ caps := by
  rw [deviceSupports_iff]
  simp

/-- C18 fails on a device that declares `light_temperature` and not `light_mode`: for a
payload with the colour mode `ct` and `ct` = 300, `updateState` makes no call for
`light_temperature` and no value is stored. The application creates such devices: the
group driver pairs a group of colour temperature lights with the entry 2 of
`capabilitiesArray`, which holds `light_temperature` and not `light_mode`, and the poll
hands the action of a group to `updateState` with `initial` true. -/
theorem ct_alone_sets_nothing :
    (updateState Env.fixed (Device.fresh ["light_temperature"])
        (.obj [("colormode", .str "ct"), ("ct", .num 300)]) false).device.calls
          "light_temperature" = [] ∧
    (updateState Env.fixed (Device.fresh ["light_temperature"])
        (.obj [("colormode", .str "ct"), ("ct", .num 300)]) false).device.getCapabilityValue
          "light_temperature" = .null ∧
    matchTable.lookup "Color temperature light" = some 2 ∧
    capabilitiesArray.get? 2 = some ["onoff", "dim", "light_temperature"] ∧
    (updateState Env.fixed (Device.fresh ["onoff", "dim", "light_temperature"])
        (.obj [("on", .bool true), ("colormode", .str "ct"), ("ct", .num 300)])
          true).device.calls "light_temperature" = [] ∧
    (updateState Env.fixed (Device.fresh ["onoff", "dim", "light_temperature"])
        (.obj [("on", .bool true), ("colormode", .str "ct"), ("ct", .num 300)])
          true).device.calls "onoff" = [.bool true] :=
  ⟨rfl, rfl, rfl, rfl, rfl, rfl⟩

/-- C18: for a payload with the colour mode `ct` and a numeric `ct`, on a device that
declares `light_mode` as well as `light_temperature`, `updateState` does what the claim
says: for `ct` ≤ 500 it calls `setCapabilityValue` once for `light_temperature`, with
`(ct - 153) / 347`, and last for `light_mode` with `temperature`, and for `ct` > 500 it
makes no call for `light_temperature`. On a device that declares `light_temperature` and
not `light_mode` the claim does not hold: the test of line 847 asks for both names, so
that no call for `light_temperature` is made whatever `ct` is. -/
theorem ct_needs_light_mode (E : Env) (device : Device) (payload : List (String × JsVal))
    (initial : Bool) (ct : ℚ) (hmode : (JsVal.obj payload).get "colormode" = .str "ct")
    (hct : (JsVal.obj payload).get "ct" = .num ct) :
    (500 < ct ∨ "light_mode" ∉ device.getCapabilities
        ∨ "light_temperature" ∉ device.getCapabilities →
      (updateState E device (.obj payload) initial).device.calls "light_temperature"
        = device.calls "light_temperature") ∧
    (ct ≤ 500 → "light_mode" ∈ device.getCapabilities →
      "light_temperature" ∈ device.getCapabilities →
      (updateState E device (.obj payload) initial).device.calls "light_temperature"
          = .num ((ct - 153) / 347) :: device.calls "light_temperature" ∧
        ((updateState E device (.obj payload) initial).device.calls "light_mode").head?
          = some (.str "temperature") ∧
        (device.driver ≠ .genericBlinds →
          (updateState E device (.obj payload) initial).device.getCapabilityValue
              "light_temperature" = .num ((ct - 153) / 347) ∧
            (updateState E device (.obj payload) initial).device.getCapabilityValue
              "light_mode" = .str "temperature")) := by
  have h1 : (JsVal.obj payload).hasOwnProperty "colormode" = true :=
    JsVal.hasOwnProperty_of_get (by rw [hmode]; exact fun h => JsVal.noConfusion h)
  have h2 : (JsVal.obj payload).hasOwnProperty "ct" = true :=
    JsVal.hasOwnProperty_of_get (by rw [hct]; exact fun h => JsVal.noConfusion h)
  have hgt : JsVal.gt E (.num ct) 500 = decide (500 < ct) := rfl
  have hv : JsVal.div E (JsVal.sub E (.num ct) 153) 347 = .num ((ct - 153) / 347) := rfl
  have hcol := fun d => updateState.colour_ct E device.capabilities (.obj payload) d hmode h2 h1
  have hu : updateState E device (.obj payload) initial
      = Outcome.ofExit
        (updateState.colour E device.capabilities (.obj payload)
            (updateState.attributes E device.capabilities (.obj payload)
              (updateState.events (.obj payload) initial device))
          >>= fun d => .ok (updateState.rest E device.capabilities (.obj payload) d)) := rfl
  refine ⟨?_, ?_⟩
  · intro h
    have hg : (!deviceSupports device.capabilities ["light_mode", "light_temperature"]
        || JsVal.gt E ((JsVal.obj payload).get "ct") 500) = true := by
      rw [hct, hgt]
      rcases h with h | h | h
      · simp [h]
      · have : deviceSupports device.capabilities ["light_mode", "light_temperature"]
            = false := by
          rw [Bool.eq_false_iff, Ne, deviceSupports_pair]
          exact fun hh => h hh.1
        simp [this]
      · have : deviceSupports device.capabilities ["light_mode", "light_temperature"]
            = false := by
          rw [Bool.eq_false_iff, Ne, deviceSupports_pair]
          exact fun hh => h hh.2
        simp [this]
    rw [hu, hcol, if_pos hg]
    show (updateState.attributes E device.capabilities (.obj payload)
      (updateState.events (.obj payload) initial device)).calls "light_temperature" = _
    rw [updateState.attributes_calls_light_temperature, updateState.events_calls]
  · intro hle hlm hlt
    have hg : ¬ (!deviceSupports device.capabilities ["light_mode", "light_temperature"]
        || JsVal.gt E ((JsVal.obj payload).get "ct") 500) = true := by
      rw [hct, hgt, (deviceSupports_pair device.capabilities _ _).2 ⟨hlm, hlt⟩]
      simpa using hle
    have hc1 : (updateState E device (.obj payload) initial).device.calls "light_temperature"
        = .num ((ct - 153) / 347) :: device.calls "light_temperature" := by
      rw [hu, hcol, if_neg hg]
      show (updateState.rest E device.capabilities (.obj payload) _).calls
        "light_temperature" = _
      rw [updateState.rest_calls E _ _ _ _ (by decide) (by decide),
        Device.calls_setCapabilityValue, if_pos rfl, Device.calls_setCapabilityValue,
        if_neg (by decide), updateState.attributes_calls_light_temperature,
        updateState.events_calls, hct, hv]
    have hc2 : (updateState E device (.obj payload) initial).device.calls "light_mode"
        = .str "temperature"
          :: (updateState.attributes E device.capabilities (.obj payload)
            (updateState.events (.obj payload) initial device)).calls "light_mode" := by
      rw [hu, hcol, if_neg hg]
      show (updateState.rest E device.capabilities (.obj payload) _).calls "light_mode" = _
      rw [updateState.rest_calls E _ _ _ _ (by decide) (by decide),
        Device.calls_setCapabilityValue, if_neg (by decide), Device.calls_setCapabilityValue,
        if_pos rfl]
    refine ⟨hc1, by rw [hc2]; rfl, fun hd => ⟨?_, ?_⟩⟩
    · exact Sinks.stores_head (updateState_sinks E device (.obj payload) initial) _ hd _ _ hc1
        (le_refl _)
    · refine Sinks.stores_head (updateState_sinks E device (.obj payload) initial) _ hd _ _ hc2
        ?_
      rw [updateState.attributes_calls_light_mode, updateState.events_calls]
      split
      · simp
      · exact le_refl _

/-- C18 at a concrete input: on a light that declares both capabilities, `ct` = 300 is
applied. -/
theorem ct_needs_light_mode_example :
    (updateState Env.fixed (Device.fresh ["light_mode", "light_temperature"])
        (.obj [("colormode", .str "ct"), ("ct", .num 300)]) false).device.getCapabilityValue
          "light_temperature" = .num ((300 - 153) / 347) :=
  (((ct_needs_light_mode Env.fixed (Device.fresh ["light_mode", "light_temperature"])
    [("colormode", .str "ct"), ("ct", .num 300)] false 300 rfl rfl).2 (by norm_num)
    (by decide) (by decide)).2.2 (by decide)).1

/-! ## The poll timer under the events -/

theorem App.startIntervalStateUpdate_stored (E : Env) (app : App)
    (settings : String → JsVal) (h : app.PollTimerStored) :
    (App.startIntervalStateUpdate E app settings).PollTimerStored := by
  unfold App.PollTimerStored at h ⊢
  have hc : ((App.startIntervalStateUpdate E app settings).timers
        = clearStored app.timers app.pollIntervall ∧
      (App.startIntervalStateUpdate E app settings).pollIntervall = app.pollIntervall) ∨
      ∃ x, (App.startIntervalStateUpdate E app settings).timers
          = clearStored app.timers app.pollIntervall ++ [x] ∧
        (App.startIntervalStateUpdate E app settings).pollIntervall
          = some app.timers.length := by
    obtain ⟨_, _, _, _, _, _, _, _, _, timers, _, pollIntervall, _, _⟩ := app
    cases pollIntervall <;>
      simp only [App.startIntervalStateUpdate, App.clearTimer, App.addTimer, clearStored] <;>
      split <;> split <;> simp
  rcases hc with ⟨h1, h2⟩ | ⟨x, h1, h2⟩
  · rw [h1, h2]; exact h.clearStored_stored
  · rw [h1, h2]; exact h.rearm x

theorem TimerStored.clear_other {c : Callback} {timers : List Timer} {handle : Option Nat}
    (h : TimerStored c timers handle) (other : Option Nat) :
    TimerStored c (clearStored timers other) handle := by
  cases other with
  | none => exact h
  | some t => exact h.deactivate t

theorem App.onPing_pollIntervall (app : App) :
    (App.onPing app).pollIntervall = app.pollIntervall := by
  obtain ⟨_, _, _, _, _, _, _, _, _, _, keepAliveTimeout, _, _, _⟩ := app
  cases keepAliveTimeout <;> rfl

theorem App.PollTimerStored.after_peer_ping {app : App} (h : app.PollTimerStored) :
    (App.onPing app).PollTimerStored := by
  unfold App.PollTimerStored at h ⊢
  rw [(App.onPing_timers app).1, App.onPing_pollIntervall]
  exact (h.clear_other _).append_other (by simp)

theorem App.PollTimerStored.after_peer_pings (n : Nat) {app : App}
    (h : app.PollTimerStored) : (Nat.iterate App.onPing n app).PollTimerStored := by
  induction n generalizing app with
  | zero => exact h
  | succ n ih =>
    rw [Function.iterate_succ_apply]
    exact ih h.after_peer_ping

theorem App.setWSKeepAlive_pollIntervall (app : App) :
    (App.setWSKeepAlive app).pollIntervall = app.pollIntervall := by
  obtain ⟨_, _, _, _, _, _, _, websocket, _, _, keepAliveTimeout, _, _, _⟩ := app
  cases keepAliveTimeout <;> cases websocket <;> rfl

theorem App.onClose_pollIntervall (app : App) :
    (App.onClose app).pollIntervall = app.pollIntervall := by
  simp only [App.onClose, App.addTimer, App.setAllUnavailable]
  split <;> rfl

theorem App.runCallback_pollIntervall (app : App) (c : Callback) :
    (App.runCallback app c).pollIntervall = app.pollIntervall := by
  cases c
  all_goals simp only [App.runCallback, App.webSocketConnectTo, App.startWebSocketConnection]
  all_goals (try split)
  all_goals rfl

/-- The events of the connection manager keep the active poll timer under its handle. -/
theorem step_pollTimerStored (app next : App) (e : Event) (h : step app e = some next)
    (hw : app.PollTimerStored) : next.PollTimerStored := by
  cases e with
  | startWebSocketConnection =>
    simp only [step, Option.some.injEq] at h
    subst h
    have h1 := App.runCallback_timers app .connectionLost
    have h2 := App.runCallback_pollIntervall app .connectionLost
    unfold App.PollTimerStored at hw ⊢
    simp only [App.runCallback] at h1 h2
    rw [h1.1, h2]
    exact hw
  | timer t =>
    simp only [step] at h
    split at h
    · split at h
      · simp only [Option.some.injEq] at h
        subst h
        unfold App.PollTimerStored at hw ⊢
        rw [(App.runCallback_timers _ _).1, App.runCallback_pollIntervall]
        split
        · exact hw
        · exact hw.deactivate t
      · cases h
    · cases h
  | opened i =>
    simp only [step] at h
    split at h
    · split at h
      · simp only [Option.some.injEq] at h
        subst h
        unfold App.PollTimerStored at hw ⊢
        simp only [App.onOpen]
        rw [(App.setWSKeepAlive_timers _).1, App.setWSKeepAlive_pollIntervall]
        exact (hw.clear_other _).append_other (by simp)
      · cases h
    · cases h
  | closed i =>
    simp only [step] at h
    split at h
    · split at h
      · simp only [Option.some.injEq] at h
        subst h
        unfold App.PollTimerStored at hw ⊢
        rw [(App.onClose_timers _).1, App.onClose_pollIntervall]
        exact TimerStored.append_other hw (by simp)
      · cases h
    · cases h
  | ping i =>
    simp only [step] at h
    split at h
    · split at h
      · simp only [Option.some.injEq] at h
        subst h
        exact App.PollTimerStored.after_peer_pings _ hw
      · cases h
    · cases h

/-- A change of the settings keeps the active poll timer under its handle. -/
theorem App.onSettingsChanged_stored (E : Env) (app : App) (settings : String → JsVal)
    (modifiedKey : String) (h : app.PollTimerStored) :
    (App.onSettingsChanged E app settings modifiedKey).PollTimerStored := by
  have hstart : ∀ a : App, a.PollTimerStored → (App.startWebSocketConnection a).PollTimerStored := by
    intro a ha
    have h1 := App.runCallback_timers a .connectionLost
    have h2 := App.runCallback_pollIntervall a .connectionLost
    unfold App.PollTimerStored at ha ⊢
    simp only [App.runCallback] at h1 h2
    rw [h1.1, h2]
    exact ha
  have hpoll : ∀ a : App, a.PollTimerStored → ∀ c : Bool,
      (if c = true then App.startIntervalStateUpdate E a settings else a).PollTimerStored := by
    intro a ha c
    split
    · exact App.startIntervalStateUpdate_stored E a settings ha
    · exact ha
  have hconn : ∀ a : App, a.PollTimerStored → ∀ c1 c2 : Bool,
      (if c1 = true then (if c2 = true then App.startWebSocketConnection a else a)
        else a).PollTimerStored := by
    intro a ha c1 c2
    split
    · split
      · exact hstart a ha
      · exact ha
    · exact ha
  have h0 : App.PollTimerStored
      { app with
        host := settings "host"
        port := settings "port"
        apikey := settings "apikey"
        wsPort := settings "wsport"
        sendUsageData :=
          if !(settings "sendUsageData").isFalse && !(settings "sendUsageData").isTrue then true
          else (settings "sendUsageData").isTrue
        autoRepairConnection :=
          if !(settings "autoRepairConnection").isFalse
              && !(settings "autoRepairConnection").isTrue then true
          else (settings "autoRepairConnection").isTrue } := h
  exact hconn _ (hpoll _ h0 (modifiedKey == "pollingIntervall")) _ _

/-! ## The outbound ping intervals -/

theorem filter_deactivate_other (c : Callback) (timers : List Timer) (t : Nat)
    (h : ∀ x, timers[t]? = some x → x.callback ≠ c) :
    (timers.modify (fun x => { x with active := false }) t).filter
        (fun x => x.active && x.callback == c)
      = timers.filter (fun x => x.active && x.callback == c) := by
  induction timers generalizing t with
  | nil => simp
  | cons y ys ih =>
    cases t with
    | zero =>
      have hy : y.callback ≠ c := h y (by simp)
      simp [List.filter_cons, hy]
    | succ t =>
      have := ih t (fun x hx => h x (by simpa using hx))
      simp [List.filter_cons, this]

theorem getElem?_deactivate (timers : List Timer) (t i : Nat) (y : Timer)
    (h : (timers.modify (fun x => { x with active := false }) t)[i]? = some y) :
    ∃ x, timers[i]? = some x ∧ y.callback = x.callback ∧ y.recurring = x.recurring := by
  rw [List.getElem?_modify] at h
  cases hx : timers[i]? with
  | none => simp [hx] at h
  | some x =>
    refine ⟨x, rfl, ?_⟩
    by_cases hti : t = i
    · simp only [hx, hti, if_true, Option.map_eq_map, Option.map_some',
        Option.some.injEq] at h
      subst h
      exact ⟨rfl, rfl⟩
    · simp only [hx, hti, if_false, Option.map_eq_map, Option.map_some', Option.some.injEq,
        id_eq] at h
      subst h
      exact ⟨rfl, rfl⟩

theorem getElem?_deactivate_of (timers : List Timer) (t i : Nat) (x : Timer)
    (h : timers[i]? = some x) :
    ∃ y, (timers.modify (fun x => { x with active := false }) t)[i]? = some y ∧
      y.callback = x.callback := by
  rw [List.getElem?_modify, h]
  by_cases hti : t = i
  · exact ⟨{ x with active := false }, by simp [hti], rfl⟩
  · exact ⟨x, by simp [hti], rfl⟩

theorem getElem?_clearStored (timers : List Timer) (handle : Option Nat) (i : Nat) (y : Timer)
    (h : (clearStored timers handle)[i]? = some y) :
    ∃ x, timers[i]? = some x ∧ y.callback = x.callback ∧ y.recurring = x.recurring := by
  cases handle with
  | none => exact ⟨y, h, rfl, rfl⟩
  | some t => exact getElem?_deactivate timers t i y h

theorem getElem?_clearStored_of (timers : List Timer) (handle : Option Nat) (i : Nat)
    (x : Timer) (h : timers[i]? = some x) :
    ∃ y, (clearStored timers handle)[i]? = some y ∧ y.callback = x.callback := by
  cases handle with
  | none => exact ⟨x, h, rfl⟩
  | some t => exact getElem?_deactivate_of timers t i x h

/-- The shape is kept when the stored watchdog is cancelled and a timer is appended that
is not a ping timeout; the handle may move to the new timer when that is a watchdog. -/
theorem KeepAliveShape_append {timers : List Timer} {handle : Option Nat}
    (ha : ∀ (i : Nat) (x : Timer), timers[i]? = some x → x.callback = .sendPing →
      x.recurring = true)
    (hb : ∀ t, handle = some t → ∃ x, timers[t]? = some x ∧ x.callback = .connectionLost)
    (other : Option Nat) (x : Timer) (hx : x.callback = .sendPing → x.recurring = true) :
    (∀ (i : Nat) (y : Timer), (clearStored timers other ++ [x])[i]? = some y →
      y.callback = .sendPing → y.recurring = true) ∧
    (∀ t, handle = some t →
      ∃ y, (clearStored timers other ++ [x])[t]? = some y ∧ y.callback = .connectionLost) ∧
    (x.callback = .connectionLost →
      ∃ y, (clearStored timers other ++ [x])[timers.length]? = some y ∧
        y.callback = .connectionLost) := by
  have hlen := TimerStored.clearStored_length timers other
  refine ⟨?_, ?_, ?_⟩
  · intro i y hy hc
    by_cases hi : i < (clearStored timers other).length
    · rw [List.getElem?_append_left hi] at hy
      obtain ⟨z, hz, h1, h2⟩ := getElem?_clearStored timers other i y hy
      rw [h2]
      exact ha i z hz (h1 ▸ hc)
    · rw [List.getElem?_append_right (Nat.le_of_not_lt hi)] at hy
      cases hk : i - (clearStored timers other).length with
      | zero =>
        simp only [hk, List.getElem?_cons_zero, Option.some.injEq] at hy
        subst hy
        exact hx hc
      | succ k => simp [hk] at hy
  · intro t ht
    obtain ⟨z, hz, hzc⟩ := hb t ht
    obtain ⟨y, hy, hyc⟩ := getElem?_clearStored_of timers other t z hz
    have hlt : t < (clearStored timers other).length := by
      rw [hlen]
      exact (List.getElem?_eq_some_iff.1 hz).1
    exact ⟨y, by rw [List.getElem?_append_left hlt]; exact hy, hyc.trans hzc⟩
  · intro hc
    refine ⟨x, ?_, hc⟩
    rw [List.getElem?_append_right (by rw [hlen]), hlen]
    simp

theorem App.activeTimers_congr {a b : App} (h : a.timers = b.timers) (c : Callback) :
    a.activeTimers c = b.activeTimers c := by
  simp only [App.activeTimers, h]

theorem App.KeepAliveShape.of_eq {a b : App} (h : a.KeepAliveShape)
    (h1 : b.timers = a.timers) (h2 : b.keepAliveTimeout = a.keepAliveTimeout) :
    b.KeepAliveShape := by
  unfold App.KeepAliveShape at h ⊢
  rw [h1, h2]
  exact h

theorem App.KeepAliveShape.after_onPing {app : App} (h : app.KeepAliveShape) :
    (App.onPing app).KeepAliveShape ∧
      (App.onPing app).activeTimers .sendPing = app.activeTimers .sendPing := by
  have ht := App.onPing_timers app
  have hs := KeepAliveShape_append h.1 h.2 app.keepAliveTimeout
    ⟨.connectionLost, some 186000, false, true⟩ (by simp)
  refine ⟨⟨?_, ?_⟩, ?_⟩
  · rw [ht.1]; exact hs.1
  · intro t hk
    rw [ht.2.1] at hk
    cases hk
    rw [ht.1]
    exact hs.2.2 rfl
  · rw [App.activeTimers_append _ _ _ _ ht.1]
    have hf : (clearStored app.timers app.keepAliveTimeout).filter
        (fun x => x.active && x.callback == Callback.sendPing)
        = app.timers.filter (fun x => x.active && x.callback == Callback.sendPing) := by
      cases hk : app.keepAliveTimeout with
      | none => rfl
      | some t =>
        refine filter_deactivate_other _ _ t ?_
        intro x hx
        obtain ⟨y, hy, hyc⟩ := h.2 t hk
        rw [hx] at hy
        cases hy
        rw [hyc]
        decide
    rw [hf]
    simp [App.activeTimers]

theorem App.KeepAliveShape.after_onPings (n : Nat) {app : App} (h : app.KeepAliveShape) :
    (Nat.iterate App.onPing n app).KeepAliveShape ∧
      (Nat.iterate App.onPing n app).activeTimers .sendPing = app.activeTimers .sendPing := by
  induction n generalizing app with
  | zero => exact ⟨h, rfl⟩
  | succ n ih =>
    rw [Function.iterate_succ_apply]
    exact ⟨(ih h.after_onPing.1).1, (ih h.after_onPing.1).2.trans h.after_onPing.2⟩

theorem App.KeepAliveShape.filter_cleared_pings {app : App} (h : app.KeepAliveShape) :
    (clearStored app.timers app.keepAliveTimeout).filter
        (fun x => x.active && x.callback == Callback.sendPing)
      = app.timers.filter (fun x => x.active && x.callback == Callback.sendPing) := by
  cases hk : app.keepAliveTimeout with
  | none => rfl
  | some t =>
    refine filter_deactivate_other _ _ t ?_
    intro x hx
    obtain ⟨y, hy, hyc⟩ := h.2 t hk
    rw [hx] at hy
    cases hy
    rw [hyc]
    decide

theorem App.KeepAliveShape.after_timeout {app : App} (h : app.KeepAliveShape) (t : Nat) :
    App.KeepAliveShape
      { app with timers := app.timers.modify (fun x => { x with active := false }) t } := by
  refine ⟨?_, ?_⟩
  · intro i y hy hc
    obtain ⟨z, hz, h1, h2⟩ := getElem?_deactivate app.timers t i y hy
    rw [h2]
    exact h.1 i z hz (h1 ▸ hc)
  · intro k hk
    obtain ⟨z, hz, hzc⟩ := h.2 k hk
    obtain ⟨y, hy, hyc⟩ := getElem?_deactivate_of app.timers t k z hz
    exact ⟨y, hy, hyc.trans hzc⟩

/-- Every event keeps the shape of the keepalive timers; the opening of a connection adds
one active ping interval, and no event removes one. -/
theorem step_pingIntervals (app next : App) (e : Event) (h : step app e = some next)
    (hj : app.KeepAliveShape) :
    next.KeepAliveShape ∧
      (next.activeTimers .sendPing).length
        = (app.activeTimers .sendPing).length + (if e.isOpened = true then 1 else 0) := by
  cases e with
  | startWebSocketConnection =>
    simp only [step, Option.some.injEq] at h
    subst h
    have h1 := App.runCallback_timers app .connectionLost
    simp only [App.runCallback] at h1
    exact ⟨hj.of_eq h1.1 h1.2, by rw [App.activeTimers_congr h1.1]; rfl⟩
  | timer t =>
    simp only [step, List.get?_eq_getElem?] at h
    split at h
    · rename_i x hx
      split at h
      · simp only [Option.some.injEq] at h
        subst h
        have h1 := fun a => App.runCallback_timers a x.callback
        cases hr : x.recurring with
        | true =>
          simp only [hr, if_true]
          exact ⟨hj.of_eq (h1 _).1 (h1 _).2, by rw [App.activeTimers_congr (h1 _).1]; rfl⟩
        | false =>
          simp only [hr, Bool.false_eq_true, if_false]
          refine ⟨(hj.after_timeout t).of_eq (h1 _).1 (h1 _).2, ?_⟩
          rw [App.activeTimers_congr (h1 _).1]
          simp only [App.activeTimers, Event.isOpened, Bool.false_eq_true, if_false,
            Nat.add_zero]
          rw [filter_deactivate_other _ _ t]
          intro y hy hc
          rw [hx] at hy
          cases hy
          have := hj.1 t x hx hc
          rw [hr] at this
          cases this
      · cases h
    · cases h
  | opened i =>
    simp only [step] at h
    split at h
    · split at h
      · simp only [Option.some.injEq] at h
        subst h
        simp only [App.onOpen]
        have ht := App.setWSKeepAlive_timers
          { app with
            sockets := app.sockets.modify (fun x => { x with opened := true }) i
            wsConnected := true }
        have hs := KeepAliveShape_append hj.1 hj.2 app.keepAliveTimeout
          ⟨.sendPing, some 60000, true, true⟩ (fun _ => rfl)
        refine ⟨⟨?_, ?_⟩, ?_⟩
        · rw [ht.1]; exact hs.1
        · rw [ht.1, ht.2]; exact hs.2.1
        · rw [App.activeTimers_append _ _ _ _ ht.1]
          have hf := hj.filter_cleared_pings
          simp only [hf, App.activeTimers, Event.isOpened, if_true, List.length_append]
          rfl
      · cases h
    · cases h
  | closed i =>
    simp only [step] at h
    split at h
    · split at h
      · simp only [Option.some.injEq] at h
        subst h
        have ht := App.onClose_timers
          { app with sockets := app.sockets.modify (fun x => { x with closed := true }) i }
        have hs := KeepAliveShape_append hj.1 hj.2 none
          ⟨.webSocketConnectTo, some 5000, false, true⟩ (fun h => by cases h)
        refine ⟨⟨?_, ?_⟩, ?_⟩
        · rw [ht.1]; exact hs.1
        · rw [ht.1, ht.2]; exact hs.2.1
        · rw [App.activeTimers_append _ _ _ _ ht.1]
          simp [App.activeTimers, Event.isOpened]
      · cases h
    · cases h
  | ping i =>
    simp only [step] at h
    split at h
    · rename_i x hx
      split at h
      · simp only [Option.some.injEq] at h
        subst h
        have := App.KeepAliveShape.after_onPings x.pingListeners hj
        exact ⟨this.1, by rw [this.2]; rfl⟩
      · cases h
    · cases h

theorem run_pingIntervals (events : List Event) (app final : App)
    (h : run app events = some final) (hj : app.KeepAliveShape) :
    (final.activeTimers .sendPing).length
      = (app.activeTimers .sendPing).length + events.countP Event.isOpened := by
  induction events generalizing app with
  | nil => simp only [run, Option.some.injEq] at h; subst h; simp
  | cons e es ih =>
    simp only [run] at h
    cases hs : step app e with
    | none => simp [hs] at h
    | some next =>
      simp only [hs, Option.some_bind] at h
      have h1 := step_pingIntervals app next e hs hj
      rw [ih next h h1.1, h1.2, List.countP_cons]
      omega

theorem App.start_keepAliveShape (devices : Registry) (host port apikey wsPort : JsVal)
    (autoRepairConnection : Bool) :
    (App.start devices host port apikey wsPort autoRepairConnection).KeepAliveShape :=
  ⟨fun i x h => by simp [App.start] at h, fun t h => by simp [App.start] at h⟩

/-- C12: the outbound ping intervals are never cancelled. `setWSKeepAlive` cancels the
timer under `keepAliveTimeout` and no other, and creates one more ping interval, whose
handle it drops: whatever happens after `onInit`, the number of active ping intervals is
the number of connections that have opened. Once a connection has opened and closed and
its successor has opened, or once the watchdog has restarted the connection and the new
one has opened, two ping intervals are active. The watchdog half of the claim holds:
whatever happens after `onInit`, at most one keepalive watchdog is active. -/
theorem ping_intervals_accumulate :
    (∀ app : App, (App.setWSKeepAlive app).timers
      = clearStored app.timers app.keepAliveTimeout ++ [⟨.sendPing, some 60000, true, true⟩]) ∧
    (∀ (devices : Registry) (host port apikey wsPort : JsVal) (autoRepairConnection : Bool)
        (events : List Event) (final : App),
      run (App.start devices host port apikey wsPort autoRepairConnection) events = some final →
      (final.activeTimers .sendPing).length = events.countP Event.isOpened ∧
        (final.activeTimers .connectionLost).length ≤ 1) ∧
    (run App.oneSensor [.startWebSocketConnection, .opened 0, .closed 0, .timer 1,
        .opened 1]).map (fun a => a.activeTimers .sendPing)
      = some [⟨.sendPing, some 60000, true, true⟩, ⟨.sendPing, some 60000, true, true⟩] ∧
    (run App.oneSensor [.startWebSocketConnection, .opened 0, .ping 0, .timer 1,
        .opened 1]).map (fun a => a.activeTimers .sendPing)
      = some [⟨.sendPing, some 60000, true, true⟩, ⟨.sendPing, some 60000, true, true⟩] := by
  refine ⟨fun app => (App.setWSKeepAlive_timers app).1, ?_, ?_, ?_⟩
  · intro devices host port apikey wsPort autoRepairConnection events final h
    refine ⟨?_, TimerStored.filter_le_one
      (run_watchdogStored events _ final h (App.start_watchdogStored _ _ _ _ _ _))⟩
    rw [run_pingIntervals events _ final h (App.start_keepAliveShape _ _ _ _ _ _)]
    simp [App.activeTimers, App.start]
  · have h : (run App.oneSensor [.startWebSocketConnection, .opened 0, .closed 0, .timer 1,
        .opened 1]).map (fun a => a.activeTimers .sendPing)
        = some [⟨.sendPing, some (60 * 1000), true, true⟩,
          ⟨.sendPing, some (60 * 1000), true, true⟩] := rfl
    rw [h]
    norm_num
  · have h : (run App.oneSensor [.startWebSocketConnection, .opened 0, .ping 0, .timer 1,
        .opened 1]).map (fun a => a.activeTimers .sendPing)
        = some [⟨.sendPing, some (60 * 1000), true, true⟩,
          ⟨.sendPing, some (60 * 1000), true, true⟩] := rfl
    rw [h]
    norm_num

/-! ## A light message -/

theorem handleMessage_state (E : Env) (app : App) (message : String) (data : JsVal)
    (device : Device) (hp : E.parse message = some data) (hn : data.isNullish = false)
    (hd : getDevice app (JsVal.toKey E (data.get "r")) (JsVal.toKey E (data.get "id"))
      = some device)
    (hs : (data.get "state").truthy = true) :
    handleMessage E app message
      = app.afterTranslation (JsVal.toKey E (data.get "r")) (JsVal.toKey E (data.get "id"))
          (updateState E device (data.get "state")) := by
  simp only [handleMessage, hp, handleMessage.dispatch, hn, Bool.false_eq_true, if_false, hd,
    hs, if_true]

theorem handleMessage_config (E : Env) (app : App) (message : String) (data : JsVal)
    (device : Device) (hp : E.parse message = some data) (hn : data.isNullish = false)
    (hd : getDevice app (JsVal.toKey E (data.get "r")) (JsVal.toKey E (data.get "id"))
      = some device)
    (hs : (data.get "state").truthy = false) (ha : (data.get "action").truthy = false)
    (hc : (data.get "config").truthy = true) :
    handleMessage E app message
      = app.afterTranslation (JsVal.toKey E (data.get "r")) (JsVal.toKey E (data.get "id"))
          (updateConfig E device (data.get "config")) := by
  simp only [handleMessage, hp, handleMessage.dispatch, hn, Bool.false_eq_true, if_false, hd,
    hs, ha, hc, if_true]

theorem hasOwnProperty_on_bri (v w : JsVal) (k : String) :
    (JsVal.obj [("on", v), ("bri", w)]).hasOwnProperty k = (k == "on" || k == "bri") := by
  simp only [JsVal.hasOwnProperty, List.lookup]
  cases h1 : k == "on" <;> cases h2 : k == "bri" <;> simp

theorem updateState_on_bri (E : Env) (device : Device) (b : Bool) (n : ℚ) (initial : Bool)
    (h1 : "onoff" ∈ device.getCapabilities) (h2 : "dim" ∈ device.getCapabilities) :
    updateState E device (.obj [("on", .bool b), ("bri", .num n)]) initial
      = ⟨(device.setCapabilityValue E "onoff" (.bool b)).setCapabilityValue E "dim"
          (.num (n / 255)), none⟩ := by
  have hon := deviceSupports_single device.capabilities _ h1
  have hdim := deviceSupports_single device.capabilities _ h2
  have hev : updateState.events (.obj [("on", .bool b), ("bri", .num n)]) initial device
      = device := by
    simp [updateState.events, hasOwnProperty_on_bri, Device.onlyIf]
  have hat : updateState.attributes E device.capabilities
      (.obj [("on", .bool b), ("bri", .num n)]) device
      = (device.setCapabilityValue E "onoff" (.bool b)).setCapabilityValue E "dim"
          (.num (n / 255)) := by
    have g1 : (JsVal.obj [("on", .bool b), ("bri", .num n)]).get "on" = .bool b := rfl
    have g2 : (JsVal.obj [("on", .bool b), ("bri", .num n)]).get "bri" = .num n := rfl
    unfold updateState.attributes
    simp only [hasOwnProperty_on_bri, Device.onlyIf_eq, hon, hdim, g1, g2]
    simp [JsVal.div, JsVal.toNumber, JsVal.ofNumber]
  have hco : ∀ d, updateState.colour E device.capabilities
      (.obj [("on", .bool b), ("bri", .num n)]) d = .ok d := by
    intro d
    unfold updateState.colour
    simp only [hasOwnProperty_on_bri]
    rfl
  have hre : ∀ d, updateState.rest E device.capabilities
      (.obj [("on", .bool b), ("bri", .num n)]) d = d := by
    intro d
    simp [updateState.rest, hasOwnProperty_on_bri, Device.onlyIf]
  simp only [updateState, JsVal.isNullish, Bool.false_eq_true, if_false, Device.getCapabilities,
    hev, hat, hco, hre]
  rfl

/-- C21, the claim as it stands fails: a light of the class `GenericBlinds` that declares
`onoff` and `dim` is left, by the message with `on` true and `bri` 127, with `onoff` false
and `dim` = 1 - 127/255 = 128/255. -/
theorem blinds_store_the_inverse :
    (getDevice (handleMessage Env.messages App.oneBlind lightMessageText).app "lights" "3").map
        (fun d => (d.getCapabilityValue "onoff", d.getCapabilityValue "dim"))
      = some (.bool false, .num (128 / 255)) := by
  have h : (getDevice (handleMessage Env.messages App.oneBlind lightMessageText).app "lights"
      "3").map (fun d => (d.getCapabilityValue "onoff", d.getCapabilityValue "dim"))
      = some (.bool false, .num (1 - 127 / 255)) := rfl
  rw [h]
  norm_num

/-- C21, amended: for a registered light that declares `onoff` and `dim`, a boolean `b`
and a number `n`, `handleMessage` on the stream message with the state `on` = b and
`bri` = n throws nothing and calls `setCapabilityValue` on the device once with `onoff`
and b and once with `dim` and n / 255. A device of a class that stores what it is given
is left with `onoff` = b and `dim` = n / 255; a device of the class `GenericBlinds` is
left with `onoff` = not b and `dim` = 1 - n / 255. -/
theorem light_message_sets_onoff_and_dim (E : Env) (app : App) (message id : String)
    (device : Device) (b : Bool) (n : ℚ)
    (hp : E.parse message = some (.obj [("r", .str "lights"), ("id", .str id),
      ("state", .obj [("on", .bool b), ("bri", .num n)])]))
    (hd : getDevice app "lights" id = some device)
    (h1 : "onoff" ∈ device.getCapabilities) (h2 : "dim" ∈ device.getCapabilities) :
    (handleMessage E app message).error = none ∧
    ∃ after, getDevice (handleMessage E app message).app "lights" id = some after ∧
      after.calls "onoff" = .bool b :: device.calls "onoff" ∧
      after.calls "dim" = .num (n / 255) :: device.calls "dim" ∧
      (device.driver ≠ .genericBlinds →
        after.getCapabilityValue "onoff" = .bool b ∧
          after.getCapabilityValue "dim" = .num (n / 255)) ∧
      (device.driver = .genericBlinds →
        after.getCapabilityValue "onoff" = .bool (!b) ∧
          after.getCapabilityValue "dim" = .num (1 - n / 255)) := by
  have hm := handleMessage_state E app message _ device hp rfl hd rfl
  have hu := updateState_on_bri E device b n false h1 h2
  have hg : (JsVal.obj [("r", .str "lights"), ("id", .str id),
      ("state", .obj [("on", .bool b), ("bri", .num n)])]).get "state"
      = .obj [("on", .bool b), ("bri", .num n)] := rfl
  have hr : JsVal.toKey E ((JsVal.obj [("r", .str "lights"), ("id", .str id),
      ("state", .obj [("on", .bool b), ("bri", .num n)])]).get "r") = "lights" := rfl
  have hi : JsVal.toKey E ((JsVal.obj [("r", .str "lights"), ("id", .str id),
      ("state", .obj [("on", .bool b), ("bri", .num n)])]).get "id") = id := rfl
  rw [hg, hr, hi] at hm
  rw [hm, hu]
  refine ⟨rfl, (device.setCapabilityValue E "onoff" (.bool b)).setCapabilityValue E "dim"
    (.num (n / 255)), ?_, ?_, ?_, ?_, ?_⟩
  · rw [getDevice_afterTranslation, if_pos ⟨rfl, rfl⟩, hd]
    rfl
  · rw [Device.calls_setCapabilityValue, if_neg (by decide), Device.calls_setCapabilityValue,
      if_pos rfl]
  · rw [Device.calls_setCapabilityValue, if_pos rfl, Device.calls_setCapabilityValue,
      if_neg (by decide)]
  · intro hdr
    refine ⟨?_, ?_⟩
    · show Device.capabilityValues _ "onoff" = _
      rw [Device.setCapabilityValue_values_of_ne _ _ _ _ (by decide),
        Device.values_setCapabilityValue_self E device _ _ hdr]
    · exact Device.values_setCapabilityValue_self E _ _ _
        (by rw [Device.setCapabilityValue_driver]; exact hdr)
  · intro hdr
    simp [Device.getCapabilityValue, Device.setCapabilityValue, Device.record,
      Device.superSetCapabilityValue, hdr, JsVal.not, JsVal.truthy, JsVal.rsub, JsVal.toNumber,
      JsVal.ofNumber, Function.update]

/-- C21 at the input of the specification: the light 3 of the framework class, `on` true
and `bri` 127. -/
theorem light_message_sets_onoff_and_dim_example :
    ∃ after, getDevice (handleMessage Env.messages App.oneLight lightMessageText).app "lights"
        "3" = some after ∧
      after.getCapabilityValue "onoff" = .bool true ∧
      after.getCapabilityValue "dim" = .num (127 / 255) := by
  obtain ⟨after, h1, _, _, h2, _⟩ := (light_message_sets_onoff_and_dim Env.messages App.oneLight
    lightMessageText "3" (Device.fresh ["onoff", "dim"]) true 127 rfl rfl (by decide)
    (by decide)).2
  exact ⟨after, h1, h2 (by decide)⟩

/-! ## A battery message -/

theorem updateConfig_battery (E : Env) (device : Device) (v : JsVal) (initial : Bool)
    (h : "measure_battery" ∈ device.getCapabilities) :
    updateConfig E device (.obj [("battery", v)]) initial
      = ⟨device.setCapabilityValue E "measure_battery" v, none⟩ := by
  have hc : device.capabilities.contains "measure_battery" = true := by
    simpa using h
  have hk : ∀ k, (JsVal.obj [("battery", v)]).hasOwnProperty k = (k == "battery") := by
    intro k
    simp only [JsVal.hasOwnProperty, List.lookup]
    cases h1 : k == "battery" <;> simp
  have hg : (JsVal.obj [("battery", v)]).get "battery" = v := rfl
  have hat : updateConfig.attributes E device.capabilities (.obj [("battery", v)]) device
      = device.setCapabilityValue E "measure_battery" v := by
    unfold updateConfig.attributes
    simp only [hk, Device.onlyIf_eq, hc, hg]
    simp
  have hre : ∀ d, updateConfig.reachable (.obj [("battery", v)]) d = d := by
    intro d
    simp [updateConfig.reachable, hk, Device.onlyIf]
  simp only [updateConfig, JsVal.isNullish, Bool.false_eq_true, if_false, Device.getCapabilities,
    hat, hre]

theorem Device.setCapabilityValue_stores (E : Env) (d : Device) (n : String) (v : JsVal)
    (h : d.driver ≠ .genericBlinds) :
    (d.setCapabilityValue E n v).capabilityValues = Function.update d.capabilityValues n v := by
  simp only [Device.setCapabilityValue, Device.record, Device.superSetCapabilityValue]
  split
  · rfl
  · simp_all
  · split <;> rfl

/-- C22: for a registered sensor that declares `measure_battery` and any value `v`,
`handleMessage` on the stream message with the config `battery` = v throws nothing and
leaves the sensor with `measure_battery` = v, every other capability value, every setting,
the availability and the declared capabilities as they were; the same message once more
leaves capability values, settings and availability as they are. The sensor is of a
class that stores what it is given: the class `GenericBlinds`, which does not, is a class
of lights. -/
theorem battery_message_sets_measure_battery (E : Env) (app : App) (message id : String)
    (device : Device) (v : JsVal)
    (hp : E.parse message = some (.obj [("r", .str "sensors"), ("id", .str id),
      ("config", .obj [("battery", v)])]))
    (hd : getDevice app "sensors" id = some device)
    (hcap : "measure_battery" ∈ device.getCapabilities)
    (hdr : device.driver ≠ .genericBlinds) :
    (handleMessage E app message).error = none ∧
    ∃ after, getDevice (handleMessage E app message).app "sensors" id = some after ∧
      after.getCapabilityValue "measure_battery" = v ∧
      (∀ name, name ≠ "measure_battery" →
        after.getCapabilityValue name = device.getCapabilityValue name) ∧
      after.settings = device.settings ∧ after.available = device.available ∧
      after.capabilities = device.capabilities ∧
      (handleMessage E (handleMessage E app message).app message).error = none ∧
      ∃ again, getDevice (handleMessage E (handleMessage E app message).app message).app
          "sensors" id = some again ∧
        again.capabilityValues = after.capabilityValues ∧ again.settings = after.settings ∧
        again.available = after.available := by
  have hm : ∀ (a : App) (d : Device), getDevice a "sensors" id = some d →
      "measure_battery" ∈ d.getCapabilities →
      handleMessage E a message
        = a.afterTranslation "sensors" id ⟨d.setCapabilityValue E "measure_battery" v, none⟩ := by
    intro a d had hcd
    have h := handleMessage_config E a message _ d hp rfl had rfl rfl rfl
    have hg : (JsVal.obj [("r", .str "sensors"), ("id", .str id),
        ("config", .obj [("battery", v)])]).get "config" = .obj [("battery", v)] := rfl
    have hr : JsVal.toKey E ((JsVal.obj [("r", .str "sensors"), ("id", .str id),
        ("config", .obj [("battery", v)])]).get "r") = "sensors" := rfl
    have hi : JsVal.toKey E ((JsVal.obj [("r", .str "sensors"), ("id", .str id),
        ("config", .obj [("battery", v)])]).get "id") = id := rfl
    rw [hg, hr, hi, updateConfig_battery E d v false hcd] at h
    exact h
  have h1 := hm app device hd hcap
  have hafter : getDevice (handleMessage E app message).app "sensors" id
      = some (device.setCapabilityValue E "measure_battery" v) := by
    rw [h1, getDevice_afterTranslation, if_pos ⟨rfl, rfl⟩, hd]
    rfl
  have h2 := hm (handleMessage E app message).app _ hafter
    (by rw [Device.getCapabilities, Device.setCapabilityValue_capabilities]; exact hcap)
  have hs1 := Device.setCapabilityValue_stores E device "measure_battery" v hdr
  have hs2 := Device.setCapabilityValue_stores E
    (device.setCapabilityValue E "measure_battery" v) "measure_battery" v
    (by rw [Device.setCapabilityValue_driver]; exact hdr)
  refine ⟨by rw [h1]; rfl, _, hafter, ?_, ?_, ?_, ?_, ?_, by rw [h2]; rfl,
    (device.setCapabilityValue E "measure_battery" v).setCapabilityValue E "measure_battery" v,
    ?_, ?_, ?_, ?_⟩
  · show Device.capabilityValues _ "measure_battery" = v
    rw [hs1]; simp
  · intro name hn
    show Device.capabilityValues _ name = device.capabilityValues name
    rw [hs1]; simp [hn]
  · exact Device.setCapabilityValue_settings E device _ _
  · exact Device.setCapabilityValue_available E device _ _
  · exact Device.setCapabilityValue_capabilities E device _ _
  · rw [h2, getDevice_afterTranslation, if_pos ⟨rfl, rfl⟩, hafter]
    rfl
  · rw [hs2, hs1]; simp
  · rw [Device.setCapabilityValue_settings]
  · rw [Device.setCapabilityValue_available]

/-- C22 at the input of the specification: the sensor 7 and the battery level 88. -/
theorem battery_message_sets_measure_battery_example :
    ∃ after, getDevice (handleMessage Env.messages App.batterySensor batteryMessageText).app
        "sensors" "7" = some after ∧
      after.getCapabilityValue "measure_battery" = .num 88 := by
  obtain ⟨after, h1, h2, _⟩ := (battery_message_sets_measure_battery Env.messages
    App.batterySensor batteryMessageText "7" (Device.fresh ["measure_battery"]) (.num 88)
    rfl rfl (by decide) (by decide)).2
  exact ⟨after, h1, h2⟩

/-! ## The air quality -/

theorem updateState.colour_without_mode (E : Env) (caps : List String) (state : JsVal)
    (d : Device) (h : state.hasOwnProperty "colormode" = false) :
    updateState.colour E caps state d = .ok d := by
  unfold updateState.colour
  simp only [h, Bool.and_false, Bool.false_and, Bool.false_eq_true, if_false]
  rfl

theorem updateState.attributes_calls_voc (E : Env) (caps : List String)
    (state : JsVal) (d : Device) :
    (updateState.attributes E caps state d).calls "measure_voc" = d.calls "measure_voc" := by
  unfold updateState.attributes
  simp only [Device.onlyIf_eq, Device.calls_ite, Device.calls_setCapabilityValue,
    Device.calls_handleAlertState, Device.calls_setAvailable, Device.calls_setUnavailable,
    Device.calls_trigger, ite_self]
  simp

theorem updateState.rest_calls_voc (E : Env) (caps : List String) (state : JsVal)
    (d : Device) :
    (updateState.rest E caps state d).calls "measure_voc" =
      if (state.hasOwnProperty "airqualityppb" && deviceSupports caps ["measure_voc"]) = true
        then JsVal.undefined :: d.calls "measure_voc"
      else d.calls "measure_voc" := by
  unfold updateState.rest
  simp only [Device.onlyIf_eq, Device.calls_ite, Device.calls_setCapabilityValue,
    Device.calls_setSettings, ite_self]
  simp

/-- C23: the value of `airqualityppb` is not handed on. For a device that declares
`measure_voc` and a payload with `airqualityppb` and without colour mode, so that no
colour statement ends the function, `updateState` throws nothing and calls
`setCapabilityValue('measure_voc')` once, without a value: the value of the call is
`undefined`, and that is what a device of a class that stores what it is given holds
afterwards, whatever the payload says. -/
theorem voc_value_is_dropped (E : Env) (device : Device) (payload : List (String × JsVal))
    (initial : Bool) (hv : (JsVal.obj payload).hasOwnProperty "airqualityppb" = true)
    (hcap : "measure_voc" ∈ device.getCapabilities)
    (hmode : (JsVal.obj payload).hasOwnProperty "colormode" = false) :
    (updateState E device (.obj payload) initial).error = none ∧
    (updateState E device (.obj payload) initial).device.calls "measure_voc"
      = .undefined :: device.calls "measure_voc" ∧
    (device.driver ≠ .genericBlinds →
      (updateState E device (.obj payload) initial).device.getCapabilityValue "measure_voc"
        = .undefined) := by
  have hu : updateState E device (.obj payload) initial
      = ⟨updateState.rest E device.capabilities (.obj payload)
          (updateState.attributes E device.capabilities (.obj payload)
            (updateState.events (.obj payload) initial device)), none⟩ := by
    simp only [updateState, JsVal.isNullish, Bool.false_eq_true, if_false,
      Device.getCapabilities, updateState.colour_without_mode E _ _ _ hmode]
    rfl
  have hc : (updateState E device (.obj payload) initial).device.calls "measure_voc"
      = .undefined :: device.calls "measure_voc" := by
    rw [hu]
    show (updateState.rest E device.capabilities (.obj payload) _).calls "measure_voc" = _
    rw [updateState.rest_calls_voc, updateState.attributes_calls_voc, updateState.events_calls,
      hv, deviceSupports_single device.capabilities _ hcap]
    rfl
  refine ⟨by rw [hu], hc, fun hd => ?_⟩
  exact Sinks.stores_head (updateState_sinks E device (.obj payload) initial) _ hd _ _ hc
    (le_refl _)

/-- C23 at the failing input: a device that declares `measure_voc` and the payload with
`airqualityppb` = 42; the capability holds `undefined`, not 42. -/
theorem voc_value_is_dropped_example :
    (updateState Env.fixed (Device.fresh ["measure_voc"]) (.obj [("airqualityppb", .num 42)])
        false).device.getCapabilityValue "measure_voc" = .undefined :=
  (voc_value_is_dropped Env.fixed (Device.fresh ["measure_voc"]) [("airqualityppb", .num 42)]
    false rfl (by decide) rfl).2.2 (by decide)

/-! ## The update check -/

theorem Char.isDigit_bounds (c : Char) (h : c.isDigit = true) :
    48 ≤ c.toNat ∧ c.toNat ≤ 57 := by
  simp only [Char.isDigit, Bool.and_eq_true, decide_eq_true_eq] at h
  exact ⟨h.1, h.2⟩

theorem digitValue_of_isDigit (c : Char) (h : c.isDigit = true) :
    digitValue c = some (c.toNat - 48) ∧ c.toNat - 48 < 10 := by
  have hb := Char.isDigit_bounds c h
  refine ⟨by simp [digitValue, h], by omega⟩

theorem not_whiteSpace_of_isDigit (c : Char) (h : c.isDigit = true) :
    strWhiteSpace.contains c.toNat = false := by
  have hb := Char.isDigit_bounds c h
  simp only [strWhiteSpace, List.contains_eq_any_beq, List.any_cons, List.any_nil,
    Bool.or_false, Bool.or_eq_false_iff, beq_eq_false_iff_ne, ne_eq]
  omega

theorem leadingDigits_of_digits (ds : List Char) (h : ∀ c ∈ ds, c.isDigit = true) :
    leadingDigits 10 ds = ds.map fun c => c.toNat - 48 := by
  induction ds with
  | nil => rfl
  | cons c cs ih =>
    have hc := digitValue_of_isDigit c (h c (List.mem_cons_self _ _))
    simp only [leadingDigits, hc.1, hc.2, if_true, List.map_cons,
      ih (fun x hx => h x (List.mem_cons_of_mem _ hx))]

theorem foldl_digits (ds : List Char) (acc : Nat) :
    (ds.map fun c => c.toNat - 48).foldl (fun acc d => acc * 10 + d) acc
      = ds.foldl (fun acc c => acc * 10 + (c.toNat - 48)) acc := by
  induction ds generalizing acc with
  | nil => rfl
  | cons c cs ih => simp only [List.map_cons, List.foldl_cons, ih]

/-- The builtin `parseInt` reads a decimal numeral as its value. -/
theorem parseInt_numeral (ds : List Char) (hne : ds ≠ [])
    (h : ∀ c ∈ ds, c.isDigit = true) : parseInt ds = some (decimalValue ds : ℚ) := by
  cases ds with
  | nil => exact absurd rfl hne
  | cons c cs =>
    have hc : c.isDigit = true := h c (List.mem_cons_self _ _)
    have hw := not_whiteSpace_of_isDigit c hc
    have hminus : ('-' == c) = false := by
      rw [beq_eq_false_iff_ne]
      intro he; rw [← he] at hc; exact absurd hc (by decide)
    have hplus : ('+' == c) = false := by
      rw [beq_eq_false_iff_ne]
      intro he; rw [← he] at hc; exact absurd hc (by decide)
    have hx : startsWith ['0', 'x'] (c :: cs) = false := by
      cases cs with
      | nil => simp [startsWith]
      | cons c2 cs2 =>
        have hc2 : c2.isDigit = true := h c2 (by simp)
        have : ('x' == c2) = false := by
          rw [beq_eq_false_iff_ne]
          intro he; rw [← he] at hc2; exact absurd hc2 (by decide)
        simp [startsWith, this]
    have hX : startsWith ['0', 'X'] (c :: cs) = false := by
      cases cs with
      | nil => simp [startsWith]
      | cons c2 cs2 =>
        have hc2 : c2.isDigit = true := h c2 (by simp)
        have : ('X' == c2) = false := by
          rw [beq_eq_false_iff_ne]
          intro he; rw [← he] at hc2; exact absurd hc2 (by decide)
        simp [startsWith, this]
    have hd : (c :: cs).dropWhile (fun c => strWhiteSpace.contains c.toNat) = c :: cs := by
      rw [List.dropWhile_cons, hw]
      rfl
    have hs1 : startsWith ['-'] (c :: cs) = false := by simp [startsWith, hminus]
    have hs2 : startsWith ['+'] (c :: cs) = false := by simp [startsWith, hplus]
    simp only [parseInt, hd, hs1, hs2, hx, hX, Bool.or_self, Bool.false_eq_true, if_false,
      leadingDigits_of_digits _ h, foldl_digits, decimalValue]
    simp

theorem splitDot_ne_nil (s : List Char) : splitDot s ≠ [] := by
  induction s with
  | nil => simp [splitDot]
  | cons c cs ih =>
    simp only [splitDot]
    split
    · simp
    · split <;> simp

theorem splitDot_numeral (ds : List Char) (h : ∀ c ∈ ds, c.isDigit = true) :
    splitDot ds = [ds] := by
  induction ds with
  | nil => rfl
  | cons c cs ih =>
    have hc : c.isDigit = true := h c (List.mem_cons_self _ _)
    have hdot : (c == '.') = false := by
      rw [beq_eq_false_iff_ne]
      intro he; rw [he] at hc; exact absurd hc (by decide)
    simp only [splitDot, hdot, Bool.false_eq_true, if_false,
      ih (fun x hx => h x (List.mem_cons_of_mem _ hx))]

theorem splitDot_numeral_dot (ds rest : List Char) (h : ∀ c ∈ ds, c.isDigit = true) :
    splitDot (ds ++ '.' :: rest) = ds :: splitDot rest := by
  induction ds with
  | nil => simp [splitDot]
  | cons c cs ih =>
    have hc : c.isDigit = true := h c (List.mem_cons_self _ _)
    have hdot : (c == '.') = false := by
      rw [beq_eq_false_iff_ne]
      intro he; rw [he] at hc; exact absurd hc (by decide)
    have hi := ih (fun x hx => h x (List.mem_cons_of_mem _ hx))
    rw [List.cons_append]
    simp only [splitDot, hdot, Bool.false_eq_true, if_false, hi]

/-- The weight the code gives to the version `a.b.c`. -/
theorem versionWeight_versionText (a b c : List Char) (ha : a ≠ []) (hb : b ≠ [])
    (hc : c ≠ []) (da : ∀ x ∈ a, x.isDigit = true) (db : ∀ x ∈ b, x.isDigit = true)
    (dc : ∀ x ∈ c, x.isDigit = true) :
    versionWeight (versionText a b c)
      = some ((decimalValue a : ℚ) * 100 + (decimalValue b : ℚ) * 10 + (decimalValue c : ℚ)) := by
  have hs : splitDot (versionText a b c).toList = [a, b, c] := by
    simp only [versionText, String.toList]
    rw [splitDot_numeral_dot a _ da, splitDot_numeral_dot b _ db, splitDot_numeral c dc]
  simp only [versionWeight, versionPart, hs, List.get?_cons_zero, List.get?_cons_succ,
    Option.getD_some, parseInt_numeral a ha da, parseInt_numeral b hb db,
    parseInt_numeral c hc dc]

theorem updateAvailable_versionText (a b c x y z : List Char) (ha : a ≠ []) (hb : b ≠ [])
    (hc : c ≠ []) (hx : x ≠ []) (hy : y ≠ []) (hz : z ≠ [])
    (da : ∀ k ∈ a, k.isDigit = true) (db : ∀ k ∈ b, k.isDigit = true)
    (dc : ∀ k ∈ c, k.isDigit = true) (dx : ∀ k ∈ x, k.isDigit = true)
    (dy : ∀ k ∈ y, k.isDigit = true) (dz : ∀ k ∈ z, k.isDigit = true) :
    updateAvailable (versionText a b c) (versionText x y z)
      = decide (decimalValue a * 100 + decimalValue b * 10 + decimalValue c
          < decimalValue x * 100 + decimalValue y * 10 + decimalValue z) := by
  simp only [updateAvailable, versionWeight_versionText a b c ha hb hc da db dc,
    versionWeight_versionText x y z hx hy hz dx dy dz]
  congr 1
  rw [eq_iff_iff]
  exact_mod_cast Iff.rfl

theorem replaceFirst_absent (p : Char) (ps r s : List Char) (h : p ∉ s) :
    replaceFirst (p :: ps) r s = s := by
  induction s with
  | nil => rfl
  | cons c cs ih =>
    have hpc : (p == c) = false := by
      rw [beq_eq_false_iff_ne]
      intro he
      exact h (he ▸ List.mem_cons_self _ _)
    simp only [replaceFirst, startsWith, hpc, Bool.false_and, Bool.false_eq_true, if_false,
      ih (fun hm => h (List.mem_cons_of_mem _ hm))]

theorem mem_versionText (a b c : List Char) (da : ∀ k ∈ a, k.isDigit = true)
    (db : ∀ k ∈ b, k.isDigit = true) (dc : ∀ k ∈ c, k.isDigit = true) (k : Char)
    (hk : k ∈ (versionText a b c).toList) : k.isDigit = true ∨ k = '.' := by
  simp only [versionText, String.toList, List.mem_append, List.mem_cons] at hk
  rcases hk with h | h | h | h | h
  · exact .inl (da k h)
  · exact .inr h
  · exact .inl (db k h)
  · exact .inr h
  · exact .inl (dc k h)

/-- On the text of a version the replacements of line 433 change nothing. -/
theorem getDeconzUpdates.nextRaw_versionText (a b c : List Char)
    (da : ∀ k ∈ a, k.isDigit = true) (db : ∀ k ∈ b, k.isDigit = true)
    (dc : ∀ k ∈ c, k.isDigit = true) :
    getDeconzUpdates.nextRaw (versionText a b c) = versionText a b c := by
  have hno : ∀ p : Char, p.isDigit = false → p ≠ '.' → p ∉ (versionText a b c).toList := by
    intro p hp hd hm
    rcases mem_versionText a b c da db dc p hm with h | h
    · rw [hp] at h; cases h
    · exact hd h
  have h1 : replaceFirst "_stable".toList [] (versionText a b c).toList
      = (versionText a b c).toList :=
    replaceFirst_absent '_' _ _ _ (hno _ (by decide) (by decide))
  have h2 : replaceFirst ['_'] ['.'] (versionText a b c).toList
      = (versionText a b c).toList :=
    replaceFirst_absent '_' _ _ _ (hno _ (by decide) (by decide))
  have h3 : replaceFirst ['V'] [] (versionText a b c).toList = (versionText a b c).toList :=
    replaceFirst_absent 'V' _ _ _ (hno _ (by decide) (by decide))
  have h4 : replaceFirst ['v'] [] (versionText a b c).toList = (versionText a b c).toList :=
    replaceFirst_absent 'v' _ _ _ (hno _ (by decide) (by decide))
  simp only [getDeconzUpdates.nextRaw, h1, h2, h3, h4]
  rfl

theorem JsVal.isNullish_of_get_str {v : JsVal} {k s : String} (h : v.get k = .str s) :
    v.isNullish = false := by
  cases v <;> simp_all [JsVal.get, JsVal.isNullish]

/-- C24: for the current version `a.b.c` and the latest version `x.y.z`, numerals all,
`getDeconzUpdates` and `getDeconzDockerUpdates` compute the flag `updateAvailable` as
`a * 100 + b * 10 + c < x * 100 + y * 10 + z`. That is the order of the versions when
`b`, `c`, `y` and `z` are at most 9; a minor or build number of two digits spills into
the next weight, so that the version 2.5.20 counts as 270 and the version 2.6.0 as 260. -/
theorem update_check_weighs_digits (E : Env) (config : JsVal) (release : String)
    (parsedRelease : JsVal) (a b c x y z : List Char) (ha : IsNumeral a) (hb : IsNumeral b)
    (hc : IsNumeral c) (hx : IsNumeral x) (hy : IsNumeral y) (hz : IsNumeral z)
    (hconfig : config.get "swversion" = .str (versionText a b c))
    (hp : E.parse release = some parsedRelease) :
    (parsedRelease.get "tag_name" = .str (versionText x y z) →
      getDeconzUpdates E config release
        = .ok (decide (decimalValue a * 100 + decimalValue b * 10 + decimalValue c
            < decimalValue x * 100 + decimalValue y * 10 + decimalValue z))) ∧
    (parsedRelease.get "version" = .str (versionText x y z) →
      getDeconzDockerUpdates E config release
        = .ok (decide (decimalValue a * 100 + decimalValue b * 10 + decimalValue c
            < decimalValue x * 100 + decimalValue y * 10 + decimalValue z))) ∧
    (decimalValue b ≤ 9 → decimalValue c ≤ 9 → decimalValue y ≤ 9 → decimalValue z ≤ 9 →
      (decimalValue a * 100 + decimalValue b * 10 + decimalValue c
          < decimalValue x * 100 + decimalValue y * 10 + decimalValue z ↔
        decimalValue a < decimalValue x ∨
          (decimalValue a = decimalValue x ∧
            (decimalValue b < decimalValue y ∨
              (decimalValue b = decimalValue y ∧ decimalValue c < decimalValue z))))) := by
  have hu := updateAvailable_versionText a b c x y z ha.1 hb.1 hc.1 hx.1 hy.1 hz.1
    ha.2 hb.2 hc.2 hx.2 hy.2 hz.2
  have hcn := JsVal.isNullish_of_get_str hconfig
  refine ⟨?_, ?_, ?_⟩
  · intro ht
    simp only [getDeconzUpdates, hp, JsVal.isNullish_of_get_str ht, Bool.false_eq_true,
      if_false, ht, hcn, hconfig, getDeconzUpdates.nextRaw_versionText x y z hx.2 hy.2 hz.2,
      hu]
  · intro ht
    simp only [getDeconzDockerUpdates, hp, JsVal.isNullish_of_get_str ht, Bool.false_eq_true,
      if_false, ht, hcn, hconfig, hu]
  · intro h1 h2 h3 h4
    omega

/-- C24 at the failing input: the gateway runs 2.5.20 and the latest release is 2.6.0;
the flag is false although 2.5.20 is the older version. -/
theorem update_check_weighs_digits_example :
    getDeconzDockerUpdates Env.releases (.obj [("swversion", .str "2.5.20")]) dockerReleaseText
      = .ok false ∧
    decimalValue ['2'] = decimalValue ['2'] ∧ decimalValue ['5'] < decimalValue ['6'] :=
  ⟨(update_check_weighs_digits Env.releases (.obj [("swversion", .str "2.5.20")])
      dockerReleaseText dockerRelease ['2'] ['5'] ['2', '0'] ['2'] ['6'] ['0']
      ⟨by decide, by decide⟩ ⟨by decide, by decide⟩ ⟨by decide, by decide⟩
      ⟨by decide, by decide⟩ ⟨by decide, by decide⟩ ⟨by decide, by decide⟩ rfl rfl).2.1 rfl,
    rfl, by decide⟩

/-! ## The pairing of groups -/

theorem filterEntries_ok (p : String × JsVal → Except JsError Bool)
    (q : String × JsVal → Bool) (l : List (String × JsVal))
    (h : ∀ e ∈ l, p e = .ok (q e)) : filterEntries p l = .ok (l.filter q) := by
  induction l with
  | nil => rfl
  | cons e es ih =>
    simp only [filterEntries, h e (List.mem_cons_self _ _),
      ih (fun x hx => h x (List.mem_cons_of_mem _ hx)), List.filter_cons]

theorem mapEntries_ok {β : Type} (f : String × JsVal → Except JsError β)
    (g : String × JsVal → β) (l : List (String × JsVal))
    (h : ∀ e ∈ l, f e = .ok (g e)) : mapEntries f l = .ok (l.map g) := by
  induction l with
  | nil => rfl
  | cons e es ih =>
    simp only [mapEntries, h e (List.mem_cons_self _ _),
      ih (fun x hx => h x (List.mem_cons_of_mem _ hx)), List.map_cons]

theorem forall₂_map_of_forall {α β : Type} (R : α → β → Prop) (g : α → β) (l : List α)
    (h : ∀ e ∈ l, R e (g e)) : List.Forall₂ R l (l.map g) := by
  induction l with
  | nil => exact .nil
  | cons e es ih =>
    exact .cons (h e (List.mem_cons_self _ _)) (ih fun x hx => h x (List.mem_cons_of_mem _ hx))

theorem matchTable_le (k : String) (i : Nat) (h : matchTable.lookup k = some i) : i ≤ 3 := by
  simp only [matchTable, List.lookup] at h
  repeat' split at h
  all_goals (first | (cases h; omega) | cases h)

theorem capabilitiesArray_mono (i m : Nat) (him : i ≤ m) (hm : m ≤ 3)
    (required caps : List String) (hi : capabilitiesArray.get? i = some required)
    (hc : capabilitiesArray.get? m = some caps) : ∀ c ∈ required, c ∈ caps := by
  have hi3 : i ≤ 3 := le_trans him hm
  interval_cases m <;> interval_cases i <;>
    simp only [capabilitiesArray, List.get?, Option.some.injEq] at hi hc <;>
    subst hi <;> subst hc <;> first | omega | (intro c hc; simp at hc ⊢; tauto)

theorem mathMax_fold (gl : List (Option Nat)) (acc : Nat) (hacc : acc ≤ 3)
    (hall : ∀ x ∈ gl, ∃ i, x = some i ∧ i ≤ 3) :
    ∃ m, gl.foldl
        (fun acc x =>
          match acc, x with
          | some a, some b => some (max a b)
          | _, _ => none)
        (some acc) = some m ∧
      m ≤ 3 ∧ acc ≤ m ∧ ∀ i, some i ∈ gl → i ≤ m := by
  induction gl generalizing acc with
  | nil => exact ⟨acc, rfl, hacc, le_refl _, fun i hi => by simp at hi⟩
  | cons x xs ih =>
    obtain ⟨i, rfl, hi3⟩ := hall x (List.mem_cons_self _ _)
    obtain ⟨m, hm, hm3, hle, hmem⟩ := ih (max acc i) (max_le hacc hi3)
      (fun y hy => hall y (List.mem_cons_of_mem _ hy))
    refine ⟨m, by simpa using hm, hm3, le_trans (le_max_left _ _) hle, ?_⟩
    intro j hj
    rcases List.mem_cons.1 hj with h | h
    · cases h
      exact le_trans (le_max_right _ _) hle
    · exact hmem j h

theorem mathMax_spec (gl : List (Option Nat)) (hne : gl ≠ [])
    (hall : ∀ x ∈ gl, ∃ i, x = some i ∧ i ≤ 3) :
    ∃ m, onPairListDevices.mathMax gl = some m ∧ m ≤ 3 ∧ ∀ i, some i ∈ gl → i ≤ m := by
  obtain ⟨m, hm, hm3, _, hmem⟩ := mathMax_fold gl 0 (by omega) hall
  refine ⟨m, ?_, hm3, hmem⟩
  have : gl.isEmpty = false := by
    cases gl with
    | nil => exact absurd rfl hne
    | cons _ _ => rfl
  simp only [onPairListDevices.mathMax, this, Bool.false_eq_true, if_false]
  exact hm

theorem capabilitiesArray_get (m : Nat) (hm : m ≤ 3) :
    ∃ caps, capabilitiesArray.get? m = some caps ∧ caps ∈ capabilitiesArray := by
  interval_cases m <;> exact ⟨_, rfl, by simp [capabilitiesArray]⟩

theorem any_strictEqStr (items : List JsVal) (k : String) :
    (items.any fun item => item.strictEqStr k) = true ↔ JsVal.str k ∈ items := by
  induction items with
  | nil => simp
  | cons x xs ih =>
    rw [List.any_cons, Bool.or_eq_true, ih, List.mem_cons]
    constructor
    · rintro (h | h)
      · left
        cases x <;> simp_all [JsVal.strictEqStr]
      · exact .inr h
    · rintro (h | h)
      · left
        rw [← h]
        simp [JsVal.strictEqStr]
      · exact .inr h

theorem onPairListDevices.hasLights_array (E : Env) (group : JsVal) (items : List JsVal)
    (h : group.get "lights" = .arr items) :
    onPairListDevices.hasLights E group = .ok (!(groupMembers group).isEmpty) := by
  have hn : group.isNullish = false := by
    cases group <;> simp_all [JsVal.get, JsVal.isNullish]
  have hl : (JsVal.arr items).get "length" = .num items.length := rfl
  have hln : (JsVal.arr items).isNullish = false := rfl
  simp only [onPairListDevices.hasLights, hn, h, hln, Bool.false_eq_true, if_false,
    hl, groupMembers, JsVal.gt, JsVal.toPrimitive, JsVal.isObject, JsVal.toNumber]
  cases items with
  | nil => simp
  | cons x xs =>
    have hpos : (0 : ℚ) < (xs.length : ℚ) + 1 := by
      exact_mod_cast Nat.succ_pos _
    simp [hpos]

theorem onPairListDevices.groupLights_array (E : Env) (lights : List (String × JsVal))
    (items : List JsVal) (hl : ∀ e ∈ lights, e.2.isNullish = false) :
    onPairListDevices.groupLights E (.obj lights) (.arr items)
      = .ok ((lights.filter fun l => items.any fun item => item.strictEqStr l.1).map
          fun l => matchTable.lookup (JsVal.toKey E (l.2.get "type"))) := by
  have h1 := filterEntries_ok
    (fun entry => onPairListDevices.includes (.arr items) entry.1)
    (fun l => items.any fun item => item.strictEqStr l.1) lights (fun e _ => rfl)
  have h2 := mapEntries_ok (fun entry => onPairListDevices.matchType E entry.2)
    (fun l => matchTable.lookup (JsVal.toKey E (l.2.get "type")))
    (lights.filter fun l => items.any fun item => item.strictEqStr l.1)
    (fun e he => by
      simp only [onPairListDevices.matchType, hl e (List.mem_of_mem_filter he),
        Bool.false_eq_true, if_false])
  simp only [onPairListDevices.groupLights, JsVal.entries, h1, h2]

/-- C25: for a groups listing whose groups hold their members in an array `lights`, and
a lights listing, `onPairListDevices` hands to its callback one device for each group
with at least one member, in the order of the listing and with the key of the group as
its id, and none for a group without members. When every member of such a group is the
key of a light of the lights listing and the type of every such light is a name of
`matchTable`, the capabilities offered for the group are an entry of `capabilitiesArray`
that contains every capability of the entry that `matchTable` assigns to the type of any
of its member lights. -/
theorem pairing_offers_groups_with_lights (E : Env) (groups lights : List (String × JsVal))
    (groupError lightError : JsVal) (hge : groupError.truthy = false)
    (hle : lightError.truthy = false)
    (hgroups : ∀ e ∈ groups, ∃ items, e.2.get "lights" = .arr items)
    (hlights : ∀ e ∈ lights, e.2.isNullish = false) :
    ∃ offered,
      onPairListDevices E groupError (.obj groups) lightError (.obj lights)
        = .devices offered ∧
      List.Forall₂
        (fun (e : String × JsVal) (d : PairDevice) =>
          d.settingsId = e.1 ∧ d.name = e.2.get "name" ∧ d.dataId = e.2.get "etag" ∧
          ((∀ item ∈ groupMembers e.2, ∃ id light, item = .str id ∧ (id, light) ∈ lights) →
            (∀ l ∈ lights, JsVal.str l.1 ∈ groupMembers e.2 →
              ∃ i, matchTable.lookup (JsVal.toKey E (l.2.get "type")) = some i) →
            ∃ caps, d.capabilities = some caps ∧ caps ∈ capabilitiesArray ∧
              ∀ l ∈ lights, JsVal.str l.1 ∈ groupMembers e.2 →
                ∀ i required,
                  matchTable.lookup (JsVal.toKey E (l.2.get "type")) = some i →
                  capabilitiesArray.get? i = some required → ∀ c ∈ required, c ∈ caps))
        (groups.filter fun e => !(groupMembers e.2).isEmpty) offered := by
  let g : String × JsVal → PairDevice := fun e =>
    { name := e.2.get "name"
      dataId := e.2.get "etag"
      settingsId := e.1
      capabilities :=
        (onPairListDevices.mathMax
          ((lights.filter fun l =>
            (groupMembers e.2).any fun item => item.strictEqStr l.1).map
              fun l => matchTable.lookup (JsVal.toKey E (l.2.get "type")))).bind
          fun i => capabilitiesArray.get? i }
  have h1 := filterEntries_ok (fun entry => onPairListDevices.hasLights E entry.2)
    (fun e => !(groupMembers e.2).isEmpty) groups (fun e he => by
      obtain ⟨items, hi⟩ := hgroups e he
      exact onPairListDevices.hasLights_array E e.2 items hi)
  have h2 := mapEntries_ok (onPairListDevices.device E (.obj lights))
    g (groups.filter fun e => !(groupMembers e.2).isEmpty) (fun e he => by
      obtain ⟨items, hi⟩ := hgroups e (List.mem_of_mem_filter he)
      have hm : groupMembers e.2 = items := by simp only [groupMembers, hi]
      simp only [onPairListDevices.device, hi,
        onPairListDevices.groupLights_array E lights items hlights, g, hm])
  refine ⟨(groups.filter fun e => !(groupMembers e.2).isEmpty).map g, ?_, ?_⟩
  · simp only [onPairListDevices, hge, hle, Bool.false_eq_true, if_false,
      onPairListDevices.devicesObjects, JsVal.entries, h1, h2]
  · refine forall₂_map_of_forall _ g _ ?_
    intro e he
    refine ⟨rfl, rfl, rfl, ?_⟩
    intro hA hB
    have hne : (groupMembers e.2).isEmpty = false := by
      have := (List.mem_filter.1 he).2
      simpa using this
    have hgl_ne : ((lights.filter fun l =>
        (groupMembers e.2).any fun item => item.strictEqStr l.1).map
          fun l => matchTable.lookup (JsVal.toKey E (l.2.get "type"))) ≠ [] := by
      cases hmem : groupMembers e.2 with
      | nil => rw [hmem] at hne; cases hne
      | cons item rest =>
        obtain ⟨id, light, hid, hl⟩ := hA item (by rw [hmem]; exact List.mem_cons_self _ _)
        have hin : (id, light) ∈ lights.filter fun l =>
            (item :: rest).any fun item => item.strictEqStr l.1 := by
          rw [List.mem_filter]
          refine ⟨hl, ?_⟩
          rw [any_strictEqStr, ← hid]
          exact List.mem_cons_self _ _
        intro hnil
        rw [List.map_eq_nil_iff] at hnil
        rw [hnil] at hin
        cases hin
    have hall : ∀ x ∈ ((lights.filter fun l =>
        (groupMembers e.2).any fun item => item.strictEqStr l.1).map
          fun l => matchTable.lookup (JsVal.toKey E (l.2.get "type"))),
        ∃ i, x = some i ∧ i ≤ 3 := by
      intro x hx
      obtain ⟨l, hl, rfl⟩ := List.mem_map.1 hx
      rw [List.mem_filter, any_strictEqStr] at hl
      obtain ⟨i, hi⟩ := hB l hl.1 hl.2
      exact ⟨i, hi, matchTable_le _ i hi⟩
    obtain ⟨m, hm, hm3, hmax⟩ := mathMax_spec _ hgl_ne hall
    obtain ⟨caps, hcaps, hcmem⟩ := capabilitiesArray_get m hm3
    refine ⟨caps, ?_, hcmem, ?_⟩
    · show Option.bind _ _ = some caps
      rw [hm]
      exact hcaps
    · intro l hl hlm i required hi hreq
      have hin : some i ∈ ((lights.filter fun l =>
          (groupMembers e.2).any fun item => item.strictEqStr l.1).map
            fun l => matchTable.lookup (JsVal.toKey E (l.2.get "type"))) := by
        rw [List.mem_map]
        exact ⟨l, by rw [List.mem_filter, any_strictEqStr]; exact ⟨hl, hlm⟩, hi⟩
      exact capabilitiesArray_mono i m (hmax i hin) hm3 required caps hreq hcaps

/-- C25 at a concrete input: of two groups the one with members is offered, with the
capabilities of its richest member, an extended colour light. -/
theorem pairing_offers_groups_with_lights_example :
    ∃ offered, onPairListDevices Env.fixed .null groupsListing .null lightsListing
        = .devices offered ∧
      offered.map (fun d => (d.settingsId, d.capabilities))
        = [("1", some ["onoff", "dim", "light_temperature", "light_mode", "light_saturation",
            "light_hue"])] := by
  obtain ⟨offered, h, _⟩ := pairing_offers_groups_with_lights Env.fixed
    [("1", .obj [("name", .str "Living room"), ("etag", .str "e1"),
        ("lights", .arr [.str "3", .str "4"])]),
      ("2", .obj [("name", .str "Empty"), ("etag", .str "e2"), ("lights", .arr [])])]
    [("3", .obj [("type", .str "Dimmable light")]),
      ("4", .obj [("type", .str "Extended color light")]),
      ("5", .obj [("type", .str "On/Off light")])]
    .null .null rfl rfl
    (by
      intro e he
      simp only [List.mem_cons, List.mem_singleton, List.not_mem_nil, or_false] at he
      rcases he with rfl | rfl
      · exact ⟨_, rfl⟩
      · exact ⟨_, rfl⟩)
    (by
      intro e he
      simp only [List.mem_cons, List.mem_singleton, List.not_mem_nil, or_false] at he
      rcases he with rfl | rfl | rfl <;> rfl)
  refine ⟨offered, h, ?_⟩
  have h2 : onPairListDevices Env.fixed .null groupsListing .null lightsListing
      = .devices
        [⟨.str "Living room", .str "e1", "1",
          some ["onoff", "dim", "light_temperature", "light_mode", "light_saturation",
            "light_hue"]⟩] := rfl
  have h3 : onPairListDevices Env.fixed .null groupsListing .null lightsListing
      = .devices offered := h
  rw [h2] at h3
  cases h3
  rfl

/-! ## Payloads that shadow `hasOwnProperty` -/

theorem JsVal.callHasOwnProperty_shadowed (v : JsVal) (k : String)
    (hs : v.shadowsHasOwnProperty = true) :
    v.callHasOwnProperty k = .error .typeError := by
  unfold JsVal.callHasOwnProperty
  split
  · rfl
  · simp [hs]

theorem updateState.onAnyState_eq (E : Env) (device : Device) (state : JsVal)
    (initial : Bool) (hs : state.shadowsHasOwnProperty = false) :
    updateState.onAnyState E device state initial = updateState E device state initial := by
  cases hn : state.isNullish with
  | true => simp [updateState.onAnyState, JsVal.callHasOwnProperty, hn, updateState]
  | false => simp [updateState.onAnyState, JsVal.callHasOwnProperty, hn, hs]

theorem updateState.onAnyState_shadowed (E : Env) (device : Device) (state : JsVal)
    (initial : Bool) (hs : state.shadowsHasOwnProperty = true) :
    updateState.onAnyState E device state initial = ⟨device, some .typeError⟩ := by
  simp [updateState.onAnyState, JsVal.callHasOwnProperty_shadowed state _ hs]

theorem updateConfig.onAnyConfig_eq (E : Env) (device : Device) (config : JsVal)
    (initial : Bool) (hs : config.shadowsHasOwnProperty = false) :
    updateConfig.onAnyConfig E device config initial
      = updateConfig E device config initial := by
  cases hn : config.isNullish with
  | true => simp [updateConfig.onAnyConfig, JsVal.callHasOwnProperty, hn, updateConfig]
  | false => simp [updateConfig.onAnyConfig, JsVal.callHasOwnProperty, hn, hs]

theorem updateConfig.onAnyConfig_shadowed (E : Env) (device : Device) (config : JsVal)
    (initial : Bool) (hs : config.shadowsHasOwnProperty = true) :
    updateConfig.onAnyConfig E device config initial = ⟨device, some .typeError⟩ := by
  simp [updateConfig.onAnyConfig, JsVal.callHasOwnProperty_shadowed config _ hs]

theorem updateDeviceInfo.onAnyData_eq (E : Env) (device : Device) (data : JsVal)
    (hs : data.shadowsHasOwnProperty = false) :
    updateDeviceInfo.onAnyData E device data = updateDeviceInfo E device data := by
  cases hn : data.isNullish with
  | true => simp [updateDeviceInfo.onAnyData, JsVal.callHasOwnProperty, hn, updateDeviceInfo]
  | false => simp [updateDeviceInfo.onAnyData, JsVal.callHasOwnProperty, hn, hs]

theorem updateDeviceInfo.onAnyData_shadowed (E : Env) (device : Device) (data : JsVal)
    (hs : data.shadowsHasOwnProperty = true) :
    updateDeviceInfo.onAnyData E device data = ⟨device, some .typeError⟩ := by
  simp [updateDeviceInfo.onAnyData, JsVal.callHasOwnProperty_shadowed data _ hs]

theorem updateState.onAnyState_sinks (E : Env) (d : Device) (state : JsVal) (initial : Bool) :
    Sinks E (updateState.allowed d.capabilities state initial) d
      (updateState.onAnyState E d state initial).device := by
  cases hs : state.shadowsHasOwnProperty with
  | true => rw [updateState.onAnyState_shadowed E d state initial hs]; exact Sinks.refl _
  | false =>
    rw [updateState.onAnyState_eq E d state initial hs]
    exact updateState_sinks E d state initial

theorem updateConfig.onAnyConfig_sinks (E : Env) (d : Device) (config : JsVal)
    (initial : Bool) :
    Sinks E (updateConfig.allowed d.capabilities config) d
      (updateConfig.onAnyConfig E d config initial).device := by
  cases hs : config.shadowsHasOwnProperty with
  | true => rw [updateConfig.onAnyConfig_shadowed E d config initial hs]; exact Sinks.refl _
  | false =>
    rw [updateConfig.onAnyConfig_eq E d config initial hs]
    exact updateConfig_sinks E d config initial

/-- C1: on every payload, `updateState` and `updateConfig` call `setCapabilityValue` only
with names the device declares, make no call for a name it does not declare, and leave a
capability value under such a name as it was. That no error is raised fails on a payload
with an own property `hasOwnProperty`: there the first `hasOwnProperty` call of either
method throws a `TypeError`, whatever the device declares, and the device is left as it
was. On every other payload `updateConfig` raises no error, and `updateState` raises one
only on a device that declares both `light_hue` and `light_saturation`: never because a
capability is absent. -/
theorem capability_gating (E : Env) (device : Device) (payload : List (String × JsVal))
    (initial : Bool) :
    (∀ n v,
      Effect.setCapabilityValue n v
          ∈ (updateState.onAnyState E device (.obj payload) initial).device.trace →
      Effect.setCapabilityValue n v ∈ device.trace ∨ n ∈ device.getCapabilities) ∧
    (∀ n, n ∉ device.getCapabilities →
      (updateState.onAnyState E device (.obj payload) initial).device.calls n
        = device.calls n ∧
      (updateState.onAnyState E device (.obj payload) initial).device.capabilityValues n
        = device.capabilityValues n) ∧
    ((updateState.onAnyState E device (.obj payload) initial).error ≠ none →
      (JsVal.obj payload).shadowsHasOwnProperty = true ∨
        ("light_hue" ∈ device.getCapabilities ∧
          "light_saturation" ∈ device.getCapabilities)) ∧
    (∀ n v,
      Effect.setCapabilityValue n v
          ∈ (updateConfig.onAnyConfig E device (.obj payload) initial).device.trace →
      Effect.setCapabilityValue n v ∈ device.trace ∨ n ∈ device.getCapabilities) ∧
    (∀ n, n ∉ device.getCapabilities →
      (updateConfig.onAnyConfig E device (.obj payload) initial).device.calls n
        = device.calls n ∧
      (updateConfig.onAnyConfig E device (.obj payload) initial).device.capabilityValues n
        = device.capabilityValues n) ∧
    (updateConfig.onAnyConfig E device (.obj payload) initial).error
      = (if (JsVal.obj payload).shadowsHasOwnProperty = true then some .typeError
        else none) ∧
    ((JsVal.obj payload).shadowsHasOwnProperty = true →
      updateState.onAnyState E device (.obj payload) initial = ⟨device, some .typeError⟩ ∧
      updateConfig.onAnyConfig E device (.obj payload) initial
        = ⟨device, some .typeError⟩) := by
  refine ⟨?_, ?_, ?_, ?_, ?_, ?_, ?_⟩
  · intro n v h
    rcases (updateState.onAnyState_sinks E device (.obj payload) initial).mem_trace h
      with h1 | h1 | h1
    · exact .inl h1
    · exact .inr h1
    · cases h1
  · intro n hn
    exact ⟨(updateState.onAnyState_sinks E device (.obj payload) initial).calls_eq n
        (fun _ h => hn h),
      (updateState.onAnyState_sinks E device (.obj payload) initial).values_eq n
        (fun _ h => hn h)⟩
  · intro h
    cases hs : (JsVal.obj payload).shadowsHasOwnProperty with
    | true => exact .inl rfl
    | false =>
      right
      rw [updateState.onAnyState_eq E device _ initial hs] at h
      rcases updateState_error E device (.obj payload) initial h with h1 | h1
      · simp [JsVal.isNullish] at h1
      · exact h1
  · intro n v h
    rcases (updateConfig.onAnyConfig_sinks E device (.obj payload) initial).mem_trace h
      with h1 | h1 | h1
    · exact .inl h1
    · exact .inr h1
    · cases h1
  · intro n hn
    exact ⟨(updateConfig.onAnyConfig_sinks E device (.obj payload) initial).calls_eq n
        (fun _ h => hn h),
      (updateConfig.onAnyConfig_sinks E device (.obj payload) initial).values_eq n
        (fun _ h => hn h)⟩
  · cases hs : (JsVal.obj payload).shadowsHasOwnProperty with
    | true =>
      rw [updateConfig.onAnyConfig_shadowed E device _ initial hs]
      simp
    | false =>
      rw [updateConfig.onAnyConfig_eq E device _ initial hs]
      simpa using updateConfig_error E device payload initial
  · intro hs
    exact ⟨updateState.onAnyState_shadowed E device _ initial hs,
      updateConfig.onAnyConfig_shadowed E device _ initial hs⟩

/-- C1 fails at the config with the keys `hasOwnProperty` and `battery`, on a device that
does not declare `measure_battery`: `updateConfig` throws a `TypeError`. So does
`updateState` at the state with the keys `hasOwnProperty` and `on`, on a device that does
not declare `onoff`. Without the key `hasOwnProperty` neither raises an error. -/
theorem shadowed_payload_throws :
    (updateConfig.onAnyConfig Env.fixed (Device.fresh [])
        (.obj [("hasOwnProperty", .num 1), ("battery", .num 5)])).error = some .typeError ∧
    (updateState.onAnyState Env.fixed (Device.fresh [])
        (.obj [("hasOwnProperty", .num 1), ("on", .bool true)])).error = some .typeError ∧
    (updateConfig.onAnyConfig Env.fixed (Device.fresh [])
        (.obj [("battery", .num 5)])).error = none ∧
    (updateState.onAnyState Env.fixed (Device.fresh [])
        (.obj [("on", .bool true)])).error = none :=
  ⟨rfl, rfl, rfl, rfl⟩

/-! ## Messages for any type and id -/

theorem Registry.ofType_setDevice (r : Registry) (type id : String) (d : Device)
    (kind : String) :
    (r.setDevice type id d).ofType kind =
      (r.ofType kind).map fun l => if kind = type then replaceDevice l id d else l := by
  simp only [Registry.setDevice, Registry.ofType]
  by_cases h1 : type = "lights"
  · subst h1
    by_cases h2 : kind = "lights"
    · subst h2; simp
    · by_cases h3 : kind = "sensors"
      · subst h3; simp
      · by_cases h4 : kind = "groups"
        · subst h4; simp
        · simp [h2, h3, h4]
  · by_cases h5 : type = "sensors"
    · subst h5
      by_cases h2 : kind = "lights"
      · subst h2; simp
      · by_cases h3 : kind = "sensors"
        · subst h3; simp
        · by_cases h4 : kind = "groups"
          · subst h4; simp
          · simp [h2, h3, h4]
    · by_cases h6 : type = "groups"
      · subst h6
        by_cases h2 : kind = "lights"
        · subst h2; simp
        · by_cases h3 : kind = "sensors"
          · subst h3; simp
          · by_cases h4 : kind = "groups"
            · subst h4; simp
            · simp [h2, h3, h4]
      · by_cases h2 : kind = "lights"
        · subst h2; simp [h1, h5, h6, Ne.symm h1]
        · by_cases h3 : kind = "sensors"
          · subst h3; simp [h1, h5, h6, Ne.symm h5]
          · by_cases h4 : kind = "groups"
            · subst h4; simp [h1, h5, h6, Ne.symm h6]
            · simp [h1, h5, h6, h2, h3, h4]

theorem lookup_replaceDevice_isSome (l : List (String × Device)) (id k : String)
    (d : Device) : ((replaceDevice l id d).lookup k).isSome = (l.lookup k).isSome := by
  rw [lookup_replaceDevice]
  split
  · next h => subst h; cases l.lookup k <;> rfl
  · rfl

/-- A finding with the device, if it is one, replaced. -/
theorem getDevice.onAnyType_afterTranslation (B : Builtins) (app : App) (type id : String)
    (o : Outcome) (kind k : String) :
    getDevice.onAnyType B (app.afterTranslation type id o).app kind k =
      if kind = type ∧ k = id then
        match getDevice.onAnyType B app type id with
        | .ok (.device _) => .ok (.device o.device)
        | r => r
      else getDevice.onAnyType B app kind k := by
  simp only [App.afterTranslation, getDevice.onAnyType, Registry.ofType_setDevice]
  by_cases hc : kind = type ∧ k = id
  · obtain ⟨h1, h2⟩ := hc
    subst h1 h2
    simp only [and_self, if_true]
    cases hk : app.devices.ofType kind with
    | none =>
      simp only [Option.map_none']
      cases B.inherited kind k <;> rfl
    | some l =>
      simp only [Option.map_some']
      rw [lookup_replaceDevice_isSome]
      by_cases hs : (l.lookup "hasOwnProperty").isSome = true
      · simp only [hs, if_true]
      · simp only [hs, Bool.false_eq_true, if_false]
        rw [lookup_replaceDevice, if_pos rfl]
        cases l.lookup k <;> rfl
  · rw [if_neg hc]
    cases hk : app.devices.ofType kind with
    | none => rfl
    | some l =>
      simp only [Option.map_some']
      by_cases h1 : kind = type
      · subst h1
        have h2 : k ≠ id := fun h => hc ⟨rfl, h⟩
        simp only [if_true]
        rw [lookup_replaceDevice_isSome, lookup_replaceDevice, if_neg h2]
      · simp only [if_neg h1]

theorem getDevice.onAnyType_registered (B : Builtins) (app : App) (type id : String)
    (devices : List (String × Device)) (ht : app.devices.ofType type = some devices)
    (hs : devices.lookup "hasOwnProperty" = none) :
    getDevice.onAnyType B app type id =
      .ok (match getDevice app type id with
        | some device => .device device
        | none => .null) := by
  simp only [getDevice.onAnyType, getDevice, ht, hs, Option.isSome_none, Bool.false_eq_true,
    if_false]
  cases devices.lookup id <;> rfl

/-- C8: `handleMessage` on a parsed message runs one translation at most, on what
`getDevice(data.r, data.id)` returns. On a registered device it runs `updateState` with
`data.state` when that is truthy (as every attribute mapping is), else `updateState` with
`data.action` when that is truthy, else `updateConfig` with `data.config` when that is
truthy, else nothing; the device becomes the result of that one translation and the error
is the one of that translation. When `getDevice` returns `null` the application is left as
it is and nothing is thrown. When `getDevice` returns a value that is no device, a
property of an object that `this.devices` inherits, a truthy such value is handed to the
same one translation, which throws a `TypeError` before any device is touched, and a falsy
one is handed to none. When `getDevice` itself throws, nothing else is done. Every device
under another type or id is left as it is. -/
theorem handleMessage_dispatches_one (B : Builtins) (E : Env) (app : App) (message : String)
    (data : JsVal) (type id : String) (hp : E.parse message = some data)
    (hn : data.isNullish = false) (ht : JsVal.toKey E (data.get "r") = type)
    (hi : JsVal.toKey E (data.get "id") = id) :
    (getDevice.onAnyType B app type id = .ok .null →
      handleMessage.onAnyMessage B E app message = ⟨app, none⟩) ∧
    (∀ device, getDevice.onAnyType B app type id = .ok (.device device) →
      getDevice.onAnyType B (handleMessage.onAnyMessage B E app message).app type id
        = .ok (.device
          (if (data.get "state").truthy then
            (updateState.onAnyState E device (data.get "state")).device
          else if (data.get "action").truthy then
            (updateState.onAnyState E device (data.get "action")).device
          else if (data.get "config").truthy then
            (updateConfig.onAnyConfig E device (data.get "config")).device
          else device)) ∧
      (handleMessage.onAnyMessage B E app message).error
        = (if (data.get "state").truthy then
            (updateState.onAnyState E device (data.get "state")).error
          else if (data.get "action").truthy then
            (updateState.onAnyState E device (data.get "action")).error
          else if (data.get "config").truthy then
            (updateConfig.onAnyConfig E device (data.get "config")).error
          else none)) ∧
    (∀ truthy, getDevice.onAnyType B app type id = .ok (.builtin truthy) →
      (handleMessage.onAnyMessage B E app message).app = app ∧
      (handleMessage.onAnyMessage B E app message).error
        = (if truthy = true ∧ ((data.get "state").truthy = true
              ∨ (data.get "action").truthy = true ∨ (data.get "config").truthy = true)
          then some .typeError else none)) ∧
    (∀ e, getDevice.onAnyType B app type id = .error e →
      handleMessage.onAnyMessage B E app message = ⟨app, some e⟩) ∧
    (∀ kind k, ¬ (kind = type ∧ k = id) →
      getDevice.onAnyType B (handleMessage.onAnyMessage B E app message).app kind k
        = getDevice.onAnyType B app kind k) := by
  subst ht hi
  simp only [handleMessage.onAnyMessage, hp, handleMessage.dispatchAny, hn, Bool.false_eq_true,
    if_false]
  refine ⟨?_, ?_, ?_, ?_, ?_⟩
  · intro h
    simp only [h]
  · intro device h
    simp only [h]
    constructor
    · split
      · rw [getDevice.onAnyType_afterTranslation]; simp [h]
      · split
        · rw [getDevice.onAnyType_afterTranslation]; simp [h]
        · split
          · rw [getDevice.onAnyType_afterTranslation]; simp [h]
          · exact h
    · split
      · rfl
      · split
        · rfl
        · split <;> rfl
  · intro truthy h
    simp only [h]
    cases truthy with
    | false => simp
    | true =>
      simp only []
      split
      · next h1 => simp [h1]
      · next h1 =>
        split
        · next h2 => simp [h2]
        · next h2 =>
          split
          · next h3 => simp [h3]
          · next h3 => simp [h1, h2, h3]
  · intro e h
    simp only [h]
  · intro kind k hk
    cases h : getDevice.onAnyType B app (JsVal.toKey E (data.get "r"))
        (JsVal.toKey E (data.get "id")) with
    | error e => rfl
    | ok found =>
      cases found with
      | null => rfl
      | builtin truthy =>
        cases truthy with
        | false => rfl
        | true =>
          simp only []
          split
          · rfl
          · split
            · rfl
            · split <;> rfl
      | device device =>
        simp only []
        split
        · rw [getDevice.onAnyType_afterTranslation, if_neg hk]
        · split
          · rw [getDevice.onAnyType_afterTranslation, if_neg hk]
          · split
            · rw [getDevice.onAnyType_afterTranslation, if_neg hk]
            · rfl

/-- C8 at concrete inputs: the stream message with a button event of the sensor 7 runs
`updateState` on that sensor; the message for the sensor 8, which is not registered,
leaves the application as it is; and the message whose `r` is `__proto__` and whose `id`
is `hasOwnProperty`, for which `getDevice` returns a function, throws a `TypeError` and
leaves the application as it is. -/
theorem handleMessage_dispatches_one_example :
    getDevice.onAnyType Builtins.sample
        (handleMessage.onAnyMessage Builtins.sample Env.inheritedNames App.oneSensor
          buttonMessageText).app "sensors" "7"
      = .ok (.device (updateState.onAnyState Env.inheritedNames (Device.fresh [])
          buttonState).device) ∧
    handleMessage.onAnyMessage Builtins.sample Env.inheritedNames App.oneSensor
        strangerMessageText = ⟨App.oneSensor, none⟩ ∧
    getDevice.onAnyType Builtins.sample App.oneSensor "__proto__" "hasOwnProperty"
      = .ok (.builtin true) ∧
    (handleMessage.onAnyMessage Builtins.sample Env.inheritedNames App.oneSensor
        inheritedMessageText).app = App.oneSensor ∧
    (handleMessage.onAnyMessage Builtins.sample Env.inheritedNames App.oneSensor
        inheritedMessageText).error = some .typeError :=
  ⟨((handleMessage_dispatches_one Builtins.sample Env.inheritedNames App.oneSensor
      buttonMessageText buttonMessage "sensors" "7" rfl rfl rfl rfl).2.1
        (Device.fresh []) rfl).1,
    (handleMessage_dispatches_one Builtins.sample Env.inheritedNames App.oneSensor
      strangerMessageText strangerMessage "sensors" "8" rfl rfl rfl rfl).1 rfl,
    rfl,
    ((handleMessage_dispatches_one Builtins.sample Env.inheritedNames App.oneSensor
      inheritedMessageText inheritedMessage "__proto__" "hasOwnProperty" rfl rfl rfl
        rfl).2.2.1 true rfl).1,
    ((handleMessage_dispatches_one Builtins.sample Env.inheritedNames App.oneSensor
      inheritedMessageText inheritedMessage "__proto__" "hasOwnProperty" rfl rfl rfl
        rfl).2.2.1 true rfl).2⟩

end HomeyCONZ
